import Mathlib

/-!
VulkanLearning: the selection logic, the configuration structs, the static data and the
call sequence of the tutorial samples.

A shallow embedding of the samples `00-init-instance`,
`00-instance-and-physical-device-selection`, `03-init-command-buffer`,
`04-init-swapchain`, `09-init-render-pass` and `13-init-pipeline`, followed by the
properties established about them.

Machine integers (`uint32_t`, `std::size_t`, Vulkan flag masks and enums) are
natural numbers; a narrowing `static_cast<uint32_t>` is written `% 2 ^ 32`.
Each sample is a standalone program, so each sample has its own namespace
holding the translation of its own `main.cpp`. The function `main` of a sample is
embedded as the sequence of its API calls, checks and early returns, which `run` executes
against arbitrary return values of the calls.
-/

namespace VulkanLearning

/-! ## Values shared by all samples -/

/-- The value `std::numeric_limits<uint32_t>::max()`, used as "not found" sentinel. -/
def UINT32_MAX : Nat := 0xFFFFFFFF

/-- The narrowing conversion `static_cast<uint32_t>(i)` of a `std::size_t`. -/
def toUint32 (i : Nat) : Nat := i % 2 ^ 32

/-- The length `VK_MAX_MEMORY_TYPES` of the `memoryTypes` array. -/
def VK_MAX_MEMORY_TYPES : Nat := 32

/-- The Vulkan struct `VkMemoryType`. -/
structure VkMemoryType where
  propertyFlags : Nat
  heapIndex : Nat
  deriving DecidableEq, Repr

/-- The Vulkan struct `VkPhysicalDeviceMemoryProperties`, restricted to the memory
types: a count and the fixed array of `VK_MAX_MEMORY_TYPES` entries. -/
structure VkPhysicalDeviceMemoryProperties where
  memoryTypeCount : Nat
  memoryTypes : Fin 32 → VkMemoryType

/-- The Vulkan struct `VkMemoryRequirements`. -/
structure VkMemoryRequirements where
  size : Nat
  alignment : Nat
  memoryTypeBits : Nat
  deriving DecidableEq, Repr

/-- The array read `physical_device_mem_props.memoryTypes[i]`; `none` stands for a
read past the end of the 32-entry array. -/
def memoryTypeAt (props : VkPhysicalDeviceMemoryProperties) (i : Nat) :
    Option VkMemoryType :=
  if h : i < 32 then some (props.memoryTypes ⟨i, h⟩) else none

/-- Entry `i` of the table matches the request: bit `i` of `memoryTypeBits` is set and
`(memoryTypes[i].propertyFlags & prop_flags) == prop_flags`. -/
def MemoryTypeMatches (props : VkPhysicalDeviceMemoryProperties) (memoryTypeBits : Nat)
    (prop_flags : Nat) (i : Nat) : Prop :=
  memoryTypeBits.testBit i = true ∧
    ∃ t, memoryTypeAt props i = some t ∧ t.propertyFlags &&& prop_flags = prop_flags

/-- Index `i` is a candidate of the memory-type search: it is below
`memoryTypeCount` and entry `i` matches the request. -/
def MemoryTypeSuitable (props : VkPhysicalDeviceMemoryProperties) (memoryTypeBits : Nat)
    (prop_flags : Nat) (i : Nat) : Prop :=
  i < props.memoryTypeCount ∧ MemoryTypeMatches props memoryTypeBits prop_flags i

/-- A table of three memory types with property flags 1, 6 and 7. -/
def exampleMemoryProperties : VkPhysicalDeviceMemoryProperties where
  memoryTypeCount := 3
  memoryTypes := fun i =>
    if i.val = 0 then ⟨1, 0⟩ else if i.val = 1 then ⟨6, 0⟩ else if i.val = 2 then ⟨7, 1⟩
    else ⟨0, 0⟩

/-- The Vulkan constant `VK_TRUE`. -/
def VK_TRUE : Nat := 1

/-- The Vulkan constant `VK_FALSE`. -/
def VK_FALSE : Nat := 0

/-- The Vulkan enumerator `VK_PHYSICAL_DEVICE_TYPE_INTEGRATED_GPU`. -/
def VK_PHYSICAL_DEVICE_TYPE_INTEGRATED_GPU : Nat := 1

/-- The Vulkan enumerator `VK_PHYSICAL_DEVICE_TYPE_DISCRETE_GPU`. -/
def VK_PHYSICAL_DEVICE_TYPE_DISCRETE_GPU : Nat := 2

/-- The Vulkan flag `VK_QUEUE_GRAPHICS_BIT`. -/
def VK_QUEUE_GRAPHICS_BIT : Nat := 1

/-- The Vulkan enumerator `VK_FORMAT_UNDEFINED`. -/
def VK_FORMAT_UNDEFINED : Nat := 0

/-- The Vulkan enumerator `VK_FORMAT_B8G8R8A8_UNORM`. -/
def VK_FORMAT_B8G8R8A8_UNORM : Nat := 44

/-- The Vulkan enumerator `VK_COLOR_SPACE_SRGB_NONLINEAR_KHR`. -/
def VK_COLOR_SPACE_SRGB_NONLINEAR_KHR : Nat := 0

/-- The Vulkan enumerator `VK_PRESENT_MODE_IMMEDIATE_KHR`. -/
def VK_PRESENT_MODE_IMMEDIATE_KHR : Nat := 0

/-- The Vulkan enumerator `VK_PRESENT_MODE_MAILBOX_KHR`. -/
def VK_PRESENT_MODE_MAILBOX_KHR : Nat := 1

/-- The Vulkan enumerator `VK_PRESENT_MODE_FIFO_KHR`. -/
def VK_PRESENT_MODE_FIFO_KHR : Nat := 2

/-- The Vulkan struct `VkSurfaceFormatKHR`. -/
structure VkSurfaceFormatKHR where
  format : Nat
  colorSpace : Nat
  deriving DecidableEq, Repr

/-- The Vulkan struct `VkExtent2D`. -/
structure VkExtent2D where
  width : Nat
  height : Nat
  deriving DecidableEq, Repr

/-- The Vulkan struct `VkSurfaceCapabilitiesKHR`, restricted to the fields the samples
read. -/
structure VkSurfaceCapabilitiesKHR where
  minImageCount : Nat
  currentExtent : VkExtent2D
  minImageExtent : VkExtent2D
  maxImageExtent : VkExtent2D
  currentTransform : Nat
  deriving DecidableEq, Repr

/-- What the queue-family loop reads for family `i`: `queue_families[i].queueFlags` and
the `VkBool32` that `vkGetPhysicalDeviceSurfaceSupportKHR` leaves in `present_support`. -/
structure QueueFamily where
  queueFlags : Nat
  present_support : Nat
  deriving DecidableEq, Repr

/-- The outcome of a step of `main`: `.error msg` when `main` writes `msg` to `std::cerr`
and returns `EXIT_FAILURE` at this step, `.ok v` when it goes on with the value `v`. -/
abbrev MainStep (α : Type) := Except String α

/-- The library function `std::clamp(v, lo, hi)` on `uint32_t`, as the C++ library in use
defines it: `std::min(std::max(v, lo), hi)`. Its precondition `!(hi < lo)` is an assertion
of the library that is compiled out by default; for `hi < lo` the C++ standard leaves the
call undefined, and this formula returns `hi`. -/
def std_clamp (v lo hi : Nat) : Nat := min (max v lo) hi

/-- The pair `(VK_FORMAT_B8G8R8A8_UNORM, VK_COLOR_SPACE_SRGB_NONLINEAR_KHR)` that the
surface-format pick looks for. -/
def preferredSurfaceFormat : VkSurfaceFormatKHR :=
  ⟨VK_FORMAT_B8G8R8A8_UNORM, VK_COLOR_SPACE_SRGB_NONLINEAR_KHR⟩

/-- Exchanges the device types `DISCRETE_GPU` and `INTEGRATED_GPU`, fixing all others. -/
def swapDiscreteIntegrated (deviceType : Nat) : Nat :=
  if deviceType = VK_PHYSICAL_DEVICE_TYPE_DISCRETE_GPU then
    VK_PHYSICAL_DEVICE_TYPE_INTEGRATED_GPU
  else if deviceType = VK_PHYSICAL_DEVICE_TYPE_INTEGRATED_GPU then
    VK_PHYSICAL_DEVICE_TYPE_DISCRETE_GPU
  else deviceType

/-- The family has `VK_QUEUE_GRAPHICS_BIT` set in its `queueFlags`. -/
abbrev QueueFamily.hasGraphics (family : QueueFamily) : Prop :=
  family.queueFlags &&& VK_QUEUE_GRAPHICS_BIT ≠ 0

/-- The family has present support `VK_TRUE` for the surface. -/
abbrev QueueFamily.hasPresent (family : QueueFamily) : Prop :=
  family.present_support = VK_TRUE

/-- Specification helper: the index, counted from `i`, of the first family of the list
that satisfies `P`, and the sentinel `UINT32_MAX` when there is none. -/
def firstIndexFrom (P : QueueFamily → Prop) [DecidablePred P] : List QueueFamily → Nat → Nat
  | [], _ => UINT32_MAX
  | family :: rest, i => if P family then i else firstIndexFrom P rest (i + 1)

/-! ## Sample 03-init-command-buffer -/

namespace Sample03

/-- The physical-device loop of 03-init-command-buffer (lines 90-101) over the `deviceType` that
`vkGetPhysicalDeviceProperties` reports for each entry of `physical_devices`; the second
argument is `i`. The result is the final `physical_device_index`. -/
def physical_device_index.loop : List Nat → Nat → Nat
  | [], _ => UINT32_MAX
  | deviceType :: rest, i =>
    if deviceType = VK_PHYSICAL_DEVICE_TYPE_DISCRETE_GPU then toUint32 i
    else physical_device_index.loop rest (i + 1)

/-- The physical-device selection of 03-init-command-buffer (lines 90-107): the loop, then the
check of the sentinel. -/
def physical_device_index (deviceTypes : List Nat) : MainStep Nat :=
  if physical_device_index.loop deviceTypes 0 = UINT32_MAX then
    .error "Suitable device not found."
  else .ok (physical_device_index.loop deviceTypes 0)

end Sample03

/-! ## Sample 04-init-swapchain -/

namespace Sample04

/-- The physical-device loop of 04-init-swapchain (lines 97-108) over the `deviceType` that
`vkGetPhysicalDeviceProperties` reports for each entry of `physical_devices`; the second
argument is `i`. The result is the final `physical_device_index`. -/
def physical_device_index.loop : List Nat → Nat → Nat
  | [], _ => UINT32_MAX
  | deviceType :: rest, i =>
    if deviceType = VK_PHYSICAL_DEVICE_TYPE_DISCRETE_GPU then toUint32 i
    else physical_device_index.loop rest (i + 1)

/-- The physical-device selection of 04-init-swapchain (lines 97-114): the loop, then the
check of the sentinel. -/
def physical_device_index (deviceTypes : List Nat) : MainStep Nat :=
  if physical_device_index.loop deviceTypes 0 = UINT32_MAX then
    .error "Suitable device not found."
  else .ok (physical_device_index.loop deviceTypes 0)

/-- The queue-family loop of 04-init-swapchain (lines 125-153); the arguments after the
families are `i`, `graphics_queue_family_index` and `present_queue_family_index`. -/
def queue_family_scan.loop : List QueueFamily → Nat → Nat → Nat → Nat × Nat
  | [], _, graphics_queue_family_index, present_queue_family_index =>
    (graphics_queue_family_index, present_queue_family_index)
  | family :: rest, i, graphics_queue_family_index, present_queue_family_index =>
    if family.queueFlags &&& VK_QUEUE_GRAPHICS_BIT ≠ 0 then
      if family.present_support = VK_TRUE then (toUint32 i, toUint32 i)
      else
        queue_family_scan.loop rest (i + 1)
          (if graphics_queue_family_index = UINT32_MAX then toUint32 i
            else graphics_queue_family_index)
          (if present_queue_family_index = UINT32_MAX ∧ family.present_support = VK_TRUE then
            toUint32 i else present_queue_family_index)
    else
      queue_family_scan.loop rest (i + 1) graphics_queue_family_index
        (if present_queue_family_index = UINT32_MAX ∧ family.present_support = VK_TRUE then
          toUint32 i else present_queue_family_index)

/-- The pair `(graphics_queue_family_index, present_queue_family_index)` after the
queue-family loop of 04-init-swapchain, both started at the sentinel. -/
def queue_family_scan (queue_families : List QueueFamily) : Nat × Nat :=
  queue_family_scan.loop queue_families 0 UINT32_MAX UINT32_MAX

/-- The variable `graphics_queue_family_index` after the loop. -/
def graphics_queue_family_index (queue_families : List QueueFamily) : Nat :=
  (queue_family_scan queue_families).1

/-- The variable `present_queue_family_index` after the loop. -/
def present_queue_family_index (queue_families : List QueueFamily) : Nat :=
  (queue_family_scan queue_families).2

/-- The queue-family step of 04-init-swapchain (lines 125-165): the loop, then the two
sentinel checks. -/
def queue_family_step (queue_families : List QueueFamily) : MainStep (Nat × Nat) :=
  if graphics_queue_family_index queue_families = UINT32_MAX then
    .error "Suitable graphic queue family not found."
  else if present_queue_family_index queue_families = UINT32_MAX then
    .error "Suitable present queue family not found."
  else .ok (graphics_queue_family_index queue_families,
    present_queue_family_index queue_families)

/-- The range-`for` of the `surface_format` lambda of 04-init-swapchain: the entry at which
it returns, `none` when it runs to the end. -/
def surface_format.loop : List VkSurfaceFormatKHR → Option VkSurfaceFormatKHR
  | [] => none
  | format :: rest =>
    if format.format = VK_FORMAT_B8G8R8A8_UNORM ∧
        format.colorSpace = VK_COLOR_SPACE_SRGB_NONLINEAR_KHR then some format
    else surface_format.loop rest

/-- The surface-format step of 04-init-swapchain (lines 238-261): the `empty()` check of
`main`, then the `surface_format` lambda. -/
def surface_format (surface_formats : List VkSurfaceFormatKHR) : MainStep VkSurfaceFormatKHR :=
  match surface_formats with
  | [] => .error "Suitable surface format not found."
  | front :: _ =>
    if surface_formats.length = 1 ∧ front.format = VK_FORMAT_UNDEFINED then
      .ok ⟨VK_FORMAT_B8G8R8A8_UNORM, VK_COLOR_SPACE_SRGB_NONLINEAR_KHR⟩
    else
      match surface_format.loop surface_formats with
      | some format => .ok format
      | none => .ok front

/-- The range-`for` of the `present_mode` lambda of 04-init-swapchain; the second argument
is `best_mode`. -/
def present_mode.loop : List Nat → Nat → Nat
  | [], best_mode => best_mode
  | mode :: rest, best_mode =>
    if mode = VK_PRESENT_MODE_MAILBOX_KHR then mode
    else if mode = VK_PRESENT_MODE_IMMEDIATE_KHR then present_mode.loop rest mode
    else present_mode.loop rest best_mode

/-- The `present_mode` lambda of 04-init-swapchain (lines 274-288). -/
def present_mode (present_modes : List Nat) : Nat :=
  present_mode.loop present_modes VK_PRESENT_MODE_FIFO_KHR

/-- The constant `c_width` (line 40). -/
def c_width : Nat := 640

/-- The constant `c_height` (line 41). -/
def c_height : Nat := 480

/-- The `extent` lambda of 04-init-swapchain (lines 290-306). -/
def extent (surface_capabilities : VkSurfaceCapabilitiesKHR) : VkExtent2D :=
  if surface_capabilities.currentExtent.width ≠ UINT32_MAX then
    surface_capabilities.currentExtent
  else
    { width := std_clamp c_width surface_capabilities.minImageExtent.width
        surface_capabilities.maxImageExtent.width
      height := std_clamp c_height surface_capabilities.minImageExtent.height
        surface_capabilities.maxImageExtent.height }

end Sample04

/-! ## Sample 09-init-render-pass -/

namespace Sample09

/-- The `for` loop of `findMemoryTypeIndex` (09-init-render-pass, lines 67-77).
The first argument counts the iterations that remain
(`memoryTypeCount - i`), then come `i` and the current `mem_type_bits`.
The result is the final `type_index`; `none` is a read outside `memoryTypes`. -/
def findMemoryTypeIndex.loop (props : VkPhysicalDeviceMemoryProperties) (prop_flags : Nat) :
    Nat → Nat → Nat → Option Nat
  | 0, _, _ => some UINT32_MAX
  | n + 1, i, mem_type_bits =>
    if mem_type_bits &&& 1 = 1 then
      match memoryTypeAt props i with
      | none => none
      | some t =>
        if t.propertyFlags &&& prop_flags = prop_flags then some i
        else findMemoryTypeIndex.loop props prop_flags n (i + 1) (mem_type_bits >>> 1)
    else findMemoryTypeIndex.loop props prop_flags n (i + 1) (mem_type_bits >>> 1)

/-- The function `findMemoryTypeIndex` of 09-init-render-pass (lines 59-83). -/
def findMemoryTypeIndex (physical_device_mem_props : VkPhysicalDeviceMemoryProperties)
    (mem_reqs : VkMemoryRequirements) (prop_flags : Nat) : Option (Bool × Nat) :=
  match findMemoryTypeIndex.loop physical_device_mem_props prop_flags
      physical_device_mem_props.memoryTypeCount 0 mem_reqs.memoryTypeBits with
  | none => none
  | some type_index => some (type_index != UINT32_MAX, type_index)

/-- The physical-device loop of 09-init-render-pass (lines 139-151) over the `deviceType` that
`vkGetPhysicalDeviceProperties` reports for each entry of `physical_devices`; the second
argument is `i`. The result is the final `physical_device_index`. -/
def physical_device_index.loop : List Nat → Nat → Nat
  | [], _ => UINT32_MAX
  | deviceType :: rest, i =>
    if deviceType = VK_PHYSICAL_DEVICE_TYPE_DISCRETE_GPU then toUint32 i
    else physical_device_index.loop rest (i + 1)

/-- The physical-device selection of 09-init-render-pass (lines 139-156): the loop, then the
check of the sentinel. -/
def physical_device_index (deviceTypes : List Nat) : MainStep Nat :=
  if physical_device_index.loop deviceTypes 0 = UINT32_MAX then
    .error "Suitable device not found."
  else .ok (physical_device_index.loop deviceTypes 0)

/-- The queue-family loop of 09-init-render-pass (lines 170-198); the arguments after the
families are `i`, `graphics_queue_family_index` and `present_queue_family_index`. -/
def queue_family_scan.loop : List QueueFamily → Nat → Nat → Nat → Nat × Nat
  | [], _, graphics_queue_family_index, present_queue_family_index =>
    (graphics_queue_family_index, present_queue_family_index)
  | family :: rest, i, graphics_queue_family_index, present_queue_family_index =>
    if family.queueFlags &&& VK_QUEUE_GRAPHICS_BIT ≠ 0 then
      if family.present_support = VK_TRUE then (toUint32 i, toUint32 i)
      else
        queue_family_scan.loop rest (i + 1)
          (if graphics_queue_family_index = UINT32_MAX then toUint32 i
            else graphics_queue_family_index)
          (if present_queue_family_index = UINT32_MAX ∧ family.present_support = VK_TRUE then
            toUint32 i else present_queue_family_index)
    else
      queue_family_scan.loop rest (i + 1) graphics_queue_family_index
        (if present_queue_family_index = UINT32_MAX ∧ family.present_support = VK_TRUE then
          toUint32 i else present_queue_family_index)

/-- The pair `(graphics_queue_family_index, present_queue_family_index)` after the
queue-family loop of 09-init-render-pass, both started at the sentinel. -/
def queue_family_scan (queue_families : List QueueFamily) : Nat × Nat :=
  queue_family_scan.loop queue_families 0 UINT32_MAX UINT32_MAX

/-- The variable `graphics_queue_family_index` after the loop. -/
def graphics_queue_family_index (queue_families : List QueueFamily) : Nat :=
  (queue_family_scan queue_families).1

/-- The variable `present_queue_family_index` after the loop. -/
def present_queue_family_index (queue_families : List QueueFamily) : Nat :=
  (queue_family_scan queue_families).2

/-- The queue-family step of 09-init-render-pass (lines 170-210): the loop, then the two
sentinel checks. -/
def queue_family_step (queue_families : List QueueFamily) : MainStep (Nat × Nat) :=
  if graphics_queue_family_index queue_families = UINT32_MAX then
    .error "Suitable graphic queue family not found."
  else if present_queue_family_index queue_families = UINT32_MAX then
    .error "Suitable present queue family not found."
  else .ok (graphics_queue_family_index queue_families,
    present_queue_family_index queue_families)

/-- The range-`for` of the `surface_format` lambda of 09-init-render-pass: the entry at which
it returns, `none` when it runs to the end. -/
def surface_format.loop : List VkSurfaceFormatKHR → Option VkSurfaceFormatKHR
  | [] => none
  | format :: rest =>
    if format.format = VK_FORMAT_B8G8R8A8_UNORM ∧
        format.colorSpace = VK_COLOR_SPACE_SRGB_NONLINEAR_KHR then some format
    else surface_format.loop rest

/-- The surface-format step of 09-init-render-pass (lines 283-306): the `empty()` check of
`main`, then the `surface_format` lambda. -/
def surface_format (surface_formats : List VkSurfaceFormatKHR) : MainStep VkSurfaceFormatKHR :=
  match surface_formats with
  | [] => .error "Suitable surface format not found."
  | front :: _ =>
    if surface_formats.length = 1 ∧ front.format = VK_FORMAT_UNDEFINED then
      .ok ⟨VK_FORMAT_B8G8R8A8_UNORM, VK_COLOR_SPACE_SRGB_NONLINEAR_KHR⟩
    else
      match surface_format.loop surface_formats with
      | some format => .ok format
      | none => .ok front

/-- The range-`for` of the `present_mode` lambda of 09-init-render-pass; the second argument
is `best_mode`. -/
def present_mode.loop : List Nat → Nat → Nat
  | [], best_mode => best_mode
  | mode :: rest, best_mode =>
    if mode = VK_PRESENT_MODE_MAILBOX_KHR then mode
    else if mode = VK_PRESENT_MODE_IMMEDIATE_KHR then present_mode.loop rest mode
    else present_mode.loop rest best_mode

/-- The `present_mode` lambda of 09-init-render-pass (lines 319-333). -/
def present_mode (present_modes : List Nat) : Nat :=
  present_mode.loop present_modes VK_PRESENT_MODE_FIFO_KHR

/-- The constant `c_width` (line 42). -/
def c_width : Nat := 640

/-- The constant `c_height` (line 43). -/
def c_height : Nat := 480

/-- The `extent` lambda of 09-init-render-pass (lines 335-351). -/
def extent (surface_capabilities : VkSurfaceCapabilitiesKHR) : VkExtent2D :=
  if surface_capabilities.currentExtent.width ≠ UINT32_MAX then
    surface_capabilities.currentExtent
  else
    { width := std_clamp c_width surface_capabilities.minImageExtent.width
        surface_capabilities.maxImageExtent.width
      height := std_clamp c_height surface_capabilities.minImageExtent.height
        surface_capabilities.maxImageExtent.height }

end Sample09

/-! ## Sample 13-init-pipeline -/

namespace Sample13

/-- The `for` loop of `findMemoryTypeIndex` (13-init-pipeline, lines 282-292).
The first argument counts the iterations that remain
(`memoryTypeCount - i`), then come `i` and the current `mem_type_bits`.
The result is the final `type_index`; `none` is a read outside `memoryTypes`. -/
def findMemoryTypeIndex.loop (props : VkPhysicalDeviceMemoryProperties) (prop_flags : Nat) :
    Nat → Nat → Nat → Option Nat
  | 0, _, _ => some UINT32_MAX
  | n + 1, i, mem_type_bits =>
    if mem_type_bits &&& 1 = 1 then
      match memoryTypeAt props i with
      | none => none
      | some t =>
        if t.propertyFlags &&& prop_flags = prop_flags then some i
        else findMemoryTypeIndex.loop props prop_flags n (i + 1) (mem_type_bits >>> 1)
    else findMemoryTypeIndex.loop props prop_flags n (i + 1) (mem_type_bits >>> 1)

/-- The function `findMemoryTypeIndex` of 13-init-pipeline (lines 274-298). -/
def findMemoryTypeIndex (physical_device_mem_props : VkPhysicalDeviceMemoryProperties)
    (mem_reqs : VkMemoryRequirements) (prop_flags : Nat) : Option (Bool × Nat) :=
  match findMemoryTypeIndex.loop physical_device_mem_props prop_flags
      physical_device_mem_props.memoryTypeCount 0 mem_reqs.memoryTypeBits with
  | none => none
  | some type_index => some (type_index != UINT32_MAX, type_index)

/-- The physical-device loop of 13-init-pipeline (lines 369-381) over the `deviceType` that
`vkGetPhysicalDeviceProperties` reports for each entry of `physical_devices`; the second
argument is `i`. The result is the final `physical_device_index`. -/
def physical_device_index.loop : List Nat → Nat → Nat
  | [], _ => UINT32_MAX
  | deviceType :: rest, i =>
    if deviceType = VK_PHYSICAL_DEVICE_TYPE_INTEGRATED_GPU then toUint32 i
    else physical_device_index.loop rest (i + 1)

/-- The physical-device selection of 13-init-pipeline (lines 369-386): the loop, then the
check of the sentinel. -/
def physical_device_index (deviceTypes : List Nat) : MainStep Nat :=
  if physical_device_index.loop deviceTypes 0 = UINT32_MAX then
    .error "Suitable device not found."
  else .ok (physical_device_index.loop deviceTypes 0)

/-- The queue-family loop of 13-init-pipeline (lines 400-428); the arguments after the
families are `i`, `graphics_queue_family_index` and `present_queue_family_index`. -/
def queue_family_scan.loop : List QueueFamily → Nat → Nat → Nat → Nat × Nat
  | [], _, graphics_queue_family_index, present_queue_family_index =>
    (graphics_queue_family_index, present_queue_family_index)
  | family :: rest, i, graphics_queue_family_index, present_queue_family_index =>
    if family.queueFlags &&& VK_QUEUE_GRAPHICS_BIT ≠ 0 then
      if family.present_support = VK_TRUE then (toUint32 i, toUint32 i)
      else
        queue_family_scan.loop rest (i + 1)
          (if graphics_queue_family_index = UINT32_MAX then toUint32 i
            else graphics_queue_family_index)
          (if present_queue_family_index = UINT32_MAX ∧ family.present_support = VK_TRUE then
            toUint32 i else present_queue_family_index)
    else
      queue_family_scan.loop rest (i + 1) graphics_queue_family_index
        (if present_queue_family_index = UINT32_MAX ∧ family.present_support = VK_TRUE then
          toUint32 i else present_queue_family_index)

/-- The pair `(graphics_queue_family_index, present_queue_family_index)` after the
queue-family loop of 13-init-pipeline, both started at the sentinel. -/
def queue_family_scan (queue_families : List QueueFamily) : Nat × Nat :=
  queue_family_scan.loop queue_families 0 UINT32_MAX UINT32_MAX

/-- The variable `graphics_queue_family_index` after the loop. -/
def graphics_queue_family_index (queue_families : List QueueFamily) : Nat :=
  (queue_family_scan queue_families).1

/-- The variable `present_queue_family_index` after the loop. -/
def present_queue_family_index (queue_families : List QueueFamily) : Nat :=
  (queue_family_scan queue_families).2

/-- The queue-family step of 13-init-pipeline (lines 400-440): the loop, then the two
sentinel checks. -/
def queue_family_step (queue_families : List QueueFamily) : MainStep (Nat × Nat) :=
  if graphics_queue_family_index queue_families = UINT32_MAX then
    .error "Suitable graphic queue family not found."
  else if present_queue_family_index queue_families = UINT32_MAX then
    .error "Suitable present queue family not found."
  else .ok (graphics_queue_family_index queue_families,
    present_queue_family_index queue_families)

/-- The range-`for` of the `surface_format` lambda of 13-init-pipeline: the entry at which
it returns, `none` when it runs to the end. -/
def surface_format.loop : List VkSurfaceFormatKHR → Option VkSurfaceFormatKHR
  | [] => none
  | format :: rest =>
    if format.format = VK_FORMAT_B8G8R8A8_UNORM ∧
        format.colorSpace = VK_COLOR_SPACE_SRGB_NONLINEAR_KHR then some format
    else surface_format.loop rest

/-- The surface-format step of 13-init-pipeline (lines 523-546): the `empty()` check of
`main`, then the `surface_format` lambda. -/
def surface_format (surface_formats : List VkSurfaceFormatKHR) : MainStep VkSurfaceFormatKHR :=
  match surface_formats with
  | [] => .error "Suitable surface format not found."
  | front :: _ =>
    if surface_formats.length = 1 ∧ front.format = VK_FORMAT_UNDEFINED then
      .ok ⟨VK_FORMAT_B8G8R8A8_UNORM, VK_COLOR_SPACE_SRGB_NONLINEAR_KHR⟩
    else
      match surface_format.loop surface_formats with
      | some format => .ok format
      | none => .ok front

/-- The range-`for` of the `present_mode` lambda of 13-init-pipeline; the second argument
is `best_mode`. -/
def present_mode.loop : List Nat → Nat → Nat
  | [], best_mode => best_mode
  | mode :: rest, best_mode =>
    if mode = VK_PRESENT_MODE_MAILBOX_KHR then mode
    else if mode = VK_PRESENT_MODE_IMMEDIATE_KHR then present_mode.loop rest mode
    else present_mode.loop rest best_mode

/-- The `present_mode` lambda of 13-init-pipeline (lines 559-573). -/
def present_mode (present_modes : List Nat) : Nat :=
  present_mode.loop present_modes VK_PRESENT_MODE_FIFO_KHR

/-- The constant `c_width` (line 44). -/
def c_width : Nat := 640

/-- The constant `c_height` (line 45). -/
def c_height : Nat := 480

/-- The `extent` lambda of 13-init-pipeline (lines 575-591). -/
def extent (surface_capabilities : VkSurfaceCapabilitiesKHR) : VkExtent2D :=
  if surface_capabilities.currentExtent.width ≠ UINT32_MAX then
    surface_capabilities.currentExtent
  else
    { width := std_clamp c_width surface_capabilities.minImageExtent.width
        surface_capabilities.maxImageExtent.width
      height := std_clamp c_height surface_capabilities.minImageExtent.height
        surface_capabilities.maxImageExtent.height }

end Sample13

/-! ## Device and swapchain configuration -/

/-- The Vulkan enumerator `VK_SHARING_MODE_EXCLUSIVE`. -/
def VK_SHARING_MODE_EXCLUSIVE : Nat := 0

/-- The Vulkan enumerator `VK_SHARING_MODE_CONCURRENT`. -/
def VK_SHARING_MODE_CONCURRENT : Nat := 1

/-- The Vulkan flag `VK_IMAGE_USAGE_COLOR_ATTACHMENT_BIT`. -/
def VK_IMAGE_USAGE_COLOR_ATTACHMENT_BIT : Nat := 0x10

/-- The Vulkan flag `VK_COMPOSITE_ALPHA_OPAQUE_BIT_KHR`. -/
def VK_COMPOSITE_ALPHA_OPAQUE_BIT_KHR : Nat := 1

/-- The Vulkan struct `VkDeviceQueueCreateInfo`, restricted to the queue family and the
queue count. -/
structure VkDeviceQueueCreateInfo where
  queueFamilyIndex : Nat
  queueCount : Nat
  deriving DecidableEq, Repr

/-- The Vulkan struct `VkDeviceCreateInfo`, restricted to the queue create infos and the
number of enabled extensions; `pQueueCreateInfos` is the array the pointer refers to. -/
structure VkDeviceCreateInfo where
  queueCreateInfoCount : Nat
  pQueueCreateInfos : List VkDeviceQueueCreateInfo
  enabledExtensionCount : Nat
  deriving DecidableEq, Repr

/-- A value of the pointer `pQueueFamilyIndices` in `main`: the null pointer of the
zero-initialised struct, or the address of the local array `queue_family_indices`. -/
inductive QueueFamilyIndicesPointer where
  | null
  | queue_family_indices
  deriving DecidableEq, Repr

/-- The two points of `main` at which the array `queue_family_indices` is looked at: in
the block of the `if` that declares it, after the last statement of the block, and at the
call of `vkCreateSwapchainKHR`, which comes after the block. -/
inductive ProgramPoint where
  | insideBlock
  | atCreateSwapchain
  deriving DecidableEq, Repr

/-- The array read through a pointer `pQueueFamilyIndices`, where `queue_family_indices`
is the local array at the point of the read, `none` when it is not alive there: `none` for
the null pointer and for a pointer to an array that is not alive. -/
def readThrough (pointer : QueueFamilyIndicesPointer)
    (queue_family_indices : Option (List Nat)) : Option (List Nat) :=
  match pointer with
  | .null => none
  | .queue_family_indices => queue_family_indices

/-- The Vulkan struct `VkSwapchainCreateInfoKHR` without `sType`, `surface` and
`oldSwapchain`; `pQueueFamilyIndices` is the pointer itself, not the array it refers
to. -/
structure VkSwapchainCreateInfoKHR where
  minImageCount : Nat
  imageFormat : Nat
  imageColorSpace : Nat
  imageExtent : VkExtent2D
  imageArrayLayers : Nat
  imageUsage : Nat
  imageSharingMode : Nat
  queueFamilyIndexCount : Nat
  pQueueFamilyIndices : QueueFamilyIndicesPointer
  preTransform : Nat
  compositeAlpha : Nat
  presentMode : Nat
  clipped : Nat
  deriving DecidableEq, Repr

/-- The library operation `std::set<uint32_t>::insert`, on the ascending list of the
elements of the set. -/
def std_set_insert (x : Nat) : List Nat → List Nat
  | [] => [x]
  | y :: rest =>
    if x < y then x :: y :: rest
    else if x = y then y :: rest
    else y :: std_set_insert x rest

namespace Sample04

/-- The set `unique_queue_family_indices` of 04-init-swapchain (lines 168-171), built from
the initializer list of the two indices, as its ascending list of elements. -/
def unique_queue_family_indices (graphics_queue_family_index present_queue_family_index : Nat) :
    List Nat :=
  std_set_insert present_queue_family_index (std_set_insert graphics_queue_family_index [])

/-- The vector `queue_infos` of 04-init-swapchain (lines 167-183): one entry with
`queueCount = 1` for each element of `unique_queue_family_indices`, in iteration order. -/
def queue_infos (graphics_queue_family_index present_queue_family_index : Nat) :
    List VkDeviceQueueCreateInfo :=
  (unique_queue_family_indices graphics_queue_family_index present_queue_family_index).map
    fun queue_family_index => { queueFamilyIndex := queue_family_index, queueCount := 1 }

/-- The struct `device_info` of 04-init-swapchain (lines 185-188). -/
def device_info (graphics_queue_family_index present_queue_family_index : Nat) :
    VkDeviceCreateInfo :=
  { queueCreateInfoCount :=
      toUint32 (queue_infos graphics_queue_family_index present_queue_family_index).length
    pQueueCreateInfos := queue_infos graphics_queue_family_index present_queue_family_index
    enabledExtensionCount := 0 }

/-- The local array `queue_family_indices` of 04-init-swapchain (lines 320-323) at a point
of `main`. It is declared in the block of the `if` of line 318, which is entered when the
two indices differ, and holds the graphics and the present index there; the block ends at
line 327, so at the call of `vkCreateSwapchainKHR` (line 336) the array is not alive. -/
def queue_family_indices (graphics_queue_family_index present_queue_family_index : Nat) :
    ProgramPoint → Option (List Nat)
  | .insideBlock =>
    if graphics_queue_family_index ≠ present_queue_family_index then
      some [graphics_queue_family_index, present_queue_family_index]
    else none
  | .atCreateSwapchain => none

/-- The struct `swapchain_info` of 04-init-swapchain (lines 308-332); `sharing` is the
triple `(imageSharingMode, queueFamilyIndexCount, pQueueFamilyIndices)`, which the `if` on
the two indices overwrites as a whole, the pointer with the address of the array
`queue_family_indices`. The struct is not changed between the block and the call of
`vkCreateSwapchainKHR`. -/
def swapchain_info (surface_capabilities : VkSurfaceCapabilitiesKHR)
    (surface_format : VkSurfaceFormatKHR) (present_mode : Nat) (extent : VkExtent2D)
    (graphics_queue_family_index present_queue_family_index : Nat) :
    VkSwapchainCreateInfoKHR :=
  let sharing : Nat × Nat × QueueFamilyIndicesPointer :=
    if graphics_queue_family_index ≠ present_queue_family_index then
      (VK_SHARING_MODE_CONCURRENT, 2, .queue_family_indices)
    else (VK_SHARING_MODE_EXCLUSIVE, 0, .null)
  { minImageCount := surface_capabilities.minImageCount
    imageFormat := surface_format.format
    imageColorSpace := surface_format.colorSpace
    imageExtent := extent
    imageArrayLayers := 1
    imageUsage := VK_IMAGE_USAGE_COLOR_ATTACHMENT_BIT
    imageSharingMode := sharing.1
    queueFamilyIndexCount := sharing.2.1
    pQueueFamilyIndices := sharing.2.2
    preTransform := surface_capabilities.currentTransform
    compositeAlpha := VK_COMPOSITE_ALPHA_OPAQUE_BIT_KHR
    presentMode := present_mode
    clipped := VK_TRUE }

end Sample04

namespace Sample09

/-- The set `unique_queue_family_indices` of 09-init-render-pass (lines 213-216), built from
the initializer list of the two indices, as its ascending list of elements. -/
def unique_queue_family_indices (graphics_queue_family_index present_queue_family_index : Nat) :
    List Nat :=
  std_set_insert present_queue_family_index (std_set_insert graphics_queue_family_index [])

/-- The vector `queue_infos` of 09-init-render-pass (lines 212-228): one entry with
`queueCount = 1` for each element of `unique_queue_family_indices`, in iteration order. -/
def queue_infos (graphics_queue_family_index present_queue_family_index : Nat) :
    List VkDeviceQueueCreateInfo :=
  (unique_queue_family_indices graphics_queue_family_index present_queue_family_index).map
    fun queue_family_index => { queueFamilyIndex := queue_family_index, queueCount := 1 }

/-- The struct `device_info` of 09-init-render-pass (lines 230-233). -/
def device_info (graphics_queue_family_index present_queue_family_index : Nat) :
    VkDeviceCreateInfo :=
  { queueCreateInfoCount :=
      toUint32 (queue_infos graphics_queue_family_index present_queue_family_index).length
    pQueueCreateInfos := queue_infos graphics_queue_family_index present_queue_family_index
    enabledExtensionCount := 0 }

/-- The local array `queue_family_indices` of 09-init-render-pass (lines 365-368) at a point
of `main`. It is declared in the block of the `if` of line 363, which is entered when the
two indices differ, and holds the graphics and the present index there; the block ends at
line 372, so at the call of `vkCreateSwapchainKHR` (line 381) the array is not alive. -/
def queue_family_indices (graphics_queue_family_index present_queue_family_index : Nat) :
    ProgramPoint → Option (List Nat)
  | .insideBlock =>
    if graphics_queue_family_index ≠ present_queue_family_index then
      some [graphics_queue_family_index, present_queue_family_index]
    else none
  | .atCreateSwapchain => none

/-- The struct `swapchain_info` of 09-init-render-pass (lines 353-377); `sharing` is the
triple `(imageSharingMode, queueFamilyIndexCount, pQueueFamilyIndices)`, which the `if` on
the two indices overwrites as a whole, the pointer with the address of the array
`queue_family_indices`. The struct is not changed between the block and the call of
`vkCreateSwapchainKHR`. -/
def swapchain_info (surface_capabilities : VkSurfaceCapabilitiesKHR)
    (surface_format : VkSurfaceFormatKHR) (present_mode : Nat) (extent : VkExtent2D)
    (graphics_queue_family_index present_queue_family_index : Nat) :
    VkSwapchainCreateInfoKHR :=
  let sharing : Nat × Nat × QueueFamilyIndicesPointer :=
    if graphics_queue_family_index ≠ present_queue_family_index then
      (VK_SHARING_MODE_CONCURRENT, 2, .queue_family_indices)
    else (VK_SHARING_MODE_EXCLUSIVE, 0, .null)
  { minImageCount := surface_capabilities.minImageCount
    imageFormat := surface_format.format
    imageColorSpace := surface_format.colorSpace
    imageExtent := extent
    imageArrayLayers := 1
    imageUsage := VK_IMAGE_USAGE_COLOR_ATTACHMENT_BIT
    imageSharingMode := sharing.1
    queueFamilyIndexCount := sharing.2.1
    pQueueFamilyIndices := sharing.2.2
    preTransform := surface_capabilities.currentTransform
    compositeAlpha := VK_COMPOSITE_ALPHA_OPAQUE_BIT_KHR
    presentMode := present_mode
    clipped := VK_TRUE }

end Sample09

namespace Sample13

/-- The set `unique_queue_family_indices` of 13-init-pipeline (lines 443-446), built from
the initializer list of the two indices, as its ascending list of elements. -/
def unique_queue_family_indices (graphics_queue_family_index present_queue_family_index : Nat) :
    List Nat :=
  std_set_insert present_queue_family_index (std_set_insert graphics_queue_family_index [])

/-- The vector `queue_infos` of 13-init-pipeline (lines 442-458): one entry with
`queueCount = 1` for each element of `unique_queue_family_indices`, in iteration order. -/
def queue_infos (graphics_queue_family_index present_queue_family_index : Nat) :
    List VkDeviceQueueCreateInfo :=
  (unique_queue_family_indices graphics_queue_family_index present_queue_family_index).map
    fun queue_family_index => { queueFamilyIndex := queue_family_index, queueCount := 1 }

/-- The struct `device_info` of 13-init-pipeline (lines 466-473) and the one device extension `VK_KHR_swapchain`. -/
def device_info (graphics_queue_family_index present_queue_family_index : Nat) :
    VkDeviceCreateInfo :=
  { queueCreateInfoCount :=
      toUint32 (queue_infos graphics_queue_family_index present_queue_family_index).length
    pQueueCreateInfos := queue_infos graphics_queue_family_index present_queue_family_index
    enabledExtensionCount := 1 }

/-- The local array `queue_family_indices` of 13-init-pipeline (lines 605-608) at a point
of `main`. It is declared in the block of the `if` of line 603, which is entered when the
two indices differ, and holds the graphics and the present index there; the block ends at
line 612, so at the call of `vkCreateSwapchainKHR` (line 621) the array is not alive. -/
def queue_family_indices (graphics_queue_family_index present_queue_family_index : Nat) :
    ProgramPoint → Option (List Nat)
  | .insideBlock =>
    if graphics_queue_family_index ≠ present_queue_family_index then
      some [graphics_queue_family_index, present_queue_family_index]
    else none
  | .atCreateSwapchain => none

/-- The struct `swapchain_info` of 13-init-pipeline (lines 593-617); `sharing` is the
triple `(imageSharingMode, queueFamilyIndexCount, pQueueFamilyIndices)`, which the `if` on
the two indices overwrites as a whole, the pointer with the address of the array
`queue_family_indices`. The struct is not changed between the block and the call of
`vkCreateSwapchainKHR`. -/
def swapchain_info (surface_capabilities : VkSurfaceCapabilitiesKHR)
    (surface_format : VkSurfaceFormatKHR) (present_mode : Nat) (extent : VkExtent2D)
    (graphics_queue_family_index present_queue_family_index : Nat) :
    VkSwapchainCreateInfoKHR :=
  let sharing : Nat × Nat × QueueFamilyIndicesPointer :=
    if graphics_queue_family_index ≠ present_queue_family_index then
      (VK_SHARING_MODE_CONCURRENT, 2, .queue_family_indices)
    else (VK_SHARING_MODE_EXCLUSIVE, 0, .null)
  { minImageCount := surface_capabilities.minImageCount
    imageFormat := surface_format.format
    imageColorSpace := surface_format.colorSpace
    imageExtent := extent
    imageArrayLayers := 1
    imageUsage := VK_IMAGE_USAGE_COLOR_ATTACHMENT_BIT
    imageSharingMode := sharing.1
    queueFamilyIndexCount := sharing.2.1
    pQueueFamilyIndices := sharing.2.2
    preTransform := surface_capabilities.currentTransform
    compositeAlpha := VK_COMPOSITE_ALPHA_OPAQUE_BIT_KHR
    presentMode := present_mode
    clipped := VK_TRUE }

end Sample13

/-! ## Static cube data and vertex input of sample 13 -/

/-- The Vulkan enumerator `VK_FORMAT_R32G32B32A32_SFLOAT`. -/
def VK_FORMAT_R32G32B32A32_SFLOAT : Nat := 109

/-- The Vulkan enumerator `VK_VERTEX_INPUT_RATE_VERTEX`. -/
def VK_VERTEX_INPUT_RATE_VERTEX : Nat := 0

/-- The Vulkan enumerator `VK_PRIMITIVE_TOPOLOGY_TRIANGLE_LIST`. -/
def VK_PRIMITIVE_TOPOLOGY_TRIANGLE_LIST : Nat := 3

/-- The value of `sizeof(float)`. -/
def sizeof_float : Nat := 4

/-- The number of bytes a vertex attribute of the given format reads; 16 for the four
32-bit floats of `VK_FORMAT_R32G32B32A32_SFLOAT`, the only format the sample uses. -/
def formatSize (format : Nat) : Nat :=
  if format = VK_FORMAT_R32G32B32A32_SFLOAT then 4 * sizeof_float else 0

/-- The Vulkan struct `VkVertexInputBindingDescription`. -/
structure VkVertexInputBindingDescription where
  binding : Nat
  stride : Nat
  inputRate : Nat
  deriving DecidableEq, Repr

/-- The Vulkan struct `VkVertexInputAttributeDescription`. -/
structure VkVertexInputAttributeDescription where
  location : Nat
  binding : Nat
  format : Nat
  offset : Nat
  deriving DecidableEq, Repr

/-- The Vulkan struct `VkPipelineInputAssemblyStateCreateInfo` without `sType`. -/
structure VkPipelineInputAssemblyStateCreateInfo where
  topology : Nat
  primitiveRestartEnable : Nat
  deriving DecidableEq, Repr

/-- Specification helper: the position components `x, y, z` of a row of the vertex table. -/
def rowPosition (row : List Int) : List Int := row.take 3

/-- Specification helper: the colour components `r, g, b` of a row of the vertex table. -/
def rowColor (row : List Int) : List Int := row.drop 3

/-- Specification helper: primitive assembly for the triangle-list topology, triangle `i`
is made of the vertices `3 i`, `3 i + 1` and `3 i + 2`. -/
def triangleList (vertices : List (List Int)) : List (List (List Int)) :=
  match vertices with
  | a :: b :: c :: rest => [a, b, c] :: triangleList rest
  | _ => []

/-- Specification helper: the coordinates that are the same in all the given points, as
pairs of axis (0 for x, 1 for y, 2 for z) and common value. -/
def constantAxes (points : List (List Int)) : List (Nat × Int) :=
  (List.range 3).filterMap fun axis =>
    match points with
    | [] => none
    | first :: _ =>
      if points.all (fun point => point.getD axis 0 == first.getD axis 0) then
        some (axis, first.getD axis 0)
      else none

/-- Specification helper: the four corners of the face of the cube `[-1, 1]^3` that lies
in the plane where the coordinate `axis` has the value `sign`. -/
def faceCorners (axis : Nat) (sign : Int) : List (List Int) :=
  [(-1 : Int), 1].flatMap fun u => [(-1 : Int), 1].map fun v =>
    if axis = 0 then [sign, u, v] else if axis = 1 then [u, sign, v] else [u, v, sign]

/-- Specification helper: the number of coordinates in which two points differ. -/
def differingCoordinates (a b : List Int) : Nat :=
  ((a.zip b).filter fun pair => pair.1 != pair.2).length

namespace Sample13

/-- The table `c_cube_vertices` of 13-init-pipeline (lines 227-270), one list per row of
six floats; every literal of the table is an integer. -/
def c_cube_vertices : List (List Int) := [
    -- red face
    [-1, -1, 1, 1, 0, 0],
    [-1, 1, 1, 1, 0, 0],
    [1, -1, 1, 1, 0, 0],
    [1, -1, 1, 1, 0, 0],
    [-1, 1, 1, 1, 0, 0],
    [1, 1, 1, 1, 0, 0],
    -- green face
    [-1, -1, -1, 0, 1, 0],
    [1, -1, -1, 0, 1, 0],
    [-1, 1, -1, 0, 1, 0],
    [-1, 1, -1, 0, 1, 0],
    [1, -1, -1, 0, 1, 0],
    [1, 1, -1, 0, 1, 0],
    -- blue face
    [-1, 1, 1, 0, 0, 1],
    [-1, -1, 1, 0, 0, 1],
    [-1, 1, -1, 0, 0, 1],
    [-1, 1, -1, 0, 0, 1],
    [-1, -1, 1, 0, 0, 1],
    [-1, -1, -1, 0, 0, 1],
    -- yellow face
    [1, 1, 1, 1, 1, 0],
    [1, 1, -1, 1, 1, 0],
    [1, -1, 1, 1, 1, 0],
    [1, -1, 1, 1, 1, 0],
    [1, 1, -1, 1, 1, 0],
    [1, -1, -1, 1, 1, 0],
    -- magenta face
    [1, 1, 1, 1, 0, 1],
    [-1, 1, 1, 1, 0, 1],
    [1, 1, -1, 1, 0, 1],
    [1, 1, -1, 1, 0, 1],
    [-1, 1, 1, 1, 0, 1],
    [-1, 1, -1, 1, 0, 1],
    -- cyan face
    [1, -1, 1, 0, 1, 1],
    [1, -1, -1, 0, 1, 1],
    [-1, -1, 1, 0, 1, 1],
    [-1, -1, 1, 0, 1, 1],
    [1, -1, -1, 0, 1, 1],
    [-1, -1, -1, 0, 1, 1]]

/-- The value of `sizeof(c_cube_vertices[0])`: a row is an array of six floats. -/
def sizeof_c_cube_vertices_row : Nat := 6 * sizeof_float

/-- The value of `sizeof(c_cube_vertices)`, the size of the vertex buffer and the number
of bytes copied into it (lines 926 and 964). -/
def sizeof_c_cube_vertices : Nat := c_cube_vertices.length * sizeof_c_cube_vertices_row

/-- The struct `vi_binding` of 13-init-pipeline (lines 972-975). -/
def vi_binding : VkVertexInputBindingDescription :=
  { binding := 0, stride := sizeof_c_cube_vertices_row,
    inputRate := VK_VERTEX_INPUT_RATE_VERTEX }

/-- The array `vi_attribs` of 13-init-pipeline (lines 977-985). -/
def vi_attribs : List VkVertexInputAttributeDescription :=
  [{ location := 0, binding := 0, format := VK_FORMAT_R32G32B32A32_SFLOAT, offset := 0 },
   { location := 1, binding := 0, format := VK_FORMAT_R32G32B32A32_SFLOAT, offset := 16 }]

/-- The struct `ia_state_info` of 13-init-pipeline (lines 1006-1010). -/
def ia_state_info : VkPipelineInputAssemblyStateCreateInfo :=
  { topology := VK_PRIMITIVE_TOPOLOGY_TRIANGLE_LIST, primitiveRestartEnable := VK_FALSE }

/-- The six rows `6 k, ..., 6 k + 5` of `c_cube_vertices`, face `k` of the cube. -/
def face (k : Nat) : List (List Int) := (c_cube_vertices.drop (6 * k)).take 6

end Sample13

/-- Specification helper: the corners of the first triangle that are also corners of the
second. -/
def sharedCorners (first second : List (List Int)) : List (List Int) :=
  first.filter fun corner => decide (corner ∈ second)

namespace Sample13

/-- The positions of the rows `3 i`, `3 i + 1`, `3 i + 2` of `c_cube_vertices`. -/
def triangleRows (i : Nat) : List (List Int) :=
  ((c_cube_vertices.drop (3 * i)).take 3).map rowPosition

end Sample13

/-- Specification helper: the byte offset, inside a row of the vertex table, of the
component with the given index. -/
def componentByteOffset (index : Nat) : Nat := index * sizeof_float

/-- Specification helper: the floats that a vertex attribute of four 32-bit floats reads at
the given byte address of a buffer holding the given floats. -/
def fetchFloats (buffer : List Int) (address : Nat) : List Int :=
  (buffer.drop (address / sizeof_float)).take 4

/-! ## The call sequence of `main` -/

/-- The value `EXIT_SUCCESS` of `<cstdlib>`. -/
def EXIT_SUCCESS : Nat := 0

/-- The value `EXIT_FAILURE` of `<cstdlib>`. -/
def EXIT_FAILURE : Nat := 1

/-- The Vulkan result code `VK_SUCCESS`. -/
def VK_SUCCESS : Int := 0

/-- The Vulkan result code `VK_ERROR_OUT_OF_DEVICE_MEMORY`. -/
def VK_ERROR_OUT_OF_DEVICE_MEMORY : Int := -2

/-- The GLFW constant `GLFW_TRUE`. -/
def GLFW_TRUE : Int := 1

/-- The Vulkan flag `VK_MEMORY_PROPERTY_DEVICE_LOCAL_BIT`. -/
def VK_MEMORY_PROPERTY_DEVICE_LOCAL_BIT : Nat := 1

/-- The Vulkan flag `VK_MEMORY_PROPERTY_HOST_VISIBLE_BIT`. -/
def VK_MEMORY_PROPERTY_HOST_VISIBLE_BIT : Nat := 2

/-- The Vulkan flag `VK_MEMORY_PROPERTY_HOST_COHERENT_BIT`. -/
def VK_MEMORY_PROPERTY_HOST_COHERENT_BIT : Nat := 4

/-- The Vulkan flag `VK_FORMAT_FEATURE_DEPTH_STENCIL_ATTACHMENT_BIT`. -/
def VK_FORMAT_FEATURE_DEPTH_STENCIL_ATTACHMENT_BIT : Nat := 0x200

/-- The Vulkan enumerator `VK_IMAGE_TILING_OPTIMAL`. -/
def VK_IMAGE_TILING_OPTIMAL : Nat := 0

/-- The Vulkan enumerator `VK_IMAGE_TILING_LINEAR`. -/
def VK_IMAGE_TILING_LINEAR : Nat := 1

/-- The Vulkan enumerator `VK_IMAGE_TILING_MAX_ENUM`. -/
def VK_IMAGE_TILING_MAX_ENUM : Nat := 0x7FFFFFFF

/-- The Vulkan struct `VkFormatProperties`. -/
structure VkFormatProperties where
  linearTilingFeatures : Nat
  optimalTilingFeatures : Nat
  bufferFeatures : Nat
  deriving DecidableEq, Repr

/-- What the Vulkan calls of `main` write into their output parameters: the device types
of the enumerated physical devices, and for the selected device and the surface the
queue families, capabilities, formats and present modes, the number of swapchain images,
the format properties of the depth format, the memory properties and the memory
requirements of the depth image, the uniform buffer and the vertex buffer. A sample reads
only the fields its `main` asks for. -/
structure Inputs where
  deviceTypes : List Nat
  queue_families : List QueueFamily
  surface_capabilities : VkSurfaceCapabilitiesKHR
  surface_formats : List VkSurfaceFormatKHR
  present_modes : List Nat
  swapchain_image_num : Nat
  depth_image_format_properties : VkFormatProperties
  physical_device_mem_prop : VkPhysicalDeviceMemoryProperties
  depth_image_mem_reqs : VkMemoryRequirements
  uniform_buf_mem_reqs : VkMemoryRequirements
  vertex_buf_mem_reqs : VkMemoryRequirements

/-- A statement of `main`, as far as its calls of Vulkan and GLFW functions and its
returns go.
* `call f`: a call of `f` whose return value is not looked at;
* `guarded f action`: `FAIL_IF_NOT_SUCCESS(f(...), action)`;
* `checked f expected message cleanup`: a call of `f` inside an `if` that, when the value
  is not `expected`, writes `message`, calls the `cleanup` functions and returns
  `EXIT_FAILURE`;
* `exitIf (some message)`: a check of `main` that fails, writes `message` and returns
  `EXIT_FAILURE`; `exitIf none`: the same check when it passes;
* `eventLoop`: `while (!glfwWindowShouldClose(window)) glfwPollEvents();`. -/
inductive Step where
  | call (function : String)
  | guarded (function : String) (action : String)
  | checked (function : String) (expected : Int) (message : String) (cleanup : List String)
  | exitIf (failure : Option String)
  | eventLoop
  deriving DecidableEq, Repr

/-- One executed API call with the value it returned: a call whose value is ignored, a call
wrapped in `FAIL_IF_NOT_SUCCESS` with the action name of the wrapper, or a call checked by
an explicit `if`. -/
inductive Event where
  | call (function : String) (result : Int)
  | guarded (function : String) (action : String) (result : Int)
  | checked (function : String) (result : Int)
  deriving DecidableEq, Repr

/-- The name of the function that an event calls. -/
def Event.function : Event → String
  | .call f _ => f
  | .guarded f _ _ => f
  | .checked f _ => f

/-- What a run of `main` does: the API calls in program order, the value `main` returns
(`none` while it is still in the event loop), and the text of the check that made it
return `EXIT_FAILURE`, if a check did. -/
structure Outcome where
  trace : List Event
  exit : Option Nat
  message : Option String
  deriving DecidableEq, Repr

/-- The outcome of the rest of `main` after the given events have happened. -/
def Outcome.after (outcome : Outcome) (events : List Event) : Outcome :=
  { outcome with trace := events ++ outcome.trace }

/-- The events of a sequence of calls whose values are ignored, the first of them being
call number `position` of the run. -/
def callEvents (returns : Nat → Int) : Nat → List String → List Event
  | _, [] => []
  | position, f :: rest => .call f (returns position) :: callEvents returns (position + 1) rest

/-- The loop `while (!glfwWindowShouldClose(window)) glfwPollEvents();` entered at call
number `position`, with `returns n` the value of call number `n` of the run. The first
argument bounds the number of iterations that are followed; the flag tells whether the
loop was left. -/
def eventLoop (returns : Nat → Int) : Nat → Nat → List Event × Bool
  | 0, _ => ([], false)
  | fuel + 1, position =>
    if returns position ≠ 0 then
      ([.call "glfwWindowShouldClose" (returns position)], true)
    else
      (.call "glfwWindowShouldClose" (returns position) ::
        .call "glfwPollEvents" (returns (position + 1)) ::
        (eventLoop returns fuel (position + 2)).1,
       (eventLoop returns fuel (position + 2)).2)

/-- Runs the statements of `main` from call number `position` on, where `returns n` is the
value returned by call number `n` of the run and `fuel` bounds the iterations of the event
loop that are followed. Falling off the end of the statements is the final
`return EXIT_SUCCESS;`. -/
def run (returns : Nat → Int) (fuel : Nat) : List Step → Nat → Outcome
  | [], _ => ⟨[], some EXIT_SUCCESS, none⟩
  | .call f :: rest, position =>
    (run returns fuel rest (position + 1)).after [.call f (returns position)]
  | .guarded f action :: rest, position =>
    if returns position ≠ VK_SUCCESS then
      ⟨[.guarded f action (returns position)], some EXIT_FAILURE, none⟩
    else (run returns fuel rest (position + 1)).after [.guarded f action (returns position)]
  | .checked f expected message cleanup :: rest, position =>
    if returns position ≠ expected then
      ⟨.checked f (returns position) :: callEvents returns (position + 1) cleanup,
        some EXIT_FAILURE, some message⟩
    else (run returns fuel rest (position + 1)).after [.checked f (returns position)]
  | .exitIf (some message) :: _, _ => ⟨[], some EXIT_FAILURE, some message⟩
  | .exitIf none :: rest, position => run returns fuel rest position
  | .eventLoop :: rest, position =>
    if (eventLoop returns fuel position).2 then
      (run returns fuel rest (position + (eventLoop returns fuel position).1.length)).after
        (eventLoop returns fuel position).1
    else ⟨(eventLoop returns fuel position).1, none, none⟩

/-- The message of a selection step that found no candidate, `none` when it found one. -/
def MainStep.failure {α : Type} : MainStep α → Option String
  | .ok _ => none
  | .error message => some message

/-- The calls made by the loop over the physical devices, which asks for the properties
and the features of each device until it meets the wanted device type. -/
def physicalDeviceLoopCalls (wanted : Nat) : List Nat → List Step
  | [] => []
  | deviceType :: rest =>
    .call "vkGetPhysicalDeviceProperties" :: .call "vkGetPhysicalDeviceFeatures" ::
      (if deviceType = wanted then [] else physicalDeviceLoopCalls wanted rest)

/-- The calls made by the loop over the queue families of the samples with a surface,
which asks for the present support of each family until it meets a family with graphics
and present support. -/
def queueFamilyLoopCalls : List QueueFamily → List Step
  | [] => []
  | family :: rest =>
    .call "vkGetPhysicalDeviceSurfaceSupportKHR" ::
      (if family.queueFlags &&& VK_QUEUE_GRAPHICS_BIT ≠ 0 ∧
          family.present_support = VK_TRUE then []
        else queueFamilyLoopCalls rest)

/-- The result of the memory-type check that follows a call of `findMemoryTypeIndex`:
`main` goes on with the index when the flag is set and otherwise writes the message and
returns `EXIT_FAILURE`. A search that leaves the `memoryTypes` array has no defined result
and is counted as not found. -/
def memoryTypeStep (found : Option (Bool × Nat)) (message : String) : MainStep Nat :=
  match found with
  | some (true, index) => .ok index
  | _ => .error message

/-- Specification helper: the functions that draw, submit work to a queue, acquire a
swapchain image or present one. -/
def drawSubmitAcquirePresent : List String :=
  ["vkCmdDraw", "vkCmdDrawIndexed", "vkCmdDrawIndirect", "vkCmdDrawIndexedIndirect",
   "vkQueueSubmit", "vkAcquireNextImageKHR", "vkQueuePresentKHR"]

/-- Specification helper: the function names of `n` iterations of the event loop followed
by the query that leaves it. -/
def eventLoopCalls (n : Nat) : List String :=
  (List.replicate n ["glfwWindowShouldClose", "glfwPollEvents"]).flatten ++
    ["glfwWindowShouldClose"]

/-- Specification helper: the functions that a statement of `main` can call. -/
def Step.functions : Step → List String
  | .call f => [f]
  | .guarded f _ => [f]
  | .checked f _ _ cleanup => f :: cleanup
  | .exitIf _ => []
  | .eventLoop => ["glfwWindowShouldClose", "glfwPollEvents"]

/-- Specification helper: function and action name of a statement that is a call wrapped
in `FAIL_IF_NOT_SUCCESS`. -/
def Step.guardedSite : Step → Option (String × String)
  | .guarded f action => some (f, action)
  | _ => none

/-- Specification helper: function and action name of an executed call that is wrapped in
`FAIL_IF_NOT_SUCCESS`. -/
def Event.guardedSite : Event → Option (String × String)
  | .guarded f action _ => some (f, action)
  | _ => none

/-- Specification helper: the statement calls none of the functions that draw, submit,
acquire or present. -/
def Step.setupOnly (step : Step) : Bool :=
  step.functions.all fun f => !drawSubmitAcquirePresent.contains f

/-! ## Sample 00-init-instance -/

namespace Sample00Instance

/-- The statements of `main` of 00-init-instance before the event loop (lines 43-78). -/
def setup : List Step :=
  [
    .call "glfwSetErrorCallback",
    .checked "glfwInit" GLFW_TRUE "Failed to init GLFW." [],
    .call "glfwWindowHint",
    .call "glfwWindowHint",
    .call "glfwCreateWindow",
    .call "glfwGetRequiredInstanceExtensions",
    .guarded "vkCreateInstance" "CreateInstance" ]

/-- The function `main` of 00-init-instance (lines 41-86). -/
def main : List Step := setup ++ [.eventLoop]

end Sample00Instance

/-! ## Sample 00-instance-and-physical-device-selection -/

namespace Sample00PhysicalDevice

/-- The statements of `main` of 00-instance-and-physical-device-selection before the event
loop (lines 32-92); line 60 declares `vkEnumerateInstanceExtensionProperties` and does not
call it. The text of the failure message is followed by the result code. -/
def setup : List Step :=
  [
    .call "glfwSetErrorCallback",
    .checked "glfwInit" GLFW_TRUE "Failed to init GLFW." [],
    .call "glfwWindowHint",
    .call "glfwWindowHint",
    .call "glfwCreateWindow",
    .call "glfwGetRequiredInstanceExtensions",
    .call "vkEnumerateInstanceLayerProperties",
    .call "vkEnumerateInstanceLayerProperties",
    .checked "vkCreateInstance" VK_SUCCESS "Failed to create VK instance. result="
      ["glfwDestroyWindow", "glfwTerminate"] ]

/-- The calls of `main` of 00-instance-and-physical-device-selection after the event loop
(lines 99-101). -/
def cleanup : List String := ["vkDestroyInstance", "glfwDestroyWindow", "glfwTerminate"]

/-- The function `main` of 00-instance-and-physical-device-selection (lines 30-104). -/
def main : List Step := setup ++ [.eventLoop] ++ cleanup.map Step.call

end Sample00PhysicalDevice

/-! ## The statements of `main` of the samples 03, 04, 09 and 13 -/

namespace Sample03

/-- The queue-family loop of 03-init-command-buffer (lines 118-126); the second argument
is `i`. The result is the final `queue_family_index`. -/
def queue_family_index.loop : List QueueFamily → Nat → Nat
  | [], _ => UINT32_MAX
  | family :: rest, i =>
    if family.queueFlags &&& VK_QUEUE_GRAPHICS_BIT ≠ 0 then toUint32 i
    else queue_family_index.loop rest (i + 1)

/-- The queue-family selection of 03-init-command-buffer (lines 118-132): the loop, then
the check of the sentinel. -/
def queue_family_index (queue_families : List QueueFamily) : MainStep Nat :=
  if queue_family_index.loop queue_families 0 = UINT32_MAX then
    .error "Suitable family queue not found."
  else .ok (queue_family_index.loop queue_families 0)

/-- The statements of `main` of 03-init-command-buffer before the event loop
(lines 43-169). -/
def setup (inputs : Inputs) : List Step :=
  [
    .call "glfwSetErrorCallback",
    .checked "glfwInit" GLFW_TRUE "Failed to init GLFW." [],
    .call "glfwWindowHint",
    .call "glfwWindowHint",
    .call "glfwCreateWindow",
    .call "glfwGetRequiredInstanceExtensions",
    .guarded "vkCreateInstance" "CreateInstance",
    .guarded "vkEnumeratePhysicalDevices" "EnumeratePhysicalDevices",
    .guarded "vkEnumeratePhysicalDevices" "EnumeratePhysicalDevices" ] ++
  physicalDeviceLoopCalls VK_PHYSICAL_DEVICE_TYPE_DISCRETE_GPU inputs.deviceTypes ++
  [
    .exitIf (physical_device_index inputs.deviceTypes).failure,
    .call "vkGetPhysicalDeviceQueueFamilyProperties",
    .call "vkGetPhysicalDeviceQueueFamilyProperties",
    .exitIf (queue_family_index inputs.queue_families).failure,
    .guarded "vkCreateDevice" "CreateDevice",
    .guarded "vkCreateCommandPool" "CreateCommandPool",
    .guarded "vkAllocateCommandBuffers" "AllocateCommandBuffers" ]

/-- The function `main` of 03-init-command-buffer (lines 41-177). -/
def main (inputs : Inputs) : List Step := setup inputs ++ [.eventLoop]

end Sample03

namespace Sample04

/-- The statements of `main` of 04-init-swapchain before the event loop (lines 45-372);
the last line is the loop that creates one image view per swapchain image. -/
def setup (inputs : Inputs) : List Step :=
  [
    .call "glfwSetErrorCallback",
    .checked "glfwInit" GLFW_TRUE "Failed to init GLFW." [],
    .call "glfwWindowHint",
    .call "glfwWindowHint",
    .call "glfwCreateWindow",
    .call "glfwGetRequiredInstanceExtensions",
    .guarded "vkCreateInstance" "CreateInstance",
    .guarded "glfwCreateWindowSurface" "CreateWindowSurface",
    .guarded "vkEnumeratePhysicalDevices" "EnumeratePhysicalDevices",
    .guarded "vkEnumeratePhysicalDevices" "EnumeratePhysicalDevices" ] ++
  physicalDeviceLoopCalls VK_PHYSICAL_DEVICE_TYPE_DISCRETE_GPU inputs.deviceTypes ++
  [
    .exitIf (physical_device_index inputs.deviceTypes).failure,
    .call "vkGetPhysicalDeviceQueueFamilyProperties",
    .call "vkGetPhysicalDeviceQueueFamilyProperties" ] ++
  queueFamilyLoopCalls inputs.queue_families ++
  [
    .exitIf (queue_family_step inputs.queue_families).failure,
    .guarded "vkCreateDevice" "CreateDevice",
    .call "vkGetDeviceQueue",
    .call "vkGetDeviceQueue",
    .guarded "vkCreateCommandPool" "CreateCommandPool",
    .guarded "vkAllocateCommandBuffers" "AllocateCommandBuffers",
    .guarded "vkGetPhysicalDeviceSurfaceCapabilitiesKHR" "GetPhysicalDeviceSurfaceCapabilities",
    .guarded "vkGetPhysicalDeviceSurfaceFormatsKHR" "GetPhysicalDeviceSurfaceFormats",
    .guarded "vkGetPhysicalDeviceSurfaceFormatsKHR" "GetPhysicalDeviceSurfaceFormats",
    .exitIf (surface_format inputs.surface_formats).failure,
    .guarded "vkGetPhysicalDeviceSurfacePresentModesKHR" "GetPhysicalDeviceSurfacePresentModes",
    .guarded "vkGetPhysicalDeviceSurfacePresentModesKHR" "GetPhysicalDeviceSurfacePresentModes",
    .guarded "vkCreateSwapchainKHR" "CreateSwapChain",
    .guarded "vkGetSwapchainImagesKHR" "GetSwapchainImages",
    .guarded "vkGetSwapchainImagesKHR" "GetSwapchainImages" ] ++
  List.replicate inputs.swapchain_image_num (.guarded "vkCreateImageView" "CreateImageView")

/-- The function `main` of 04-init-swapchain (lines 43-380). -/
def main (inputs : Inputs) : List Step := setup inputs ++ [.eventLoop]

end Sample04

namespace Sample09

/-- The choice of `depth_image_tiling` of 09-init-render-pass (lines 418-432). -/
def depth_image_tiling (depth_image_format_properties : VkFormatProperties) : Nat :=
  if depth_image_format_properties.linearTilingFeatures &&&
      VK_FORMAT_FEATURE_DEPTH_STENCIL_ATTACHMENT_BIT ≠ 0 then VK_IMAGE_TILING_LINEAR
  else if depth_image_format_properties.optimalTilingFeatures &&&
      VK_FORMAT_FEATURE_DEPTH_STENCIL_ATTACHMENT_BIT ≠ 0 then VK_IMAGE_TILING_OPTIMAL
  else VK_IMAGE_TILING_MAX_ENUM

/-- The depth-tiling step of 09-init-render-pass (lines 418-439): the choice, then the check
of `VK_IMAGE_TILING_MAX_ENUM`; the message names the format `VK_FORMAT_D16_UNORM`, 124. -/
def depth_image_tiling_step (depth_image_format_properties : VkFormatProperties) :
    MainStep Nat :=
  if depth_image_tiling depth_image_format_properties = VK_IMAGE_TILING_MAX_ENUM then
    .error "Depth image format 124 not supported."
  else .ok (depth_image_tiling depth_image_format_properties)

/-- The memory-type lookup for the depth image of 09-init-render-pass (lines 464-474). -/
def depth_image_mem_type_index (inputs : Inputs) : MainStep Nat :=
  memoryTypeStep
    (findMemoryTypeIndex inputs.physical_device_mem_prop inputs.depth_image_mem_reqs
      VK_MEMORY_PROPERTY_DEVICE_LOCAL_BIT)
    "Couldn't find depth image memory type."

/-- The memory-type lookup for the uniform buffer of 09-init-render-pass (lines 522-533); its
message is the one of the depth image. -/
def uniform_buf_mem_type_index (inputs : Inputs) : MainStep Nat :=
  memoryTypeStep
    (findMemoryTypeIndex inputs.physical_device_mem_prop inputs.uniform_buf_mem_reqs
      (VK_MEMORY_PROPERTY_HOST_VISIBLE_BIT ||| VK_MEMORY_PROPERTY_HOST_COHERENT_BIT))
    "Couldn't find depth image memory type."

/-- The statements of `main` of 09-init-render-pass before the event loop (lines 87-630).
The call of `vkAllocateMemory` for the depth image (line 482) is not wrapped in
`FAIL_IF_NOT_SUCCESS`. -/
def setup (inputs : Inputs) : List Step :=
  [
    .call "glfwSetErrorCallback",
    .checked "glfwInit" GLFW_TRUE "Failed to init GLFW." [],
    .call "glfwWindowHint",
    .call "glfwWindowHint",
    .call "glfwCreateWindow",
    .call "glfwGetRequiredInstanceExtensions",
    .guarded "vkCreateInstance" "CreateInstance",
    .guarded "glfwCreateWindowSurface" "CreateWindowSurface",
    .guarded "vkEnumeratePhysicalDevices" "EnumeratePhysicalDevices",
    .guarded "vkEnumeratePhysicalDevices" "EnumeratePhysicalDevices" ] ++
  physicalDeviceLoopCalls VK_PHYSICAL_DEVICE_TYPE_DISCRETE_GPU inputs.deviceTypes ++
  [
    .exitIf (physical_device_index inputs.deviceTypes).failure,
    .call "vkGetPhysicalDeviceMemoryProperties",
    .call "vkGetPhysicalDeviceQueueFamilyProperties",
    .call "vkGetPhysicalDeviceQueueFamilyProperties" ] ++
  queueFamilyLoopCalls inputs.queue_families ++
  [
    .exitIf (queue_family_step inputs.queue_families).failure,
    .guarded "vkCreateDevice" "CreateDevice",
    .call "vkGetDeviceQueue",
    .call "vkGetDeviceQueue",
    .guarded "vkCreateCommandPool" "CreateCommandPool",
    .guarded "vkAllocateCommandBuffers" "AllocateCommandBuffers",
    .guarded "vkGetPhysicalDeviceSurfaceCapabilitiesKHR" "GetPhysicalDeviceSurfaceCapabilities",
    .guarded "vkGetPhysicalDeviceSurfaceFormatsKHR" "GetPhysicalDeviceSurfaceFormats",
    .guarded "vkGetPhysicalDeviceSurfaceFormatsKHR" "GetPhysicalDeviceSurfaceFormats",
    .exitIf (surface_format inputs.surface_formats).failure,
    .guarded "vkGetPhysicalDeviceSurfacePresentModesKHR" "GetPhysicalDeviceSurfacePresentModes",
    .guarded "vkGetPhysicalDeviceSurfacePresentModesKHR" "GetPhysicalDeviceSurfacePresentModes",
    .guarded "vkCreateSwapchainKHR" "CreateSwapChain",
    .guarded "vkGetSwapchainImagesKHR" "GetSwapchainImages",
    .guarded "vkGetSwapchainImagesKHR" "GetSwapchainImages" ] ++
  List.replicate inputs.swapchain_image_num (.guarded "vkCreateImageView" "CreateImageView") ++
  [
    .call "vkGetPhysicalDeviceFormatProperties",
    .exitIf (depth_image_tiling_step inputs.depth_image_format_properties).failure,
    .guarded "vkCreateImage" "CreateImage",
    .call "vkGetImageMemoryRequirements",
    .exitIf (depth_image_mem_type_index inputs).failure,
    .call "vkAllocateMemory",
    .guarded "vkBindImageMemory" "BindImageMemory",
    .guarded "vkCreateImageView" "CreateImageView",
    .guarded "vkCreateBuffer" "CreateBuffer",
    .call "vkGetBufferMemoryRequirements",
    .exitIf (uniform_buf_mem_type_index inputs).failure,
    .guarded "vkAllocateMemory" "AllocateMemory",
    .guarded "vkMapMemory" "MapMemory",
    .call "vkUnmapMemory",
    .guarded "vkBindBufferMemory" "BindBufferMemory",
    .guarded "vkCreateDescriptorSetLayout" "CreateDescriptorSetLayout",
    .guarded "vkCreatePipelineLayout" "CreatePipelineLayout",
    .guarded "vkCreateRenderPass" "CreateRenderPass" ]

/-- The function `main` of 09-init-render-pass (lines 85-638). -/
def main (inputs : Inputs) : List Step := setup inputs ++ [.eventLoop]

end Sample09

namespace Sample13

/-- The choice of `depth_image_tiling` of 13-init-pipeline (lines 658-672). -/
def depth_image_tiling (depth_image_format_properties : VkFormatProperties) : Nat :=
  if depth_image_format_properties.linearTilingFeatures &&&
      VK_FORMAT_FEATURE_DEPTH_STENCIL_ATTACHMENT_BIT ≠ 0 then VK_IMAGE_TILING_LINEAR
  else if depth_image_format_properties.optimalTilingFeatures &&&
      VK_FORMAT_FEATURE_DEPTH_STENCIL_ATTACHMENT_BIT ≠ 0 then VK_IMAGE_TILING_OPTIMAL
  else VK_IMAGE_TILING_MAX_ENUM

/-- The depth-tiling step of 13-init-pipeline (lines 658-679): the choice, then the check
of `VK_IMAGE_TILING_MAX_ENUM`; the message names the format `VK_FORMAT_D16_UNORM`, 124. -/
def depth_image_tiling_step (depth_image_format_properties : VkFormatProperties) :
    MainStep Nat :=
  if depth_image_tiling depth_image_format_properties = VK_IMAGE_TILING_MAX_ENUM then
    .error "Depth image format 124 not supported."
  else .ok (depth_image_tiling depth_image_format_properties)

/-- The memory-type lookup for the depth image of 13-init-pipeline (lines 704-714). -/
def depth_image_mem_type_index (inputs : Inputs) : MainStep Nat :=
  memoryTypeStep
    (findMemoryTypeIndex inputs.physical_device_mem_prop inputs.depth_image_mem_reqs
      VK_MEMORY_PROPERTY_DEVICE_LOCAL_BIT)
    "Couldn't find depth image memory type."

/-- The memory-type lookup for the uniform buffer of 13-init-pipeline (lines 762-773); its
message is the one of the depth image. -/
def uniform_buf_mem_type_index (inputs : Inputs) : MainStep Nat :=
  memoryTypeStep
    (findMemoryTypeIndex inputs.physical_device_mem_prop inputs.uniform_buf_mem_reqs
      (VK_MEMORY_PROPERTY_HOST_VISIBLE_BIT ||| VK_MEMORY_PROPERTY_HOST_COHERENT_BIT))
    "Couldn't find depth image memory type."

/-- The memory-type lookup for the vertex buffer of 13-init-pipeline (lines 936-947). -/
def vertex_buf_mem_type_index (inputs : Inputs) : MainStep Nat :=
  memoryTypeStep
    (findMemoryTypeIndex inputs.physical_device_mem_prop inputs.vertex_buf_mem_reqs
      (VK_MEMORY_PROPERTY_HOST_VISIBLE_BIT ||| VK_MEMORY_PROPERTY_HOST_COHERENT_BIT))
    "Couldn't find vertex buffer memory type."

/-- The statements of `main` of 13-init-pipeline before the event loop (lines 304-1101).
The call of `vkAllocateMemory` for the depth image (line 722) is not wrapped in
`FAIL_IF_NOT_SUCCESS`. The two `List.replicate` lines are the loops that create one image
view and one framebuffer per swapchain image. -/
def setup (inputs : Inputs) : List Step :=
  [
    .call "glfwSetErrorCallback",
    .checked "glfwInit" GLFW_TRUE "Failed to init GLFW." [],
    .call "glfwWindowHint",
    .call "glfwWindowHint",
    .call "glfwCreateWindow",
    .call "glfwGetRequiredInstanceExtensions",
    .guarded "vkCreateInstance" "CreateInstance",
    .guarded "glfwCreateWindowSurface" "CreateWindowSurface",
    .guarded "vkEnumeratePhysicalDevices" "EnumeratePhysicalDevices",
    .guarded "vkEnumeratePhysicalDevices" "EnumeratePhysicalDevices" ] ++
  physicalDeviceLoopCalls VK_PHYSICAL_DEVICE_TYPE_INTEGRATED_GPU inputs.deviceTypes ++
  [
    .exitIf (physical_device_index inputs.deviceTypes).failure,
    .call "vkGetPhysicalDeviceMemoryProperties",
    .call "vkGetPhysicalDeviceQueueFamilyProperties",
    .call "vkGetPhysicalDeviceQueueFamilyProperties" ] ++
  queueFamilyLoopCalls inputs.queue_families ++
  [
    .exitIf (queue_family_step inputs.queue_families).failure,
    .guarded "vkCreateDevice" "CreateDevice",
    .call "vkGetDeviceQueue",
    .call "vkGetDeviceQueue",
    .guarded "vkCreateCommandPool" "CreateCommandPool",
    .guarded "vkAllocateCommandBuffers" "AllocateCommandBuffers",
    .guarded "vkGetPhysicalDeviceSurfaceCapabilitiesKHR" "GetPhysicalDeviceSurfaceCapabilities",
    .guarded "vkGetPhysicalDeviceSurfaceFormatsKHR" "GetPhysicalDeviceSurfaceFormats",
    .guarded "vkGetPhysicalDeviceSurfaceFormatsKHR" "GetPhysicalDeviceSurfaceFormats",
    .exitIf (surface_format inputs.surface_formats).failure,
    .guarded "vkGetPhysicalDeviceSurfacePresentModesKHR" "GetPhysicalDeviceSurfacePresentModes",
    .guarded "vkGetPhysicalDeviceSurfacePresentModesKHR" "GetPhysicalDeviceSurfacePresentModes",
    .guarded "vkCreateSwapchainKHR" "CreateSwapChain",
    .guarded "vkGetSwapchainImagesKHR" "GetSwapchainImages",
    .guarded "vkGetSwapchainImagesKHR" "GetSwapchainImages" ] ++
  List.replicate inputs.swapchain_image_num (.guarded "vkCreateImageView" "CreateImageView") ++
  [
    .call "vkGetPhysicalDeviceFormatProperties",
    .exitIf (depth_image_tiling_step inputs.depth_image_format_properties).failure,
    .guarded "vkCreateImage" "CreateImage",
    .call "vkGetImageMemoryRequirements",
    .exitIf (depth_image_mem_type_index inputs).failure,
    .call "vkAllocateMemory",
    .guarded "vkBindImageMemory" "BindImageMemory",
    .guarded "vkCreateImageView" "CreateImageView",
    .guarded "vkCreateBuffer" "CreateBuffer",
    .call "vkGetBufferMemoryRequirements",
    .exitIf (uniform_buf_mem_type_index inputs).failure,
    .guarded "vkAllocateMemory" "AllocateMemory",
    .guarded "vkMapMemory" "MapMemory",
    .call "vkUnmapMemory",
    .guarded "vkBindBufferMemory" "BindBufferMemory",
    .guarded "vkCreateDescriptorSetLayout" "CreateDescriptorSetLayout",
    .guarded "vkCreatePipelineLayout" "CreatePipelineLayout",
    .guarded "vkCreateRenderPass" "CreateRenderPass",
    .guarded "vkCreateShaderModule" "CreateShaderModule",
    .guarded "vkCreateShaderModule" "CreateShaderModule" ] ++
  List.replicate inputs.swapchain_image_num
    (.guarded "vkCreateFramebuffer" "CreateFramebuffer") ++
  [
    .guarded "vkCreateBuffer" "CreateBuffer",
    .call "vkGetBufferMemoryRequirements",
    .exitIf (vertex_buf_mem_type_index inputs).failure,
    .guarded "vkAllocateMemory" "AllocateMemory",
    .guarded "vkMapMemory" "MapMemory",
    .call "vkUnmapMemory",
    .guarded "vkBindBufferMemory" "BindBufferMemory",
    .guarded "vkCreateGraphicsPipelines" "CreateGraphicsPipelines" ]

/-- The function `main` of 13-init-pipeline (lines 302-1109). -/
def main (inputs : Inputs) : List Step := setup inputs ++ [.eventLoop]

end Sample13

/-- Example outputs of the API: an integrated and a discrete GPU, a graphics-only and a
present-only queue family, one surface format, FIFO presentation, two swapchain images,
a depth format with optimal tiling and the example memory table. -/
def exampleInputs : Inputs where
  deviceTypes := [1, 2]
  queue_families := [⟨1, 0⟩, ⟨0, 1⟩]
  surface_capabilities := ⟨2, ⟨640, 480⟩, ⟨1, 1⟩, ⟨4096, 4096⟩, 1⟩
  surface_formats := [⟨44, 0⟩]
  present_modes := [2]
  swapchain_image_num := 2
  depth_image_format_properties := ⟨0, 0x200, 0⟩
  physical_device_mem_prop := exampleMemoryProperties
  depth_image_mem_reqs := ⟨16, 4, 7⟩
  uniform_buf_mem_reqs := ⟨16, 4, 6⟩
  vertex_buf_mem_reqs := ⟨16, 4, 6⟩

/-- Example return values: `glfwInit` (call 1) returns `GLFW_TRUE`, call 9 returns 1 and
every other call returns 0. -/
def exampleReturnsClose (n : Nat) : Int :=
  if n = 1 then GLFW_TRUE else if n = 9 then 1 else 0

/-! ## Clip matrix, winding and render-target sizes -/

/-- The type `glm::vec4`, with rational components. -/
structure vec4 where
  x : ℚ
  y : ℚ
  z : ℚ
  w : ℚ
  deriving DecidableEq

/-- The type `glm::mat4`, stored by columns as in GLM. -/
structure mat4 where
  column0 : vec4
  column1 : vec4
  column2 : vec4
  column3 : vec4
  deriving DecidableEq

/-- The scaling `v * s` of a `glm::vec4`. -/
def vec4.scale (v : vec4) (s : ℚ) : vec4 := ⟨v.x * s, v.y * s, v.z * s, v.w * s⟩

/-- The sum of two `glm::vec4`. -/
def vec4.add (a b : vec4) : vec4 := ⟨a.x + b.x, a.y + b.y, a.z + b.z, a.w + b.w⟩

/-- The library product `glm::mat4 * glm::vec4`: the columns scaled by the components of
the vector and added up, `(m[0] * v.x + m[1] * v.y) + (m[2] * v.z + m[3] * v.w)`. -/
def mat4.mulVec (m : mat4) (v : vec4) : vec4 :=
  ((m.column0.scale v.x).add (m.column1.scale v.y)).add
    ((m.column2.scale v.z).add (m.column3.scale v.w))

/-- The Vulkan enumerator `VK_FORMAT_D16_UNORM`. -/
def VK_FORMAT_D16_UNORM : Nat := 124

/-- The Vulkan enumerator `VK_IMAGE_TYPE_2D`. -/
def VK_IMAGE_TYPE_2D : Nat := 1

/-- The Vulkan flag `VK_IMAGE_USAGE_DEPTH_STENCIL_ATTACHMENT_BIT`. -/
def VK_IMAGE_USAGE_DEPTH_STENCIL_ATTACHMENT_BIT : Nat := 0x20

/-- The Vulkan enumerator `VK_POLYGON_MODE_FILL`. -/
def VK_POLYGON_MODE_FILL : Nat := 0

/-- The Vulkan flag `VK_CULL_MODE_BACK_BIT`. -/
def VK_CULL_MODE_BACK_BIT : Nat := 2

/-- The Vulkan enumerator `VK_FRONT_FACE_CLOCKWISE`. -/
def VK_FRONT_FACE_CLOCKWISE : Nat := 1

/-- The Vulkan struct `VkExtent3D`. -/
structure VkExtent3D where
  width : Nat
  height : Nat
  depth : Nat
  deriving DecidableEq, Repr

/-- The Vulkan struct `VkImageCreateInfo`, restricted to type, format, extent, mip levels,
array layers, tiling, usage and sharing mode. -/
structure VkImageCreateInfo where
  imageType : Nat
  format : Nat
  extent : VkExtent3D
  mipLevels : Nat
  arrayLayers : Nat
  tiling : Nat
  usage : Nat
  sharingMode : Nat
  deriving DecidableEq, Repr

/-- The Vulkan struct `VkFramebufferCreateInfo`, restricted to the attachment count and the
dimensions. -/
structure VkFramebufferCreateInfo where
  attachmentCount : Nat
  width : Nat
  height : Nat
  layers : Nat
  deriving DecidableEq, Repr

/-- The Vulkan struct `VkPipelineRasterizationStateCreateInfo`, restricted to polygon mode,
cull mode, front face and the three enable flags. -/
structure VkPipelineRasterizationStateCreateInfo where
  polygonMode : Nat
  cullMode : Nat
  frontFace : Nat
  depthClampEnable : Nat
  rasterizerDiscardEnable : Nat
  depthBiasEnable : Nat
  deriving DecidableEq, Repr

/-- Specification helper: the difference `a - b` of two points. -/
def pointSub (a b : List Int) : List Int := List.zipWith (fun u v => u - v) a b

/-- Specification helper: the cross product of two vectors with three components. -/
def crossProduct (a b : List Int) : List Int :=
  [a.getD 1 0 * b.getD 2 0 - a.getD 2 0 * b.getD 1 0,
   a.getD 2 0 * b.getD 0 0 - a.getD 0 0 * b.getD 2 0,
   a.getD 0 0 * b.getD 1 0 - a.getD 1 0 * b.getD 0 0]

/-- Specification helper: the dot product of two vectors. -/
def dotProduct (a b : List Int) : Int := (List.zipWith (fun u v => u * v) a b).sum

/-- Specification helper: the outward unit normal of the face of the cube `[-1, 1]^3` in
the plane where the coordinate `axis` has the value `sign`. -/
def outwardNormal (axis : Nat) (sign : Int) : List Int :=
  (List.range 3).map fun i => if i = axis then sign else 0

/-- Specification helper: the scalar triple product `((B - A) x (C - A)) . n` of a
triangle `[A, B, C]` and a vector `n`. -/
def windingProduct (triangle : List (List Int)) (n : List Int) : Int :=
  dotProduct
    (crossProduct (pointSub (triangle.getD 1 []) (triangle.getD 0 []))
      (pointSub (triangle.getD 2 []) (triangle.getD 0 [])))
    n

namespace Sample09

/-- The matrix `c_clip` of 09-init-render-pass (lines 45-49); its four `glm::vec4` arguments
are its columns, and every literal is a dyadic rational. -/
def c_clip : mat4 :=
  { column0 := ⟨1, 0, 0, 0⟩
    column1 := ⟨0, -1, 0, 0⟩
    column2 := ⟨0, 0, 1 / 2, 0⟩
    column3 := ⟨0, 0, 1 / 2, 1⟩ }

end Sample09

namespace Sample13

/-- The matrix `c_clip` of 13-init-pipeline (lines 47-51); its four `glm::vec4` arguments
are its columns, and every literal is a dyadic rational. -/
def c_clip : mat4 :=
  { column0 := ⟨1, 0, 0, 0⟩
    column1 := ⟨0, -1, 0, 0⟩
    column2 := ⟨0, 0, 1 / 2, 0⟩
    column3 := ⟨0, 0, 1 / 2, 1⟩ }

/-- The struct `depth_image_info` of 13-init-pipeline (lines 681-694), for the tiling
chosen before. -/
def depth_image_info (depth_image_tiling : Nat) : VkImageCreateInfo :=
  { imageType := VK_IMAGE_TYPE_2D
    format := VK_FORMAT_D16_UNORM
    extent := ⟨c_width, c_height, 1⟩
    mipLevels := 1
    arrayLayers := 1
    tiling := depth_image_tiling
    usage := VK_IMAGE_USAGE_DEPTH_STENCIL_ATTACHMENT_BIT
    sharingMode := VK_SHARING_MODE_EXCLUSIVE }

/-- The struct `fb_info` of 13-init-pipeline (lines 904-911), which is used unchanged,
but for the first attachment, for the framebuffer of every swapchain image view. -/
def fb_info : VkFramebufferCreateInfo :=
  { attachmentCount := 2, width := c_width, height := c_height, layers := 1 }

/-- The struct `rs_state_info` of 13-init-pipeline (lines 1012-1024). -/
def rs_state_info : VkPipelineRasterizationStateCreateInfo :=
  { polygonMode := VK_POLYGON_MODE_FILL
    cullMode := VK_CULL_MODE_BACK_BIT
    frontFace := VK_FRONT_FACE_CLOCKWISE
    depthClampEnable := VK_TRUE
    rasterizerDiscardEnable := VK_FALSE
    depthBiasEnable := VK_FALSE }

end Sample13

/-! ## Embedded shaders and shader stages -/

/-- The Vulkan flag `VK_SHADER_STAGE_VERTEX_BIT`. -/
def VK_SHADER_STAGE_VERTEX_BIT : Nat := 0x1

/-- The Vulkan flag `VK_SHADER_STAGE_FRAGMENT_BIT`. -/
def VK_SHADER_STAGE_FRAGMENT_BIT : Nat := 0x10

/-- The Vulkan struct `VkShaderModuleCreateInfo`, restricted to the code: `pCode` is the
byte array the pointer refers to, `codeSize` its size in bytes. -/
structure VkShaderModuleCreateInfo where
  codeSize : Nat
  pCode : List Nat
  deriving DecidableEq, Repr

/-- The Vulkan struct `VkPipelineShaderStageCreateInfo`, restricted to stage, module and
entry point name; the module is given by the create info it is created from. -/
structure VkPipelineShaderStageCreateInfo where
  stage : Nat
  module : VkShaderModuleCreateInfo
  pName : String
  deriving DecidableEq, Repr

/-- Specification helper: the little-endian 32-bit words of a byte array, as read through
a `uint32_t` pointer; fewer than four bytes at the end are not a word. -/
def littleEndianWords : List Nat → List Nat
  | b0 :: b1 :: b2 :: b3 :: rest =>
    (b0 + 2 ^ 8 * b1 + 2 ^ 16 * b2 + 2 ^ 24 * b3) :: littleEndianWords rest
  | _ => []

/-- Specification helper: the four bytes of a 32-bit word, lowest first. -/
def wordBytes (word : Nat) : List Nat :=
  [word % 2 ^ 8, word / 2 ^ 8 % 2 ^ 8, word / 2 ^ 16 % 2 ^ 8, word / 2 ^ 24 % 2 ^ 8]

/-- The SPIR-V magic number. -/
def SpvMagicNumber : Nat := 0x07230203

/-- The SPIR-V opcode `OpEntryPoint`. -/
def SpvOpEntryPoint : Nat := 15

/-- The SPIR-V opcode `OpFunctionEnd`. -/
def SpvOpFunctionEnd : Nat := 56

/-- The SPIR-V execution model `Vertex`. -/
def SpvExecutionModelVertex : Nat := 0

/-- The SPIR-V execution model `Fragment`. -/
def SpvExecutionModelFragment : Nat := 4

/-- Specification helper: the word count of the instruction whose first word is `word`,
its high 16 bits. -/
def wordCount (word : Nat) : Nat := word / 2 ^ 16

/-- Specification helper: the opcode of the instruction whose first word is `word`, its
low 16 bits. -/
def opcode (word : Nat) : Nat := word % 2 ^ 16

/-- Specification helper: the walk over the instruction stream. From `position` it
advances by the word count of each instruction and returns the positions of the
instructions met, or `none` if it meets a zero word count, passes the end of the array or
runs out of fuel; it stops when it stands exactly on the end of the array. -/
def instructionWalk (words : List Nat) : Nat → Nat → Option (List Nat)
  | 0, _ => none
  | fuel + 1, position =>
    if position = words.length then some []
    else if words.length < position then none
    else if wordCount (words.getD position 0) = 0 then none
    else (instructionWalk words fuel (position + wordCount (words.getD position 0))).map
      fun positions => position :: positions

/-- Specification helper: the positions of the instructions after the 5-word header; the
fuel is the number of words, since every step advances by at least one word. -/
def instructionPositions (words : List Nat) : Option (List Nat) :=
  instructionWalk words (words.length + 1) 5

/-- Specification helper: the literal string that starts at word `start` and has at most
`count` words: the bytes of the words, lowest first, up to the first zero byte. -/
def literalString (words : List Nat) (start count : Nat) : String :=
  String.mk ((((words.drop start).take count).flatMap wordBytes).takeWhile
    (fun b => b ≠ 0) |>.map Char.ofNat)

/-- Specification helper: the `OpEntryPoint` instructions of a module, each as the pair of
its execution model (operand 1) and its name (the literal string from operand 3 on). -/
def entryPoints (words : List Nat) : List (Nat × String) :=
  (((instructionPositions words).getD []).filter
    fun position => opcode (words.getD position 0) = SpvOpEntryPoint).map
    fun position =>
      (words.getD (position + 1) 0,
        literalString words (position + 3) (wordCount (words.getD position 0) - 3))

/-- Specification helper: the SPIR-V execution model that a shader stage flag stands
for. -/
def executionModel (stage : Nat) : Option Nat :=
  if stage = VK_SHADER_STAGE_VERTEX_BIT then some SpvExecutionModelVertex
  else if stage = VK_SHADER_STAGE_FRAGMENT_BIT then some SpvExecutionModelFragment
  else none

namespace Sample13

/-- The byte array `c_vert_shader` of 13-init-pipeline (lines 76-174). -/
def c_vert_shader : List Nat :=
  [0x03, 0x02, 0x23, 0x07, 0x00, 0x00, 0x01, 0x00, 0x06, 0x00, 0x08, 0x00,
   0x20, 0x00, 0x00, 0x00, 0x00, 0x00, 0x00, 0x00, 0x11, 0x00, 0x02, 0x00,
   0x01, 0x00, 0x00, 0x00, 0x0B, 0x00, 0x06, 0x00, 0x01, 0x00, 0x00, 0x00,
   0x47, 0x4C, 0x53, 0x4C, 0x2E, 0x73, 0x74, 0x64, 0x2E, 0x34, 0x35, 0x30,
   0x00, 0x00, 0x00, 0x00, 0x0E, 0x00, 0x03, 0x00, 0x00, 0x00, 0x00, 0x00,
   0x01, 0x00, 0x00, 0x00, 0x0F, 0x00, 0x09, 0x00, 0x00, 0x00, 0x00, 0x00,
   0x04, 0x00, 0x00, 0x00, 0x6D, 0x61, 0x69, 0x6E, 0x00, 0x00, 0x00, 0x00,
   0x09, 0x00, 0x00, 0x00, 0x0B, 0x00, 0x00, 0x00, 0x12, 0x00, 0x00, 0x00,
   0x1C, 0x00, 0x00, 0x00, 0x03, 0x00, 0x03, 0x00, 0x02, 0x00, 0x00, 0x00,
   0x90, 0x01, 0x00, 0x00, 0x04, 0x00, 0x09, 0x00, 0x47, 0x4C, 0x5F, 0x41,
   0x52, 0x42, 0x5F, 0x73, 0x65, 0x70, 0x61, 0x72, 0x61, 0x74, 0x65, 0x5F,
   0x73, 0x68, 0x61, 0x64, 0x65, 0x72, 0x5F, 0x6F, 0x62, 0x6A, 0x65, 0x63,
   0x74, 0x73, 0x00, 0x00, 0x04, 0x00, 0x09, 0x00, 0x47, 0x4C, 0x5F, 0x41,
   0x52, 0x42, 0x5F, 0x73, 0x68, 0x61, 0x64, 0x69, 0x6E, 0x67, 0x5F, 0x6C,
   0x61, 0x6E, 0x67, 0x75, 0x61, 0x67, 0x65, 0x5F, 0x34, 0x32, 0x30, 0x70,
   0x61, 0x63, 0x6B, 0x00, 0x05, 0x00, 0x04, 0x00, 0x04, 0x00, 0x00, 0x00,
   0x6D, 0x61, 0x69, 0x6E, 0x00, 0x00, 0x00, 0x00, 0x05, 0x00, 0x05, 0x00,
   0x09, 0x00, 0x00, 0x00, 0x6F, 0x75, 0x74, 0x5F, 0x63, 0x6F, 0x6C, 0x6F,
   0x72, 0x00, 0x00, 0x00, 0x05, 0x00, 0x05, 0x00, 0x0B, 0x00, 0x00, 0x00,
   0x69, 0x6E, 0x5F, 0x63, 0x6F, 0x6C, 0x6F, 0x72, 0x00, 0x00, 0x00, 0x00,
   0x05, 0x00, 0x06, 0x00, 0x10, 0x00, 0x00, 0x00, 0x67, 0x6C, 0x5F, 0x50,
   0x65, 0x72, 0x56, 0x65, 0x72, 0x74, 0x65, 0x78, 0x00, 0x00, 0x00, 0x00,
   0x06, 0x00, 0x06, 0x00, 0x10, 0x00, 0x00, 0x00, 0x00, 0x00, 0x00, 0x00,
   0x67, 0x6C, 0x5F, 0x50, 0x6F, 0x73, 0x69, 0x74, 0x69, 0x6F, 0x6E, 0x00,
   0x06, 0x00, 0x07, 0x00, 0x10, 0x00, 0x00, 0x00, 0x01, 0x00, 0x00, 0x00,
   0x67, 0x6C, 0x5F, 0x50, 0x6F, 0x69, 0x6E, 0x74, 0x53, 0x69, 0x7A, 0x65,
   0x00, 0x00, 0x00, 0x00, 0x06, 0x00, 0x07, 0x00, 0x10, 0x00, 0x00, 0x00,
   0x02, 0x00, 0x00, 0x00, 0x67, 0x6C, 0x5F, 0x43, 0x6C, 0x69, 0x70, 0x44,
   0x69, 0x73, 0x74, 0x61, 0x6E, 0x63, 0x65, 0x00, 0x05, 0x00, 0x03, 0x00,
   0x12, 0x00, 0x00, 0x00, 0x00, 0x00, 0x00, 0x00, 0x05, 0x00, 0x05, 0x00,
   0x16, 0x00, 0x00, 0x00, 0x62, 0x75, 0x66, 0x66, 0x65, 0x72, 0x56, 0x61,
   0x6C, 0x73, 0x00, 0x00, 0x06, 0x00, 0x04, 0x00, 0x16, 0x00, 0x00, 0x00,
   0x00, 0x00, 0x00, 0x00, 0x6D, 0x76, 0x70, 0x00, 0x05, 0x00, 0x06, 0x00,
   0x18, 0x00, 0x00, 0x00, 0x75, 0x5F, 0x62, 0x75, 0x66, 0x66, 0x65, 0x72,
   0x5F, 0x76, 0x61, 0x6C, 0x73, 0x00, 0x00, 0x00, 0x05, 0x00, 0x04, 0x00,
   0x1C, 0x00, 0x00, 0x00, 0x69, 0x6E, 0x5F, 0x70, 0x6F, 0x73, 0x00, 0x00,
   0x47, 0x00, 0x04, 0x00, 0x09, 0x00, 0x00, 0x00, 0x1E, 0x00, 0x00, 0x00,
   0x00, 0x00, 0x00, 0x00, 0x47, 0x00, 0x04, 0x00, 0x0B, 0x00, 0x00, 0x00,
   0x1E, 0x00, 0x00, 0x00, 0x01, 0x00, 0x00, 0x00, 0x48, 0x00, 0x05, 0x00,
   0x10, 0x00, 0x00, 0x00, 0x00, 0x00, 0x00, 0x00, 0x0B, 0x00, 0x00, 0x00,
   0x00, 0x00, 0x00, 0x00, 0x48, 0x00, 0x05, 0x00, 0x10, 0x00, 0x00, 0x00,
   0x01, 0x00, 0x00, 0x00, 0x0B, 0x00, 0x00, 0x00, 0x01, 0x00, 0x00, 0x00,
   0x48, 0x00, 0x05, 0x00, 0x10, 0x00, 0x00, 0x00, 0x02, 0x00, 0x00, 0x00,
   0x0B, 0x00, 0x00, 0x00, 0x03, 0x00, 0x00, 0x00, 0x47, 0x00, 0x03, 0x00,
   0x10, 0x00, 0x00, 0x00, 0x02, 0x00, 0x00, 0x00, 0x48, 0x00, 0x04, 0x00,
   0x16, 0x00, 0x00, 0x00, 0x00, 0x00, 0x00, 0x00, 0x05, 0x00, 0x00, 0x00,
   0x48, 0x00, 0x05, 0x00, 0x16, 0x00, 0x00, 0x00, 0x00, 0x00, 0x00, 0x00,
   0x23, 0x00, 0x00, 0x00, 0x00, 0x00, 0x00, 0x00, 0x48, 0x00, 0x05, 0x00,
   0x16, 0x00, 0x00, 0x00, 0x00, 0x00, 0x00, 0x00, 0x07, 0x00, 0x00, 0x00,
   0x10, 0x00, 0x00, 0x00, 0x47, 0x00, 0x03, 0x00, 0x16, 0x00, 0x00, 0x00,
   0x02, 0x00, 0x00, 0x00, 0x47, 0x00, 0x04, 0x00, 0x18, 0x00, 0x00, 0x00,
   0x22, 0x00, 0x00, 0x00, 0x00, 0x00, 0x00, 0x00, 0x47, 0x00, 0x04, 0x00,
   0x18, 0x00, 0x00, 0x00, 0x21, 0x00, 0x00, 0x00, 0x00, 0x00, 0x00, 0x00,
   0x47, 0x00, 0x04, 0x00, 0x1C, 0x00, 0x00, 0x00, 0x1E, 0x00, 0x00, 0x00,
   0x00, 0x00, 0x00, 0x00, 0x13, 0x00, 0x02, 0x00, 0x02, 0x00, 0x00, 0x00,
   0x21, 0x00, 0x03, 0x00, 0x03, 0x00, 0x00, 0x00, 0x02, 0x00, 0x00, 0x00,
   0x16, 0x00, 0x03, 0x00, 0x06, 0x00, 0x00, 0x00, 0x20, 0x00, 0x00, 0x00,
   0x17, 0x00, 0x04, 0x00, 0x07, 0x00, 0x00, 0x00, 0x06, 0x00, 0x00, 0x00,
   0x04, 0x00, 0x00, 0x00, 0x20, 0x00, 0x04, 0x00, 0x08, 0x00, 0x00, 0x00,
   0x03, 0x00, 0x00, 0x00, 0x07, 0x00, 0x00, 0x00, 0x3B, 0x00, 0x04, 0x00,
   0x08, 0x00, 0x00, 0x00, 0x09, 0x00, 0x00, 0x00, 0x03, 0x00, 0x00, 0x00,
   0x20, 0x00, 0x04, 0x00, 0x0A, 0x00, 0x00, 0x00, 0x01, 0x00, 0x00, 0x00,
   0x07, 0x00, 0x00, 0x00, 0x3B, 0x00, 0x04, 0x00, 0x0A, 0x00, 0x00, 0x00,
   0x0B, 0x00, 0x00, 0x00, 0x01, 0x00, 0x00, 0x00, 0x15, 0x00, 0x04, 0x00,
   0x0D, 0x00, 0x00, 0x00, 0x20, 0x00, 0x00, 0x00, 0x00, 0x00, 0x00, 0x00,
   0x2B, 0x00, 0x04, 0x00, 0x0D, 0x00, 0x00, 0x00, 0x0E, 0x00, 0x00, 0x00,
   0x01, 0x00, 0x00, 0x00, 0x1C, 0x00, 0x04, 0x00, 0x0F, 0x00, 0x00, 0x00,
   0x06, 0x00, 0x00, 0x00, 0x0E, 0x00, 0x00, 0x00, 0x1E, 0x00, 0x05, 0x00,
   0x10, 0x00, 0x00, 0x00, 0x07, 0x00, 0x00, 0x00, 0x06, 0x00, 0x00, 0x00,
   0x0F, 0x00, 0x00, 0x00, 0x20, 0x00, 0x04, 0x00, 0x11, 0x00, 0x00, 0x00,
   0x03, 0x00, 0x00, 0x00, 0x10, 0x00, 0x00, 0x00, 0x3B, 0x00, 0x04, 0x00,
   0x11, 0x00, 0x00, 0x00, 0x12, 0x00, 0x00, 0x00, 0x03, 0x00, 0x00, 0x00,
   0x15, 0x00, 0x04, 0x00, 0x13, 0x00, 0x00, 0x00, 0x20, 0x00, 0x00, 0x00,
   0x01, 0x00, 0x00, 0x00, 0x2B, 0x00, 0x04, 0x00, 0x13, 0x00, 0x00, 0x00,
   0x14, 0x00, 0x00, 0x00, 0x00, 0x00, 0x00, 0x00, 0x18, 0x00, 0x04, 0x00,
   0x15, 0x00, 0x00, 0x00, 0x07, 0x00, 0x00, 0x00, 0x04, 0x00, 0x00, 0x00,
   0x1E, 0x00, 0x03, 0x00, 0x16, 0x00, 0x00, 0x00, 0x15, 0x00, 0x00, 0x00,
   0x20, 0x00, 0x04, 0x00, 0x17, 0x00, 0x00, 0x00, 0x02, 0x00, 0x00, 0x00,
   0x16, 0x00, 0x00, 0x00, 0x3B, 0x00, 0x04, 0x00, 0x17, 0x00, 0x00, 0x00,
   0x18, 0x00, 0x00, 0x00, 0x02, 0x00, 0x00, 0x00, 0x20, 0x00, 0x04, 0x00,
   0x19, 0x00, 0x00, 0x00, 0x02, 0x00, 0x00, 0x00, 0x15, 0x00, 0x00, 0x00,
   0x3B, 0x00, 0x04, 0x00, 0x0A, 0x00, 0x00, 0x00, 0x1C, 0x00, 0x00, 0x00,
   0x01, 0x00, 0x00, 0x00, 0x36, 0x00, 0x05, 0x00, 0x02, 0x00, 0x00, 0x00,
   0x04, 0x00, 0x00, 0x00, 0x00, 0x00, 0x00, 0x00, 0x03, 0x00, 0x00, 0x00,
   0xF8, 0x00, 0x02, 0x00, 0x05, 0x00, 0x00, 0x00, 0x3D, 0x00, 0x04, 0x00,
   0x07, 0x00, 0x00, 0x00, 0x0C, 0x00, 0x00, 0x00, 0x0B, 0x00, 0x00, 0x00,
   0x3E, 0x00, 0x03, 0x00, 0x09, 0x00, 0x00, 0x00, 0x0C, 0x00, 0x00, 0x00,
   0x41, 0x00, 0x05, 0x00, 0x19, 0x00, 0x00, 0x00, 0x1A, 0x00, 0x00, 0x00,
   0x18, 0x00, 0x00, 0x00, 0x14, 0x00, 0x00, 0x00, 0x3D, 0x00, 0x04, 0x00,
   0x15, 0x00, 0x00, 0x00, 0x1B, 0x00, 0x00, 0x00, 0x1A, 0x00, 0x00, 0x00,
   0x3D, 0x00, 0x04, 0x00, 0x07, 0x00, 0x00, 0x00, 0x1D, 0x00, 0x00, 0x00,
   0x1C, 0x00, 0x00, 0x00, 0x91, 0x00, 0x05, 0x00, 0x07, 0x00, 0x00, 0x00,
   0x1E, 0x00, 0x00, 0x00, 0x1B, 0x00, 0x00, 0x00, 0x1D, 0x00, 0x00, 0x00,
   0x41, 0x00, 0x05, 0x00, 0x08, 0x00, 0x00, 0x00, 0x1F, 0x00, 0x00, 0x00,
   0x12, 0x00, 0x00, 0x00, 0x14, 0x00, 0x00, 0x00, 0x3E, 0x00, 0x03, 0x00,
   0x1F, 0x00, 0x00, 0x00, 0x1E, 0x00, 0x00, 0x00, 0xFD, 0x00, 0x01, 0x00,
   0x38, 0x00, 0x01, 0x00]

/-- The byte array `c_frag_shader` of 13-init-pipeline (lines 186-225). -/
def c_frag_shader : List Nat :=
  [0x03, 0x02, 0x23, 0x07, 0x00, 0x00, 0x01, 0x00, 0x06, 0x00, 0x08, 0x00,
   0x0D, 0x00, 0x00, 0x00, 0x00, 0x00, 0x00, 0x00, 0x11, 0x00, 0x02, 0x00,
   0x01, 0x00, 0x00, 0x00, 0x0B, 0x00, 0x06, 0x00, 0x01, 0x00, 0x00, 0x00,
   0x47, 0x4C, 0x53, 0x4C, 0x2E, 0x73, 0x74, 0x64, 0x2E, 0x34, 0x35, 0x30,
   0x00, 0x00, 0x00, 0x00, 0x0E, 0x00, 0x03, 0x00, 0x00, 0x00, 0x00, 0x00,
   0x01, 0x00, 0x00, 0x00, 0x0F, 0x00, 0x07, 0x00, 0x04, 0x00, 0x00, 0x00,
   0x04, 0x00, 0x00, 0x00, 0x6D, 0x61, 0x69, 0x6E, 0x00, 0x00, 0x00, 0x00,
   0x09, 0x00, 0x00, 0x00, 0x0B, 0x00, 0x00, 0x00, 0x10, 0x00, 0x03, 0x00,
   0x04, 0x00, 0x00, 0x00, 0x07, 0x00, 0x00, 0x00, 0x03, 0x00, 0x03, 0x00,
   0x02, 0x00, 0x00, 0x00, 0x90, 0x01, 0x00, 0x00, 0x04, 0x00, 0x09, 0x00,
   0x47, 0x4C, 0x5F, 0x41, 0x52, 0x42, 0x5F, 0x73, 0x65, 0x70, 0x61, 0x72,
   0x61, 0x74, 0x65, 0x5F, 0x73, 0x68, 0x61, 0x64, 0x65, 0x72, 0x5F, 0x6F,
   0x62, 0x6A, 0x65, 0x63, 0x74, 0x73, 0x00, 0x00, 0x04, 0x00, 0x09, 0x00,
   0x47, 0x4C, 0x5F, 0x41, 0x52, 0x42, 0x5F, 0x73, 0x68, 0x61, 0x64, 0x69,
   0x6E, 0x67, 0x5F, 0x6C, 0x61, 0x6E, 0x67, 0x75, 0x61, 0x67, 0x65, 0x5F,
   0x34, 0x32, 0x30, 0x70, 0x61, 0x63, 0x6B, 0x00, 0x05, 0x00, 0x04, 0x00,
   0x04, 0x00, 0x00, 0x00, 0x6D, 0x61, 0x69, 0x6E, 0x00, 0x00, 0x00, 0x00,
   0x05, 0x00, 0x05, 0x00, 0x09, 0x00, 0x00, 0x00, 0x6F, 0x75, 0x74, 0x5F,
   0x63, 0x6F, 0x6C, 0x6F, 0x72, 0x00, 0x00, 0x00, 0x05, 0x00, 0x05, 0x00,
   0x0B, 0x00, 0x00, 0x00, 0x69, 0x6E, 0x5F, 0x63, 0x6F, 0x6C, 0x6F, 0x72,
   0x00, 0x00, 0x00, 0x00, 0x47, 0x00, 0x04, 0x00, 0x09, 0x00, 0x00, 0x00,
   0x1E, 0x00, 0x00, 0x00, 0x00, 0x00, 0x00, 0x00, 0x47, 0x00, 0x04, 0x00,
   0x0B, 0x00, 0x00, 0x00, 0x1E, 0x00, 0x00, 0x00, 0x00, 0x00, 0x00, 0x00,
   0x13, 0x00, 0x02, 0x00, 0x02, 0x00, 0x00, 0x00, 0x21, 0x00, 0x03, 0x00,
   0x03, 0x00, 0x00, 0x00, 0x02, 0x00, 0x00, 0x00, 0x16, 0x00, 0x03, 0x00,
   0x06, 0x00, 0x00, 0x00, 0x20, 0x00, 0x00, 0x00, 0x17, 0x00, 0x04, 0x00,
   0x07, 0x00, 0x00, 0x00, 0x06, 0x00, 0x00, 0x00, 0x04, 0x00, 0x00, 0x00,
   0x20, 0x00, 0x04, 0x00, 0x08, 0x00, 0x00, 0x00, 0x03, 0x00, 0x00, 0x00,
   0x07, 0x00, 0x00, 0x00, 0x3B, 0x00, 0x04, 0x00, 0x08, 0x00, 0x00, 0x00,
   0x09, 0x00, 0x00, 0x00, 0x03, 0x00, 0x00, 0x00, 0x20, 0x00, 0x04, 0x00,
   0x0A, 0x00, 0x00, 0x00, 0x01, 0x00, 0x00, 0x00, 0x07, 0x00, 0x00, 0x00,
   0x3B, 0x00, 0x04, 0x00, 0x0A, 0x00, 0x00, 0x00, 0x0B, 0x00, 0x00, 0x00,
   0x01, 0x00, 0x00, 0x00, 0x36, 0x00, 0x05, 0x00, 0x02, 0x00, 0x00, 0x00,
   0x04, 0x00, 0x00, 0x00, 0x00, 0x00, 0x00, 0x00, 0x03, 0x00, 0x00, 0x00,
   0xF8, 0x00, 0x02, 0x00, 0x05, 0x00, 0x00, 0x00, 0x3D, 0x00, 0x04, 0x00,
   0x07, 0x00, 0x00, 0x00, 0x0C, 0x00, 0x00, 0x00, 0x0B, 0x00, 0x00, 0x00,
   0x3E, 0x00, 0x03, 0x00, 0x09, 0x00, 0x00, 0x00, 0x0C, 0x00, 0x00, 0x00,
   0xFD, 0x00, 0x01, 0x00, 0x38, 0x00, 0x01, 0x00]

/-- The struct `vert_shader_module_info` of 13-init-pipeline (lines 881-885). -/
def vert_shader_module_info : VkShaderModuleCreateInfo :=
  { codeSize := c_vert_shader.length, pCode := c_vert_shader }

/-- The struct `frag_shader_module_info` of 13-init-pipeline (lines 891-895). -/
def frag_shader_module_info : VkShaderModuleCreateInfo :=
  { codeSize := c_frag_shader.length, pCode := c_frag_shader }

/-- The array `shader_stages` of 13-init-pipeline (lines 872-899): the two
`vkCreateShaderModule` calls write the module of `vert_shader_module_info` to
`shader_stages[0].module` and that of `frag_shader_module_info` to
`shader_stages[1].module`. -/
def shader_stages : List VkPipelineShaderStageCreateInfo :=
  [{ stage := VK_SHADER_STAGE_VERTEX_BIT, module := vert_shader_module_info,
     pName := "main" },
   { stage := VK_SHADER_STAGE_FRAGMENT_BIT, module := frag_shader_module_info,
     pName := "main" }]

end Sample13

/-- Return values of the API calls: `glfwInit` (call 1) returns `GLFW_TRUE`, the call
number `failing` returns `VK_ERROR_OUT_OF_DEVICE_MEMORY`, the call number `closing`
returns 1 and every other call returns 0. -/
def allocationFails (failing closing : Nat) (n : Nat) : Int :=
  if n = 1 then GLFW_TRUE
  else if n = failing then VK_ERROR_OUT_OF_DEVICE_MEMORY
  else if n = closing then 1
  else 0

/-! ## Properties -/

theorem shiftRight_and_one_iff (b i : Nat) : (b >>> i) &&& 1 = 1 ↔ b.testBit i = true := by
  rw [Nat.testBit, Nat.and_one_is_mod, Nat.one_and_eq_mod_two]
  have h := Nat.mod_two_eq_zero_or_one (b >>> i)
  rcases h with h | h <;> simp [h]

theorem findMemoryTypeIndex_loop_eq :
    Sample13.findMemoryTypeIndex.loop = Sample09.findMemoryTypeIndex.loop := by
  funext props flags n
  induction n with
  | zero => rfl
  | succ n ih =>
    funext i b
    simp only [Sample13.findMemoryTypeIndex.loop, Sample09.findMemoryTypeIndex.loop, ih]

theorem findMemoryTypeIndex_eq :
    Sample13.findMemoryTypeIndex = Sample09.findMemoryTypeIndex := by
  funext props reqs flags
  simp only [Sample13.findMemoryTypeIndex, Sample09.findMemoryTypeIndex,
    findMemoryTypeIndex_loop_eq]

theorem memoryTypeAt_of_lt (props : VkPhysicalDeviceMemoryProperties) (i : Nat) (h : i < 32) :
    memoryTypeAt props i = some (props.memoryTypes ⟨i, h⟩) := by
  simp [memoryTypeAt, h]

/-- The loop started at index `i` with `memoryTypeBits >>> i` either stops at the first
matching index at or after `i`, or runs through all `n` remaining indices without a match
and keeps the sentinel. It reads `memoryTypes[j]` only where bit `j` is set, so it stays
inside the array as long as every set bit it meets is below 32. -/
theorem findMemoryTypeIndex_loop_spec (props : VkPhysicalDeviceMemoryProperties)
    (prop_flags B : Nat) : ∀ n i : Nat,
    (∀ j, i ≤ j → j < i + n → B.testBit j = true → j < 32) →
    (∃ k, i ≤ k ∧ k < i + n ∧ MemoryTypeMatches props B prop_flags k ∧
        (∀ j, i ≤ j → j < k → ¬ MemoryTypeMatches props B prop_flags j) ∧
        Sample09.findMemoryTypeIndex.loop props prop_flags n i (B >>> i) = some k) ∨
    ((∀ j, i ≤ j → j < i + n → ¬ MemoryTypeMatches props B prop_flags j) ∧
        Sample09.findMemoryTypeIndex.loop props prop_flags n i (B >>> i) = some UINT32_MAX) := by
  intro n
  induction n with
  | zero =>
    intro i _
    right
    exact ⟨fun j h1 h2 => absurd h2 (by omega), rfl⟩
  | succ n ih =>
    intro i hsafe
    have hnext : (B >>> i) >>> 1 = B >>> (i + 1) := (Nat.shiftRight_add B i 1).symm
    have hrec := ih (i + 1) (fun j h1 h2 h3 => hsafe j (by omega) (by omega) h3)
    -- what the loop does when iteration `i` does not break
    have hskip : ¬ MemoryTypeMatches props B prop_flags i →
        ((∃ k, i ≤ k ∧ k < i + (n + 1) ∧ MemoryTypeMatches props B prop_flags k ∧
          (∀ j, i ≤ j → j < k → ¬ MemoryTypeMatches props B prop_flags j) ∧
          Sample09.findMemoryTypeIndex.loop props prop_flags n (i + 1) (B >>> (i + 1)) = some k) ∨
        ((∀ j, i ≤ j → j < i + (n + 1) → ¬ MemoryTypeMatches props B prop_flags j) ∧
          Sample09.findMemoryTypeIndex.loop props prop_flags n (i + 1) (B >>> (i + 1)) =
            some UINT32_MAX)) := by
      intro hno
      rcases hrec with ⟨k, hk1, hk2, hk3, hk4, hk5⟩ | ⟨hall, hres⟩
      · left
        refine ⟨k, by omega, by omega, hk3, ?_, hk5⟩
        intro j hj1 hj2
        by_cases hji : j = i
        · subst hji; exact hno
        · exact hk4 j (by omega) hj2
      · right
        refine ⟨?_, hres⟩
        intro j hj1 hj2
        by_cases hji : j = i
        · subst hji; exact hno
        · exact hall j (by omega) (by omega)
    rw [Sample09.findMemoryTypeIndex.loop, hnext]
    by_cases hbit : (B >>> i) &&& 1 = 1
    · have hlt : i < 32 :=
        hsafe i (le_refl i) (by omega) ((shiftRight_and_one_iff B i).mp hbit)
      rw [if_pos hbit, memoryTypeAt_of_lt props i hlt]
      by_cases hfl : (props.memoryTypes ⟨i, hlt⟩).propertyFlags &&& prop_flags = prop_flags
      · simp only [if_pos hfl]
        left
        refine ⟨i, le_refl i, by omega, ?_, fun j h1 h2 => absurd h2 (by omega), rfl⟩
        exact ⟨(shiftRight_and_one_iff B i).mp hbit, _, memoryTypeAt_of_lt props i hlt, hfl⟩
      · simp only [if_neg hfl]
        apply hskip
        rintro ⟨_, t, ht, htf⟩
        rw [memoryTypeAt_of_lt props i hlt] at ht
        cases ht
        exact hfl htf
    · rw [if_neg hbit]
      apply hskip
      rintro ⟨hb, _⟩
      exact hbit ((shiftRight_and_one_iff B i).mpr hb)

/-- When `memoryTypeCount` is a `uint32_t` value and every set bit of `memoryTypeBits`
below `memoryTypeCount` is below 32, the search of sample 09 returns the least suitable
index with flag `true`, or the sentinel with flag `false` when no index is suitable. -/
theorem findMemoryTypeIndex_spec (props : VkPhysicalDeviceMemoryProperties)
    (mem_reqs : VkMemoryRequirements) (prop_flags : Nat)
    (hcount : props.memoryTypeCount ≤ UINT32_MAX)
    (hsafe : ∀ j, j < props.memoryTypeCount → mem_reqs.memoryTypeBits.testBit j = true →
      j < 32) :
    (∃ k, MemoryTypeSuitable props mem_reqs.memoryTypeBits prop_flags k ∧
        (∀ j, j < k → ¬ MemoryTypeSuitable props mem_reqs.memoryTypeBits prop_flags j) ∧
        Sample09.findMemoryTypeIndex props mem_reqs prop_flags = some (true, k)) ∨
    ((∀ j, ¬ MemoryTypeSuitable props mem_reqs.memoryTypeBits prop_flags j) ∧
        Sample09.findMemoryTypeIndex props mem_reqs prop_flags = some (false, UINT32_MAX)) := by
  have h := findMemoryTypeIndex_loop_spec props prop_flags mem_reqs.memoryTypeBits
    props.memoryTypeCount 0 (fun j _ h2 h3 => hsafe j (by omega) h3)
  rw [Nat.shiftRight_zero] at h
  rcases h with ⟨k, _, hk2, hk3, hk4, hk5⟩ | ⟨hall, hres⟩
  · left
    refine ⟨k, ⟨by omega, hk3⟩, fun j hj hs => hk4 j (Nat.zero_le j) hj hs.2, ?_⟩
    have hne : (k != UINT32_MAX) = true := by
      have : k ≠ UINT32_MAX := by omega
      simpa using this
    simp only [Sample09.findMemoryTypeIndex, hk5, hne]
  · right
    refine ⟨fun j hs => hall j (Nat.zero_le j) (by have := hs.1; omega) hs.2, ?_⟩
    simp [Sample09.findMemoryTypeIndex, hres]

/-- C1. `findMemoryTypeIndex` of samples 09 and 13: when `memoryTypeCount ≤ 32` and some
index below `memoryTypeCount` has its bit set in `memoryTypeBits` and carries all of
`prop_flags`, the function returns `(true, i0)` with `i0` the least such index. -/
theorem findMemoryTypeIndex_returns_least_suitable (props : VkPhysicalDeviceMemoryProperties)
    (mem_reqs : VkMemoryRequirements) (prop_flags : Nat)
    (hcount : props.memoryTypeCount ≤ 32)
    (hex : ∃ i, i < props.memoryTypeCount ∧ mem_reqs.memoryTypeBits.testBit i = true ∧
      ∃ t, memoryTypeAt props i = some t ∧ t.propertyFlags &&& prop_flags = prop_flags) :
    ∃ i0, (i0 < props.memoryTypeCount ∧ mem_reqs.memoryTypeBits.testBit i0 = true ∧
        ∃ t, memoryTypeAt props i0 = some t ∧
          t.propertyFlags &&& prop_flags = prop_flags) ∧
      (∀ j, j < i0 → ¬ (j < props.memoryTypeCount ∧
        mem_reqs.memoryTypeBits.testBit j = true ∧
        ∃ t, memoryTypeAt props j = some t ∧
          t.propertyFlags &&& prop_flags = prop_flags)) ∧
      Sample09.findMemoryTypeIndex props mem_reqs prop_flags = some (true, i0) ∧
      Sample13.findMemoryTypeIndex props mem_reqs prop_flags = some (true, i0) := by
  rcases findMemoryTypeIndex_spec props mem_reqs prop_flags
      (by unfold UINT32_MAX; omega) (fun j hj _ => by omega) with
    ⟨k, hk1, hk2, hk3⟩ | ⟨hall, _⟩
  · exact ⟨k, hk1, hk2, hk3, by rw [findMemoryTypeIndex_eq]; exact hk3⟩
  · obtain ⟨i, hi⟩ := hex
    exact absurd hi (hall i)

/-- Witness of C1: in the example table, with `memoryTypeBits = 0b110` and
`prop_flags = 6`, indices 1 and 2 are suitable and index 1 is returned. -/
theorem findMemoryTypeIndex_returns_least_suitable_witness :
    exampleMemoryProperties.memoryTypeCount ≤ 32 ∧
    Sample13.findMemoryTypeIndex exampleMemoryProperties (VkMemoryRequirements.mk 16 4 6) 6 =
      some (true, 1) ∧
    ∃ i0, (i0 < exampleMemoryProperties.memoryTypeCount ∧
        (VkMemoryRequirements.mk 16 4 6).memoryTypeBits.testBit i0 = true ∧
        ∃ t, memoryTypeAt exampleMemoryProperties i0 = some t ∧ t.propertyFlags &&& 6 = 6) ∧
      (∀ j, j < i0 → ¬ (j < exampleMemoryProperties.memoryTypeCount ∧
        (VkMemoryRequirements.mk 16 4 6).memoryTypeBits.testBit j = true ∧
        ∃ t, memoryTypeAt exampleMemoryProperties j = some t ∧ t.propertyFlags &&& 6 = 6)) ∧
      Sample09.findMemoryTypeIndex exampleMemoryProperties (VkMemoryRequirements.mk 16 4 6) 6 =
        some (true, i0) ∧
      Sample13.findMemoryTypeIndex exampleMemoryProperties (VkMemoryRequirements.mk 16 4 6) 6 =
        some (true, i0) :=
  ⟨by decide, by decide,
    findMemoryTypeIndex_returns_least_suitable exampleMemoryProperties
      (VkMemoryRequirements.mk 16 4 6) 6 (by decide)
      ⟨2, by decide, by decide, ⟨7, 1⟩, rfl, by decide⟩⟩

/-- C2. `findMemoryTypeIndex` of samples 09 and 13, for `uint32_t` values of
`memoryTypeCount` and `memoryTypeBits`: the function returns a pair `(flag, index)`; the
flag is `false` exactly when no index below `memoryTypeCount` has its bit set in
`memoryTypeBits` together with all bits of `prop_flags` in `memoryTypes[i].propertyFlags`;
with flag `false` the index is `0xFFFFFFFF`; with flag `true` the index is below
`memoryTypeCount`. -/
theorem findMemoryTypeIndex_flag_iff_and_sentinel (props : VkPhysicalDeviceMemoryProperties)
    (mem_reqs : VkMemoryRequirements) (prop_flags : Nat)
    (hcount : props.memoryTypeCount < 2 ^ 32)
    (hbits : mem_reqs.memoryTypeBits < 2 ^ 32) :
    ∃ flag index,
      Sample13.findMemoryTypeIndex props mem_reqs prop_flags = some (flag, index) ∧
      Sample09.findMemoryTypeIndex props mem_reqs prop_flags = some (flag, index) ∧
      (flag = false ↔
        ¬ ∃ i, i < props.memoryTypeCount ∧ mem_reqs.memoryTypeBits.testBit i = true ∧
          ∃ t, memoryTypeAt props i = some t ∧
            t.propertyFlags &&& prop_flags = prop_flags) ∧
      (flag = false → index = 0xFFFFFFFF) ∧
      (flag = true → index < props.memoryTypeCount) := by
  have hsafe : ∀ j, j < props.memoryTypeCount → mem_reqs.memoryTypeBits.testBit j = true →
      j < 32 := by
    intro j _ hj
    by_contra hge
    have hpow : 2 ^ 32 ≤ 2 ^ j := Nat.pow_le_pow_right (by omega) (by omega)
    have := Nat.testBit_implies_ge hj
    omega
  rcases findMemoryTypeIndex_spec props mem_reqs prop_flags
      (by unfold UINT32_MAX; omega) hsafe with ⟨k, hk1, _, hk3⟩ | ⟨hall, hres⟩
  · refine ⟨true, k, by rw [findMemoryTypeIndex_eq]; exact hk3, hk3, ?_, ?_, fun _ => hk1.1⟩
    · constructor
      · intro h; cases h
      · intro h; exact absurd ⟨k, hk1.1, hk1.2⟩ h
    · intro h; cases h
  · refine ⟨false, UINT32_MAX, by rw [findMemoryTypeIndex_eq]; exact hres, hres, ?_, ?_, ?_⟩
    · constructor
      · rintro _ ⟨i, hi1, hi2⟩
        exact hall i ⟨hi1, hi2⟩
      · intro _; rfl
    · intro _; rfl
    · intro h; cases h

/-- Witness of C2 at the example table, `memoryTypeBits = 0b001` and `prop_flags = 6`
(no suitable index: the function returns `(false, 0xFFFFFFFF)`). -/
theorem findMemoryTypeIndex_flag_iff_and_sentinel_witness :
    exampleMemoryProperties.memoryTypeCount < 2 ^ 32 ∧
    (VkMemoryRequirements.mk 16 4 1).memoryTypeBits < 2 ^ 32 ∧
    Sample13.findMemoryTypeIndex exampleMemoryProperties (VkMemoryRequirements.mk 16 4 1) 6 =
      some (false, 0xFFFFFFFF) ∧
    ∃ flag index,
      Sample13.findMemoryTypeIndex exampleMemoryProperties (VkMemoryRequirements.mk 16 4 1) 6 =
        some (flag, index) ∧
      Sample09.findMemoryTypeIndex exampleMemoryProperties (VkMemoryRequirements.mk 16 4 1) 6 =
        some (flag, index) ∧
      (flag = false ↔
        ¬ ∃ i, i < exampleMemoryProperties.memoryTypeCount ∧
          (VkMemoryRequirements.mk 16 4 1).memoryTypeBits.testBit i = true ∧
          ∃ t, memoryTypeAt exampleMemoryProperties i = some t ∧
            t.propertyFlags &&& 6 = 6) ∧
      (flag = false → index = 0xFFFFFFFF) ∧
      (flag = true → index < exampleMemoryProperties.memoryTypeCount) :=
  ⟨by decide, by decide, by decide,
    findMemoryTypeIndex_flag_iff_and_sentinel exampleMemoryProperties
      (VkMemoryRequirements.mk 16 4 1) 6 (by decide) (by decide)⟩

/-! ### The samples share their selection code -/

theorem surface_format_loop_eq_09 :
    Sample09.surface_format.loop = Sample04.surface_format.loop := by
  funext l
  induction l with
  | nil => rfl
  | cons a t ih => simp only [Sample09.surface_format.loop, Sample04.surface_format.loop, ih]

theorem surface_format_loop_eq_13 :
    Sample13.surface_format.loop = Sample04.surface_format.loop := by
  funext l
  induction l with
  | nil => rfl
  | cons a t ih => simp only [Sample13.surface_format.loop, Sample04.surface_format.loop, ih]

theorem surface_format_eq_09 : Sample09.surface_format = Sample04.surface_format := by
  funext l
  cases l with
  | nil => rfl
  | cons a t =>
    simp only [Sample09.surface_format, Sample04.surface_format, surface_format_loop_eq_09]

theorem surface_format_eq_13 : Sample13.surface_format = Sample04.surface_format := by
  funext l
  cases l with
  | nil => rfl
  | cons a t =>
    simp only [Sample13.surface_format, Sample04.surface_format, surface_format_loop_eq_13]

theorem present_mode_loop_eq_09 : Sample09.present_mode.loop = Sample04.present_mode.loop := by
  funext l
  induction l with
  | nil => rfl
  | cons a t ih =>
    funext b
    simp only [Sample09.present_mode.loop, Sample04.present_mode.loop, ih]

theorem present_mode_loop_eq_13 : Sample13.present_mode.loop = Sample04.present_mode.loop := by
  funext l
  induction l with
  | nil => rfl
  | cons a t ih =>
    funext b
    simp only [Sample13.present_mode.loop, Sample04.present_mode.loop, ih]

theorem present_mode_eq_09 : Sample09.present_mode = Sample04.present_mode := by
  funext l
  simp only [Sample09.present_mode, Sample04.present_mode, present_mode_loop_eq_09]

theorem present_mode_eq_13 : Sample13.present_mode = Sample04.present_mode := by
  funext l
  simp only [Sample13.present_mode, Sample04.present_mode, present_mode_loop_eq_13]

theorem extent_eq_09 : Sample09.extent = Sample04.extent := rfl

theorem extent_eq_13 : Sample13.extent = Sample04.extent := rfl

/-! ### Surface format -/

theorem eq_preferredSurfaceFormat (a : VkSurfaceFormatKHR)
    (hc : a.format = VK_FORMAT_B8G8R8A8_UNORM ∧
      a.colorSpace = VK_COLOR_SPACE_SRGB_NONLINEAR_KHR) : a = preferredSurfaceFormat := by
  cases a
  simp only at hc
  rw [hc.1, hc.2]
  rfl

theorem surface_format_loop_some (l : List VkSurfaceFormatKHR) (f : VkSurfaceFormatKHR)
    (h : Sample04.surface_format.loop l = some f) : f ∈ l ∧ f = preferredSurfaceFormat := by
  induction l with
  | nil => simp [Sample04.surface_format.loop] at h
  | cons a t ih =>
    rw [Sample04.surface_format.loop] at h
    split at h
    · rename_i hc
      cases h
      exact ⟨List.mem_cons_self _ _, eq_preferredSurfaceFormat _ hc⟩
    · exact ⟨List.mem_cons_of_mem _ (ih h).1, (ih h).2⟩

theorem surface_format_loop_of_mem (l : List VkSurfaceFormatKHR)
    (h : preferredSurfaceFormat ∈ l) :
    Sample04.surface_format.loop l = some preferredSurfaceFormat := by
  induction l with
  | nil => simp at h
  | cons a t ih =>
    rw [Sample04.surface_format.loop]
    split
    · rename_i hc
      rw [eq_preferredSurfaceFormat _ hc]
    · rename_i hc
      rcases List.mem_cons.mp h with h1 | h1
      · exfalso
        apply hc
        rw [← h1]
        exact ⟨rfl, rfl⟩
      · exact ih h1

theorem surface_format_loop_none (l : List VkSurfaceFormatKHR)
    (h : preferredSurfaceFormat ∉ l) : Sample04.surface_format.loop l = none := by
  cases hl : Sample04.surface_format.loop l with
  | none => rfl
  | some f =>
    have := surface_format_loop_some l f hl
    rw [this.2] at this
    exact absurd this.1 h

theorem surface_format_of_mem (l : List VkSurfaceFormatKHR)
    (h : preferredSurfaceFormat ∈ l) :
    Sample04.surface_format l = .ok preferredSurfaceFormat := by
  cases l with
  | nil => simp at h
  | cons a t =>
    simp only [Sample04.surface_format, surface_format_loop_of_mem _ h]
    split <;> rfl

/-- C3. Surface-format pick of samples 04, 09 and 13: for every list that contains the
entry `(VK_FORMAT_B8G8R8A8_UNORM, VK_COLOR_SPACE_SRGB_NONLINEAR_KHR)`, at whatever
position, the selected surface format is exactly that pair. -/
theorem surface_format_picks_preferred (surface_formats : List VkSurfaceFormatKHR)
    (hmem : (⟨VK_FORMAT_B8G8R8A8_UNORM, VK_COLOR_SPACE_SRGB_NONLINEAR_KHR⟩ :
      VkSurfaceFormatKHR) ∈ surface_formats) :
    Sample04.surface_format surface_formats =
      .ok ⟨VK_FORMAT_B8G8R8A8_UNORM, VK_COLOR_SPACE_SRGB_NONLINEAR_KHR⟩ ∧
    Sample09.surface_format surface_formats =
      .ok ⟨VK_FORMAT_B8G8R8A8_UNORM, VK_COLOR_SPACE_SRGB_NONLINEAR_KHR⟩ ∧
    Sample13.surface_format surface_formats =
      .ok ⟨VK_FORMAT_B8G8R8A8_UNORM, VK_COLOR_SPACE_SRGB_NONLINEAR_KHR⟩ := by
  rw [surface_format_eq_09, surface_format_eq_13]
  exact ⟨surface_format_of_mem _ hmem, surface_format_of_mem _ hmem,
    surface_format_of_mem _ hmem⟩

/-- Witness of C3: the preferred pair in last position of a three-entry list. -/
theorem surface_format_picks_preferred_witness :
    (⟨VK_FORMAT_B8G8R8A8_UNORM, VK_COLOR_SPACE_SRGB_NONLINEAR_KHR⟩ : VkSurfaceFormatKHR) ∈
      [(⟨37, 0⟩ : VkSurfaceFormatKHR), ⟨44, 1000104001⟩, ⟨44, 0⟩] ∧
    Sample04.surface_format [⟨37, 0⟩, ⟨44, 1000104001⟩, ⟨44, 0⟩] =
      .ok ⟨VK_FORMAT_B8G8R8A8_UNORM, VK_COLOR_SPACE_SRGB_NONLINEAR_KHR⟩ ∧
    Sample09.surface_format [⟨37, 0⟩, ⟨44, 1000104001⟩, ⟨44, 0⟩] =
      .ok ⟨VK_FORMAT_B8G8R8A8_UNORM, VK_COLOR_SPACE_SRGB_NONLINEAR_KHR⟩ ∧
    Sample13.surface_format [⟨37, 0⟩, ⟨44, 1000104001⟩, ⟨44, 0⟩] =
      .ok ⟨VK_FORMAT_B8G8R8A8_UNORM, VK_COLOR_SPACE_SRGB_NONLINEAR_KHR⟩ :=
  ⟨by decide, surface_format_picks_preferred [⟨37, 0⟩, ⟨44, 1000104001⟩, ⟨44, 0⟩] (by decide)⟩

theorem surface_format_04_fallback_cases (surface_formats : List VkSurfaceFormatKHR)
    (hne : surface_formats ≠ []) :
    (∀ f, surface_formats = [f] → f.format = VK_FORMAT_UNDEFINED →
      Sample04.surface_format surface_formats = .ok preferredSurfaceFormat) ∧
    ((¬ ∃ f, surface_formats = [f] ∧ f.format = VK_FORMAT_UNDEFINED) →
      preferredSurfaceFormat ∉ surface_formats →
      Sample04.surface_format surface_formats = .ok (surface_formats.head hne)) ∧
    (∃ r, Sample04.surface_format surface_formats = .ok r ∧
      (r ∈ surface_formats ∨ r = preferredSurfaceFormat)) := by
  cases surface_formats with
  | nil => exact absurd rfl hne
  | cons a t =>
    refine ⟨?_, ?_, ?_⟩
    · intro f hf hu
      cases hf
      simp [Sample04.surface_format, hu, preferredSurfaceFormat]
    · intro hsingle hnot
      have hcond : ¬ ((a :: t).length = 1 ∧ a.format = VK_FORMAT_UNDEFINED) := by
        rintro ⟨hlen, hu⟩
        have ht : t = [] := by
          cases t with
          | nil => rfl
          | cons b u => simp at hlen
        exact hsingle ⟨a, by rw [ht], hu⟩
      simp only [Sample04.surface_format, if_neg hcond, surface_format_loop_none _ hnot,
        List.head_cons]
    · simp only [Sample04.surface_format]
      split
      · exact ⟨_, rfl, Or.inr rfl⟩
      · cases hl : Sample04.surface_format.loop (a :: t) with
        | none => exact ⟨a, rfl, Or.inl (List.mem_cons_self _ _)⟩
        | some f => exact ⟨f, rfl, Or.inl (surface_format_loop_some _ f hl).1⟩

/-- C4. Surface-format fallback of samples 04, 09 and 13, for a non-empty list: a single
entry with format `VK_FORMAT_UNDEFINED` gives the preferred pair
`(VK_FORMAT_B8G8R8A8_UNORM, VK_COLOR_SPACE_SRGB_NONLINEAR_KHR)`; otherwise, when no entry
equals the preferred pair, the result is the first entry; in every case the result is a
member of the list or the preferred pair. On the empty list `main` returns `EXIT_FAILURE`
("Suitable surface format not found.") before any pick. -/
theorem surface_format_fallback (surface_formats : List VkSurfaceFormatKHR)
    (hne : surface_formats ≠ []) :
    ∀ pick ∈ [Sample04.surface_format, Sample09.surface_format, Sample13.surface_format],
      (∀ f, surface_formats = [f] → f.format = VK_FORMAT_UNDEFINED →
        pick surface_formats =
          .ok ⟨VK_FORMAT_B8G8R8A8_UNORM, VK_COLOR_SPACE_SRGB_NONLINEAR_KHR⟩) ∧
      ((¬ ∃ f, surface_formats = [f] ∧ f.format = VK_FORMAT_UNDEFINED) →
        (⟨VK_FORMAT_B8G8R8A8_UNORM, VK_COLOR_SPACE_SRGB_NONLINEAR_KHR⟩ :
          VkSurfaceFormatKHR) ∉ surface_formats →
        pick surface_formats = .ok (surface_formats.head hne)) ∧
      (∃ r, pick surface_formats = .ok r ∧ (r ∈ surface_formats ∨
        r = ⟨VK_FORMAT_B8G8R8A8_UNORM, VK_COLOR_SPACE_SRGB_NONLINEAR_KHR⟩)) ∧
      pick [] = .error "Suitable surface format not found." := by
  intro pick hpick
  have hp : pick = Sample04.surface_format := by
    simp only [surface_format_eq_09, surface_format_eq_13, List.mem_cons, List.mem_singleton,
      List.mem_nil_iff, or_false, or_self] at hpick
    exact hpick
  subst hp
  have h := surface_format_04_fallback_cases surface_formats hne
  exact ⟨h.1, h.2.1, h.2.2, rfl⟩

/-- Witness of C4: a two-entry list without the preferred pair, in sample 13. -/
theorem surface_format_fallback_witness :
    ([⟨0, 0⟩, ⟨37, 0⟩] : List VkSurfaceFormatKHR) ≠ [] ∧
    Sample13.surface_format [⟨0, 0⟩, ⟨37, 0⟩] = .ok ⟨0, 0⟩ ∧
    ((∀ f, ([⟨0, 0⟩, ⟨37, 0⟩] : List VkSurfaceFormatKHR) = [f] →
        f.format = VK_FORMAT_UNDEFINED →
        Sample13.surface_format [⟨0, 0⟩, ⟨37, 0⟩] =
          .ok ⟨VK_FORMAT_B8G8R8A8_UNORM, VK_COLOR_SPACE_SRGB_NONLINEAR_KHR⟩) ∧
      ((¬ ∃ f, ([⟨0, 0⟩, ⟨37, 0⟩] : List VkSurfaceFormatKHR) = [f] ∧
          f.format = VK_FORMAT_UNDEFINED) →
        (⟨VK_FORMAT_B8G8R8A8_UNORM, VK_COLOR_SPACE_SRGB_NONLINEAR_KHR⟩ :
          VkSurfaceFormatKHR) ∉ ([⟨0, 0⟩, ⟨37, 0⟩] : List VkSurfaceFormatKHR) →
        Sample13.surface_format [⟨0, 0⟩, ⟨37, 0⟩] =
          .ok (([⟨0, 0⟩, ⟨37, 0⟩] : List VkSurfaceFormatKHR).head (by decide))) ∧
      (∃ r, Sample13.surface_format [⟨0, 0⟩, ⟨37, 0⟩] = .ok r ∧
        (r ∈ ([⟨0, 0⟩, ⟨37, 0⟩] : List VkSurfaceFormatKHR) ∨
          r = ⟨VK_FORMAT_B8G8R8A8_UNORM, VK_COLOR_SPACE_SRGB_NONLINEAR_KHR⟩)) ∧
      Sample13.surface_format [] = .error "Suitable surface format not found.") :=
  ⟨by decide, rfl,
    surface_format_fallback [⟨0, 0⟩, ⟨37, 0⟩] (by decide) Sample13.surface_format
      (by simp)⟩

/-! ### Present mode -/

theorem present_mode_loop_spec (l : List Nat) : ∀ best_mode : Nat,
    Sample04.present_mode.loop l best_mode =
      if VK_PRESENT_MODE_MAILBOX_KHR ∈ l then VK_PRESENT_MODE_MAILBOX_KHR
      else if VK_PRESENT_MODE_IMMEDIATE_KHR ∈ l then VK_PRESENT_MODE_IMMEDIATE_KHR
      else best_mode := by
  induction l with
  | nil => intro b; simp [Sample04.present_mode.loop]
  | cons a t ih =>
    intro b
    rw [Sample04.present_mode.loop]
    by_cases h1 : a = VK_PRESENT_MODE_MAILBOX_KHR
    · simp [h1]
    · by_cases h2 : a = VK_PRESENT_MODE_IMMEDIATE_KHR
      · rw [if_neg h1, if_pos h2, ih]
        have hm : (VK_PRESENT_MODE_MAILBOX_KHR ∈ a :: t) ↔ VK_PRESENT_MODE_MAILBOX_KHR ∈ t := by
          simp [List.mem_cons, Ne.symm h1]
        have hi : VK_PRESENT_MODE_IMMEDIATE_KHR ∈ a :: t := by simp [h2]
        by_cases hmt : VK_PRESENT_MODE_MAILBOX_KHR ∈ t
        · rw [if_pos hmt, if_pos (hm.mpr hmt)]
        · rw [if_neg hmt, if_neg (fun h => hmt (hm.mp h)), if_pos hi, h2]
          simp
      · rw [if_neg h1, if_neg h2, ih]
        have hm : (VK_PRESENT_MODE_MAILBOX_KHR ∈ a :: t) ↔ VK_PRESENT_MODE_MAILBOX_KHR ∈ t := by
          simp [List.mem_cons, Ne.symm h1]
        have hi : (VK_PRESENT_MODE_IMMEDIATE_KHR ∈ a :: t) ↔
            VK_PRESENT_MODE_IMMEDIATE_KHR ∈ t := by
          simp [List.mem_cons, Ne.symm h2]
        simp only [hm, hi]

theorem present_mode_spec_04 (l : List Nat) :
    Sample04.present_mode l =
      if VK_PRESENT_MODE_MAILBOX_KHR ∈ l then VK_PRESENT_MODE_MAILBOX_KHR
      else if VK_PRESENT_MODE_IMMEDIATE_KHR ∈ l then VK_PRESENT_MODE_IMMEDIATE_KHR
      else VK_PRESENT_MODE_FIFO_KHR :=
  present_mode_loop_spec l VK_PRESENT_MODE_FIFO_KHR

/-- C5. Present-mode pick of samples 04, 09 and 13, for every list (the empty one
included): the result is `VK_PRESENT_MODE_MAILBOX_KHR` if MAILBOX occurs in the list,
otherwise `VK_PRESENT_MODE_IMMEDIATE_KHR` if IMMEDIATE occurs, otherwise
`VK_PRESENT_MODE_FIFO_KHR`; and reordering the list does not change the result. -/
theorem present_mode_priority :
    ∀ pick ∈ [Sample04.present_mode, Sample09.present_mode, Sample13.present_mode],
      (∀ present_modes : List Nat, pick present_modes =
        if VK_PRESENT_MODE_MAILBOX_KHR ∈ present_modes then VK_PRESENT_MODE_MAILBOX_KHR
        else if VK_PRESENT_MODE_IMMEDIATE_KHR ∈ present_modes then
          VK_PRESENT_MODE_IMMEDIATE_KHR
        else VK_PRESENT_MODE_FIFO_KHR) ∧
      (∀ present_modes reordered : List Nat, present_modes.Perm reordered →
        pick present_modes = pick reordered) := by
  intro pick hpick
  have hp : pick = Sample04.present_mode := by
    simp only [present_mode_eq_09, present_mode_eq_13, List.mem_cons, List.mem_singleton,
      List.mem_nil_iff, or_false, or_self] at hpick
    exact hpick
  subst hp
  refine ⟨present_mode_spec_04, ?_⟩
  intro l l2 hperm
  rw [present_mode_spec_04, present_mode_spec_04]
  simp only [hperm.mem_iff]

/-- Witness of C5: sample 09 on a list with IMMEDIATE before MAILBOX, and on a
reordering of it. -/
theorem present_mode_priority_witness :
    Sample09.present_mode [2, 0, 3, 1, 0] = VK_PRESENT_MODE_MAILBOX_KHR ∧
    Sample09.present_mode [2, 0, 3, 1, 0] = Sample09.present_mode [1, 0, 0, 3, 2] :=
  ⟨((present_mode_priority Sample09.present_mode (by simp)).1 [2, 0, 3, 1, 0]).trans
      (by decide),
    (present_mode_priority Sample09.present_mode (by simp)).2 [2, 0, 3, 1, 0] [1, 0, 0, 3, 2]
      (by decide)⟩

/-! ### Physical device -/

theorem physical_device_index_loop_eq_03 :
    Sample03.physical_device_index.loop = Sample04.physical_device_index.loop := by
  funext l
  induction l with
  | nil => rfl
  | cons a t ih =>
    funext i
    simp only [Sample03.physical_device_index.loop, Sample04.physical_device_index.loop, ih]

theorem physical_device_index_loop_eq_09 :
    Sample09.physical_device_index.loop = Sample04.physical_device_index.loop := by
  funext l
  induction l with
  | nil => rfl
  | cons a t ih =>
    funext i
    simp only [Sample09.physical_device_index.loop, Sample04.physical_device_index.loop, ih]

theorem physical_device_index_eq_03 :
    Sample03.physical_device_index = Sample04.physical_device_index := by
  funext l
  simp only [Sample03.physical_device_index, Sample04.physical_device_index,
    physical_device_index_loop_eq_03]

theorem physical_device_index_eq_09 :
    Sample09.physical_device_index = Sample04.physical_device_index := by
  funext l
  simp only [Sample09.physical_device_index, Sample04.physical_device_index,
    physical_device_index_loop_eq_09]

theorem toUint32_of_lt (i : Nat) (h : i < UINT32_MAX) : toUint32 i = i := by
  unfold UINT32_MAX at h
  unfold toUint32
  omega

/-- The device loop started at `i` stops at the first discrete GPU, or keeps the
sentinel when the list has none. -/
theorem physical_device_index_loop_spec (l : List Nat) : ∀ i : Nat,
    i + l.length ≤ UINT32_MAX →
    (∃ k, k < l.length ∧ l[k]? = some VK_PHYSICAL_DEVICE_TYPE_DISCRETE_GPU ∧
        (∀ j, j < k → l[j]? ≠ some VK_PHYSICAL_DEVICE_TYPE_DISCRETE_GPU) ∧
        Sample04.physical_device_index.loop l i = i + k) ∨
    (VK_PHYSICAL_DEVICE_TYPE_DISCRETE_GPU ∉ l ∧
        Sample04.physical_device_index.loop l i = UINT32_MAX) := by
  induction l with
  | nil => intro i _; right; exact ⟨List.not_mem_nil _, rfl⟩
  | cons a t ih =>
    intro i hi
    simp only [List.length_cons] at hi
    rw [Sample04.physical_device_index.loop]
    by_cases ha : a = VK_PHYSICAL_DEVICE_TYPE_DISCRETE_GPU
    · left
      refine ⟨0, by simp, by simp [ha], fun j hj => absurd hj (Nat.not_lt_zero j), ?_⟩
      rw [if_pos ha, toUint32_of_lt i (by omega)]
      rfl
    · rw [if_neg ha]
      rcases ih (i + 1) (by omega) with ⟨k, hk1, hk2, hk3, hk4⟩ | ⟨hno, hres⟩
      · left
        refine ⟨k + 1, by simp [hk1], by simpa using hk2, ?_, by rw [hk4]; omega⟩
        intro j hj
        cases j with
        | zero => simpa using ha
        | succ j => simpa using hk3 j (by omega)
      · right
        refine ⟨?_, hres⟩
        intro hmem
        rcases List.mem_cons.mp hmem with h | h
        · exact ha h.symm
        · exact hno h

theorem physical_device_index_spec_04 (deviceTypes : List Nat)
    (hlen : deviceTypes.length ≤ UINT32_MAX) :
    (∃ k, k < deviceTypes.length ∧
        deviceTypes[k]? = some VK_PHYSICAL_DEVICE_TYPE_DISCRETE_GPU ∧
        (∀ j, j < k → deviceTypes[j]? ≠ some VK_PHYSICAL_DEVICE_TYPE_DISCRETE_GPU) ∧
        Sample04.physical_device_index deviceTypes = .ok k) ∨
    (VK_PHYSICAL_DEVICE_TYPE_DISCRETE_GPU ∉ deviceTypes ∧
        Sample04.physical_device_index deviceTypes = .error "Suitable device not found.") := by
  rcases physical_device_index_loop_spec deviceTypes 0 (by omega) with
    ⟨k, hk1, hk2, hk3, hk4⟩ | ⟨hno, hres⟩
  · left
    rw [Nat.zero_add] at hk4
    refine ⟨k, hk1, hk2, hk3, ?_⟩
    have hne : k ≠ UINT32_MAX := by omega
    simp only [Sample04.physical_device_index, hk4, if_neg hne]
  · right
    refine ⟨hno, ?_⟩
    simp only [Sample04.physical_device_index, hres, if_true]

/-- C6. Physical device selection of samples 03, 04 and 09, for every list of enumerated
devices (a `uint32_t` count): the selected index is the least index whose `deviceType` is
`VK_PHYSICAL_DEVICE_TYPE_DISCRETE_GPU`; `main` returns `EXIT_FAILURE` with
"Suitable device not found." exactly when the list has no discrete GPU, in particular
on the empty list. -/
theorem physical_device_index_least_discrete (deviceTypes : List Nat)
    (hlen : deviceTypes.length ≤ UINT32_MAX) :
    ∀ pick ∈ [Sample03.physical_device_index, Sample04.physical_device_index,
        Sample09.physical_device_index],
      (VK_PHYSICAL_DEVICE_TYPE_DISCRETE_GPU ∈ deviceTypes →
        ∃ k, pick deviceTypes = .ok k ∧
          deviceTypes[k]? = some VK_PHYSICAL_DEVICE_TYPE_DISCRETE_GPU ∧
          ∀ j, j < k → deviceTypes[j]? ≠ some VK_PHYSICAL_DEVICE_TYPE_DISCRETE_GPU) ∧
      (pick deviceTypes = .error "Suitable device not found." ↔
        VK_PHYSICAL_DEVICE_TYPE_DISCRETE_GPU ∉ deviceTypes) ∧
      ((∃ msg, pick deviceTypes = .error msg) ↔
        VK_PHYSICAL_DEVICE_TYPE_DISCRETE_GPU ∉ deviceTypes) ∧
      pick [] = .error "Suitable device not found." := by
  intro pick hpick
  have hp : pick = Sample04.physical_device_index := by
    simp only [physical_device_index_eq_03, physical_device_index_eq_09, List.mem_cons,
      List.mem_singleton, List.mem_nil_iff, or_false, or_self] at hpick
    exact hpick
  subst hp
  rcases physical_device_index_spec_04 deviceTypes hlen with
    ⟨k, _, hk2, hk3, hk4⟩ | ⟨hno, hres⟩
  · have hmem : VK_PHYSICAL_DEVICE_TYPE_DISCRETE_GPU ∈ deviceTypes :=
      List.getElem?_mem hk2
    refine ⟨fun _ => ⟨k, hk4, hk2, hk3⟩, ?_, ?_, rfl⟩
    · rw [hk4]
      exact ⟨fun h => (by cases h), fun h => absurd hmem h⟩
    · rw [hk4]
      exact ⟨fun ⟨_, h⟩ => (by cases h), fun h => absurd hmem h⟩
  · refine ⟨fun h => absurd h hno, ?_, ?_, rfl⟩
    · exact ⟨fun _ => hno, fun _ => hres⟩
    · exact ⟨fun _ => hno, fun _ => ⟨_, hres⟩⟩

/-- Witness of C6: sample 03 on an integrated GPU followed by two discrete GPUs. -/
theorem physical_device_index_least_discrete_witness :
    ([1, 2, 2] : List Nat).length ≤ UINT32_MAX ∧
    Sample03.physical_device_index [1, 2, 2] = .ok 1 ∧
    ((VK_PHYSICAL_DEVICE_TYPE_DISCRETE_GPU ∈ ([1, 2, 2] : List Nat) →
        ∃ k, Sample03.physical_device_index [1, 2, 2] = .ok k ∧
          ([1, 2, 2] : List Nat)[k]? = some VK_PHYSICAL_DEVICE_TYPE_DISCRETE_GPU ∧
          ∀ j, j < k → ([1, 2, 2] : List Nat)[j]? ≠
            some VK_PHYSICAL_DEVICE_TYPE_DISCRETE_GPU) ∧
      (Sample03.physical_device_index [1, 2, 2] = .error "Suitable device not found." ↔
        VK_PHYSICAL_DEVICE_TYPE_DISCRETE_GPU ∉ ([1, 2, 2] : List Nat)) ∧
      ((∃ msg, Sample03.physical_device_index [1, 2, 2] = .error msg) ↔
        VK_PHYSICAL_DEVICE_TYPE_DISCRETE_GPU ∉ ([1, 2, 2] : List Nat)) ∧
      Sample03.physical_device_index [] = .error "Suitable device not found.") :=
  ⟨by decide, rfl,
    physical_device_index_least_discrete [1, 2, 2] (by decide)
      Sample03.physical_device_index (by simp)⟩

theorem swapDiscreteIntegrated_eq_discrete (x : Nat) :
    swapDiscreteIntegrated x = VK_PHYSICAL_DEVICE_TYPE_DISCRETE_GPU ↔
      x = VK_PHYSICAL_DEVICE_TYPE_INTEGRATED_GPU := by
  unfold swapDiscreteIntegrated VK_PHYSICAL_DEVICE_TYPE_DISCRETE_GPU
    VK_PHYSICAL_DEVICE_TYPE_INTEGRATED_GPU
  split_ifs <;> omega

theorem physical_device_index_loop_13 (l : List Nat) : ∀ i : Nat,
    Sample13.physical_device_index.loop l i =
      Sample04.physical_device_index.loop (l.map swapDiscreteIntegrated) i := by
  induction l with
  | nil => intro i; rfl
  | cons a t ih =>
    intro i
    simp only [List.map_cons, Sample13.physical_device_index.loop,
      Sample04.physical_device_index.loop, swapDiscreteIntegrated_eq_discrete, ih]

theorem physical_device_index_13 (l : List Nat) :
    Sample13.physical_device_index l =
      Sample04.physical_device_index (l.map swapDiscreteIntegrated) := by
  simp only [Sample13.physical_device_index, Sample04.physical_device_index,
    physical_device_index_loop_13]

theorem getElem?_map_swap_eq_discrete (l : List Nat) (k : Nat) :
    (l.map swapDiscreteIntegrated)[k]? = some VK_PHYSICAL_DEVICE_TYPE_DISCRETE_GPU ↔
      l[k]? = some VK_PHYSICAL_DEVICE_TYPE_INTEGRATED_GPU := by
  rw [List.getElem?_map]
  cases l[k]? with
  | none => simp
  | some x => simp [swapDiscreteIntegrated_eq_discrete]

theorem discrete_mem_map_swap (l : List Nat) :
    VK_PHYSICAL_DEVICE_TYPE_DISCRETE_GPU ∈ l.map swapDiscreteIntegrated ↔
      VK_PHYSICAL_DEVICE_TYPE_INTEGRATED_GPU ∈ l := by
  rw [List.mem_iff_getElem?, List.mem_iff_getElem?]
  exact exists_congr (getElem?_map_swap_eq_discrete l)

theorem map_swap_of_not_mem (l : List Nat)
    (hd : VK_PHYSICAL_DEVICE_TYPE_DISCRETE_GPU ∉ l)
    (hi : VK_PHYSICAL_DEVICE_TYPE_INTEGRATED_GPU ∉ l) :
    l.map swapDiscreteIntegrated = l := by
  induction l with
  | nil => rfl
  | cons a t ih =>
    have ha1 : a ≠ VK_PHYSICAL_DEVICE_TYPE_DISCRETE_GPU := fun h =>
      hd (h ▸ List.mem_cons_self _ _)
    have ha2 : a ≠ VK_PHYSICAL_DEVICE_TYPE_INTEGRATED_GPU := fun h =>
      hi (h ▸ List.mem_cons_self _ _)
    rw [List.map_cons, ih (fun h => hd (List.mem_cons_of_mem _ h))
      (fun h => hi (List.mem_cons_of_mem _ h))]
    simp [swapDiscreteIntegrated, ha1, ha2]

/-- C7, as stated, fails: on a single discrete GPU samples 09 and 04 select index 0 while
sample 13 returns `EXIT_FAILURE`; on an integrated GPU followed by a discrete one
sample 13 selects index 0 and sample 09 index 1. -/
theorem physical_device_index_13_differs :
    Sample09.physical_device_index [VK_PHYSICAL_DEVICE_TYPE_DISCRETE_GPU] = .ok 0 ∧
    Sample04.physical_device_index [VK_PHYSICAL_DEVICE_TYPE_DISCRETE_GPU] = .ok 0 ∧
    Sample13.physical_device_index [VK_PHYSICAL_DEVICE_TYPE_DISCRETE_GPU] =
      .error "Suitable device not found." ∧
    Sample13.physical_device_index [VK_PHYSICAL_DEVICE_TYPE_DISCRETE_GPU] ≠
      Sample09.physical_device_index [VK_PHYSICAL_DEVICE_TYPE_DISCRETE_GPU] ∧
    Sample13.physical_device_index
      [VK_PHYSICAL_DEVICE_TYPE_INTEGRATED_GPU, VK_PHYSICAL_DEVICE_TYPE_DISCRETE_GPU] = .ok 0 ∧
    Sample09.physical_device_index
      [VK_PHYSICAL_DEVICE_TYPE_INTEGRATED_GPU, VK_PHYSICAL_DEVICE_TYPE_DISCRETE_GPU] = .ok 1 ∧
    ¬ (∀ deviceTypes : List Nat,
        Sample13.physical_device_index deviceTypes =
          Sample09.physical_device_index deviceTypes ∧
        Sample13.physical_device_index deviceTypes =
          Sample04.physical_device_index deviceTypes) := by
  have h9 : Sample09.physical_device_index [VK_PHYSICAL_DEVICE_TYPE_DISCRETE_GPU] = .ok 0 :=
    rfl
  have h13 : Sample13.physical_device_index [VK_PHYSICAL_DEVICE_TYPE_DISCRETE_GPU] =
      .error "Suitable device not found." := rfl
  have hne : Sample13.physical_device_index [VK_PHYSICAL_DEVICE_TYPE_DISCRETE_GPU] ≠
      Sample09.physical_device_index [VK_PHYSICAL_DEVICE_TYPE_DISCRETE_GPU] := by
    rw [h9, h13]
    intro h
    cases h
  exact ⟨h9, rfl, h13, hne, rfl, rfl, fun h => hne (h _).1⟩

/-- C7, amended. Samples 04 and 09 select the same physical device index and fail on the
same lists. Sample 13 runs the same scan for `VK_PHYSICAL_DEVICE_TYPE_INTEGRATED_GPU`
instead of `DISCRETE_GPU`: its result on a list is the result of sample 09 on the list
with the two types exchanged; for a `uint32_t` count it selects the least index of an
integrated GPU and fails exactly when there is none; and it agrees with samples 09 and 04
on every list that holds neither a discrete nor an integrated GPU. -/
theorem physical_device_index_13_scans_integrated (deviceTypes : List Nat)
    (hlen : deviceTypes.length ≤ UINT32_MAX) :
    Sample04.physical_device_index deviceTypes =
      Sample09.physical_device_index deviceTypes ∧
    Sample13.physical_device_index deviceTypes =
      Sample09.physical_device_index (deviceTypes.map swapDiscreteIntegrated) ∧
    (VK_PHYSICAL_DEVICE_TYPE_INTEGRATED_GPU ∈ deviceTypes →
      ∃ k, Sample13.physical_device_index deviceTypes = .ok k ∧
        deviceTypes[k]? = some VK_PHYSICAL_DEVICE_TYPE_INTEGRATED_GPU ∧
        ∀ j, j < k → deviceTypes[j]? ≠ some VK_PHYSICAL_DEVICE_TYPE_INTEGRATED_GPU) ∧
    (Sample13.physical_device_index deviceTypes = .error "Suitable device not found." ↔
      VK_PHYSICAL_DEVICE_TYPE_INTEGRATED_GPU ∉ deviceTypes) ∧
    (VK_PHYSICAL_DEVICE_TYPE_DISCRETE_GPU ∉ deviceTypes →
      VK_PHYSICAL_DEVICE_TYPE_INTEGRATED_GPU ∉ deviceTypes →
      Sample13.physical_device_index deviceTypes =
        Sample09.physical_device_index deviceTypes ∧
      Sample13.physical_device_index deviceTypes =
        Sample04.physical_device_index deviceTypes) := by
  rw [physical_device_index_eq_09, physical_device_index_13]
  refine ⟨rfl, rfl, ?_, ?_, ?_⟩
  · intro hmem
    rcases physical_device_index_spec_04 (deviceTypes.map swapDiscreteIntegrated)
      (by simpa using hlen) with ⟨k, _, hk2, hk3, hk4⟩ | ⟨hno, _⟩
    · refine ⟨k, hk4, (getElem?_map_swap_eq_discrete _ _).mp hk2, ?_⟩
      intro j hj hI
      exact hk3 j hj ((getElem?_map_swap_eq_discrete _ _).mpr hI)
    · exact absurd ((discrete_mem_map_swap _).mpr hmem) hno
  · rcases physical_device_index_spec_04 (deviceTypes.map swapDiscreteIntegrated)
      (by simpa using hlen) with ⟨k, _, hk2, _, hk4⟩ | ⟨hno, hres⟩
    · rw [hk4]
      refine ⟨fun h => (by cases h), fun h => ?_⟩
      exact absurd (List.getElem?_mem ((getElem?_map_swap_eq_discrete _ _).mp hk2)) h
    · exact ⟨fun _ h => hno ((discrete_mem_map_swap _).mpr h), fun _ => hres⟩
  · intro hd hi
    rw [map_swap_of_not_mem _ hd hi]
    exact ⟨rfl, rfl⟩

/-- Witness of C7 amended: an integrated GPU after a CPU and before a discrete GPU. -/
theorem physical_device_index_13_scans_integrated_witness :
    ([4, 1, 2] : List Nat).length ≤ UINT32_MAX ∧
    Sample13.physical_device_index [4, 1, 2] = .ok 1 ∧
    Sample09.physical_device_index [4, 1, 2] = .ok 2 ∧
    Sample04.physical_device_index [4, 1, 2] = Sample09.physical_device_index [4, 1, 2] ∧
    Sample13.physical_device_index [4, 1, 2] =
      Sample09.physical_device_index ([4, 1, 2].map swapDiscreteIntegrated) :=
  ⟨by decide, rfl, rfl,
    (physical_device_index_13_scans_integrated [4, 1, 2] (by decide)).1,
    (physical_device_index_13_scans_integrated [4, 1, 2] (by decide)).2.1⟩

/-! ### Queue families -/

theorem queue_family_scan_loop_eq_09 :
    Sample09.queue_family_scan.loop = Sample04.queue_family_scan.loop := by
  funext l
  induction l with
  | nil => rfl
  | cons a t ih =>
    funext i g p
    simp only [Sample09.queue_family_scan.loop, Sample04.queue_family_scan.loop, ih]

theorem queue_family_scan_loop_eq_13 :
    Sample13.queue_family_scan.loop = Sample04.queue_family_scan.loop := by
  funext l
  induction l with
  | nil => rfl
  | cons a t ih =>
    funext i g p
    simp only [Sample13.queue_family_scan.loop, Sample04.queue_family_scan.loop, ih]

theorem queue_family_scan_eq_09 : Sample09.queue_family_scan = Sample04.queue_family_scan := by
  funext l
  simp only [Sample09.queue_family_scan, Sample04.queue_family_scan,
    queue_family_scan_loop_eq_09]

theorem queue_family_scan_eq_13 : Sample13.queue_family_scan = Sample04.queue_family_scan := by
  funext l
  simp only [Sample13.queue_family_scan, Sample04.queue_family_scan,
    queue_family_scan_loop_eq_13]

theorem graphics_queue_family_index_eq_09 :
    Sample09.graphics_queue_family_index = Sample04.graphics_queue_family_index := by
  funext l
  simp only [Sample09.graphics_queue_family_index, Sample04.graphics_queue_family_index,
    queue_family_scan_eq_09]

theorem graphics_queue_family_index_eq_13 :
    Sample13.graphics_queue_family_index = Sample04.graphics_queue_family_index := by
  funext l
  simp only [Sample13.graphics_queue_family_index, Sample04.graphics_queue_family_index,
    queue_family_scan_eq_13]

theorem present_queue_family_index_eq_09 :
    Sample09.present_queue_family_index = Sample04.present_queue_family_index := by
  funext l
  simp only [Sample09.present_queue_family_index, Sample04.present_queue_family_index,
    queue_family_scan_eq_09]

theorem present_queue_family_index_eq_13 :
    Sample13.present_queue_family_index = Sample04.present_queue_family_index := by
  funext l
  simp only [Sample13.present_queue_family_index, Sample04.present_queue_family_index,
    queue_family_scan_eq_13]

theorem queue_family_step_eq_09 : Sample09.queue_family_step = Sample04.queue_family_step := by
  funext l
  simp only [Sample09.queue_family_step, Sample04.queue_family_step,
    graphics_queue_family_index_eq_09, present_queue_family_index_eq_09]

theorem queue_family_step_eq_13 : Sample13.queue_family_step = Sample04.queue_family_step := by
  funext l
  simp only [Sample13.queue_family_step, Sample04.queue_family_step,
    graphics_queue_family_index_eq_13, present_queue_family_index_eq_13]

/-- C8. The selection logic is the same in every sample that has it:
`findMemoryTypeIndex` of sample 09 equals that of sample 13, and the surface-format pick,
the present-mode pick, the extent pick and the graphics/present queue-family pick of
samples 04, 09 and 13 are pairwise equal as functions. -/
theorem selection_logic_repeated :
    Sample09.findMemoryTypeIndex = Sample13.findMemoryTypeIndex ∧
    (Sample04.surface_format = Sample09.surface_format ∧
      Sample09.surface_format = Sample13.surface_format ∧
      Sample04.surface_format = Sample13.surface_format) ∧
    (Sample04.present_mode = Sample09.present_mode ∧
      Sample09.present_mode = Sample13.present_mode ∧
      Sample04.present_mode = Sample13.present_mode) ∧
    (Sample04.extent = Sample09.extent ∧
      Sample09.extent = Sample13.extent ∧
      Sample04.extent = Sample13.extent) ∧
    (Sample04.queue_family_scan = Sample09.queue_family_scan ∧
      Sample09.queue_family_scan = Sample13.queue_family_scan ∧
      Sample04.queue_family_scan = Sample13.queue_family_scan) ∧
    (Sample04.graphics_queue_family_index = Sample09.graphics_queue_family_index ∧
      Sample09.graphics_queue_family_index = Sample13.graphics_queue_family_index ∧
      Sample04.graphics_queue_family_index = Sample13.graphics_queue_family_index) ∧
    (Sample04.present_queue_family_index = Sample09.present_queue_family_index ∧
      Sample09.present_queue_family_index = Sample13.present_queue_family_index ∧
      Sample04.present_queue_family_index = Sample13.present_queue_family_index) ∧
    (Sample04.queue_family_step = Sample09.queue_family_step ∧
      Sample09.queue_family_step = Sample13.queue_family_step ∧
      Sample04.queue_family_step = Sample13.queue_family_step) := by
  rw [findMemoryTypeIndex_eq, surface_format_eq_09, surface_format_eq_13, present_mode_eq_09,
    present_mode_eq_13, extent_eq_09, extent_eq_13, queue_family_scan_eq_09,
    queue_family_scan_eq_13, graphics_queue_family_index_eq_09,
    graphics_queue_family_index_eq_13, present_queue_family_index_eq_09,
    present_queue_family_index_eq_13, queue_family_step_eq_09, queue_family_step_eq_13]
  simp only [and_self]

theorem firstIndexFrom_eq_sentinel (P : QueueFamily → Prop) [DecidablePred P]
    (l : List QueueFamily) : ∀ i : Nat, i + l.length ≤ UINT32_MAX →
    (firstIndexFrom P l i = UINT32_MAX ↔ ∀ f ∈ l, ¬ P f) := by
  induction l with
  | nil => intro i _; simp [firstIndexFrom]
  | cons a t ih =>
    intro i hi
    simp only [List.length_cons] at hi
    rw [firstIndexFrom]
    by_cases ha : P a
    · rw [if_pos ha]
      constructor
      · intro h; omega
      · intro h; exact absurd ha (h a (List.mem_cons_self _ _))
    · rw [if_neg ha, ih (i + 1) (by omega)]
      constructor
      · intro h f hf
        rcases List.mem_cons.mp hf with h1 | h1
        · rw [h1]; exact ha
        · exact h f h1
      · intro h f hf
        exact h f (List.mem_cons_of_mem _ hf)

theorem firstIndexFrom_least (P : QueueFamily → Prop) [DecidablePred P]
    (l : List QueueFamily) : ∀ (i k : Nat) (f : QueueFamily), l[k]? = some f → P f →
    (∀ j, j < k → ∀ f2, l[j]? = some f2 → ¬ P f2) → firstIndexFrom P l i = i + k := by
  induction l with
  | nil => intro i k f hk; simp at hk
  | cons a t ih =>
    intro i k f hk hP hleast
    rw [firstIndexFrom]
    cases k with
    | zero =>
      simp only [List.getElem?_cons_zero, Option.some.injEq] at hk
      rw [hk, if_pos hP]
      rfl
    | succ k =>
      have ha : ¬ P a := hleast 0 (by omega) a (by simp)
      rw [if_neg ha, ih (i + 1) k f (by simpa using hk) hP]
      · omega
      · intro j hj f2 hf2
        exact hleast (j + 1) (by omega) f2 (by simpa using hf2)

/-- When no family of the list supports both graphics and present, the loop keeps an index
that is already set and otherwise records the first graphics family and the first present
family. -/
theorem queue_family_scan_loop_separate (l : List QueueFamily) : ∀ i g p : Nat,
    i + l.length ≤ UINT32_MAX →
    (∀ f ∈ l, ¬ (f.hasGraphics ∧ f.hasPresent)) →
    Sample04.queue_family_scan.loop l i g p =
      (if g = UINT32_MAX then firstIndexFrom QueueFamily.hasGraphics l i else g,
       if p = UINT32_MAX then firstIndexFrom QueueFamily.hasPresent l i else p) := by
  induction l with
  | nil =>
    intro i g p _ _
    by_cases hg : g = UINT32_MAX <;> by_cases hp : p = UINT32_MAX <;>
      simp [Sample04.queue_family_scan.loop, firstIndexFrom, hg, hp]
  | cons a t ih =>
    intro i g p hi hno
    simp only [List.length_cons] at hi
    have hi2 : toUint32 i = i := toUint32_of_lt i (by omega)
    have hiM : i ≠ UINT32_MAX := by omega
    have hno2 : ∀ f ∈ t, ¬ (f.hasGraphics ∧ f.hasPresent) := fun f hf =>
      hno f (List.mem_cons_of_mem _ hf)
    have ha := hno a (List.mem_cons_self _ _)
    rw [Sample04.queue_family_scan.loop, firstIndexFrom, firstIndexFrom, hi2]
    by_cases hg : a.hasGraphics
    · have hp : ¬ a.hasPresent := fun hp => ha ⟨hg, hp⟩
      have hg2 : a.queueFlags &&& VK_QUEUE_GRAPHICS_BIT ≠ 0 := hg
      have hp2 : ¬ a.present_support = VK_TRUE := hp
      rw [if_pos hg2, if_neg hp2, if_pos hg, if_neg hp, ih (i + 1) _ _ (by omega) hno2]
      by_cases hgM : g = UINT32_MAX
      · simp [hgM, hiM, hp2]
      · simp [hgM, hp2]
    · have hg2 : ¬ a.queueFlags &&& VK_QUEUE_GRAPHICS_BIT ≠ 0 := hg
      rw [if_neg hg2, if_neg hg, ih (i + 1) _ _ (by omega) hno2]
      by_cases hp : a.hasPresent
      · have hp2 : a.present_support = VK_TRUE := hp
        rw [if_pos hp]
        by_cases hpM : p = UINT32_MAX
        · simp [hpM, hiM, hp2]
        · simp [hpM]
      · have hp2 : ¬ a.present_support = VK_TRUE := hp
        rw [if_neg hp]
        simp [hp2]

/-- The loop stops at the first family that supports both graphics and present, and both
indices are that family's index, whatever was recorded before. -/
theorem queue_family_scan_loop_combined (l : List QueueFamily) :
    ∀ (i g p k : Nat) (f : QueueFamily), i + l.length ≤ UINT32_MAX →
    l[k]? = some f → f.hasGraphics → f.hasPresent →
    (∀ j, j < k → ∀ f2, l[j]? = some f2 → ¬ (f2.hasGraphics ∧ f2.hasPresent)) →
    Sample04.queue_family_scan.loop l i g p = (i + k, i + k) := by
  induction l with
  | nil => intro i g p k f _ hk; simp at hk
  | cons a t ih =>
    intro i g p k f hi hk hG hP hleast
    simp only [List.length_cons] at hi
    have hi2 : toUint32 i = i := toUint32_of_lt i (by omega)
    rw [Sample04.queue_family_scan.loop]
    cases k with
    | zero =>
      simp only [List.getElem?_cons_zero, Option.some.injEq] at hk
      subst hk
      have hg2 : a.queueFlags &&& VK_QUEUE_GRAPHICS_BIT ≠ 0 := hG
      have hp2 : a.present_support = VK_TRUE := hP
      rw [if_pos hg2, if_pos hp2, hi2]
      rfl
    | succ k =>
      have ha : ¬ (a.hasGraphics ∧ a.hasPresent) := hleast 0 (by omega) a (by simp)
      have hrec : ∀ g2 p2, Sample04.queue_family_scan.loop t (i + 1) g2 p2 =
          (i + (k + 1), i + (k + 1)) := by
        intro g2 p2
        rw [ih (i + 1) g2 p2 k f (by omega) (by simpa using hk) hG hP
          (fun j hj f2 hf2 => hleast (j + 1) (by omega) f2 (by simpa using hf2))]
        have : i + 1 + k = i + (k + 1) := by omega
        rw [this]
      by_cases hg : a.queueFlags &&& VK_QUEUE_GRAPHICS_BIT ≠ 0
      · have hp2 : ¬ a.present_support = VK_TRUE := fun hp => ha ⟨hg, hp⟩
        rw [if_pos hg, if_neg hp2, hrec]
      · rw [if_neg hg, hrec]

theorem lt_length_of_getElem? (l : List QueueFamily) (k : Nat) (f : QueueFamily)
    (h : l[k]? = some f) : k < l.length := by
  by_contra hge
  rw [List.getElem?_eq_none (by omega)] at h
  cases h

theorem queue_family_combined_04 (queue_families : List QueueFamily)
    (hlen : queue_families.length ≤ UINT32_MAX) (k : Nat) (family : QueueFamily)
    (hk : queue_families[k]? = some family)
    (hgraphics : family.hasGraphics) (hpresent : family.hasPresent)
    (hleast : ∀ j, j < k → ∀ f, queue_families[j]? = some f →
      ¬ (f.hasGraphics ∧ f.hasPresent)) :
    Sample04.graphics_queue_family_index queue_families = k ∧
    Sample04.present_queue_family_index queue_families = k ∧
    Sample04.queue_family_step queue_families = .ok (k, k) := by
  have hscan : Sample04.queue_family_scan queue_families = (k, k) := by
    rw [Sample04.queue_family_scan, queue_family_scan_loop_combined queue_families 0
      UINT32_MAX UINT32_MAX k family (by omega) hk hgraphics hpresent hleast, Nat.zero_add]
  have hkl := lt_length_of_getElem? _ _ _ hk
  have hne : k ≠ UINT32_MAX := by omega
  have h1 : Sample04.graphics_queue_family_index queue_families = k := by
    rw [Sample04.graphics_queue_family_index, hscan]
  have h2 : Sample04.present_queue_family_index queue_families = k := by
    rw [Sample04.present_queue_family_index, hscan]
  refine ⟨h1, h2, ?_⟩
  rw [Sample04.queue_family_step, h1, h2, if_neg hne, if_neg hne]

/-- C9. Queue-family pick of samples 04, 09 and 13, for a list of families (a `uint32_t`
count) with their present support: when family `k` has `VK_QUEUE_GRAPHICS_BIT` and present
support `VK_TRUE` and no earlier family has both, `graphics_queue_family_index` and
`present_queue_family_index` are both `k` and the step succeeds, whatever the earlier
families support. -/
theorem queue_family_prefers_combined (queue_families : List QueueFamily)
    (hlen : queue_families.length ≤ UINT32_MAX) (k : Nat) (family : QueueFamily)
    (hk : queue_families[k]? = some family)
    (hgraphics : family.queueFlags &&& VK_QUEUE_GRAPHICS_BIT ≠ 0)
    (hpresent : family.present_support = VK_TRUE)
    (hleast : ∀ j, j < k → ∀ f, queue_families[j]? = some f →
      ¬ (f.queueFlags &&& VK_QUEUE_GRAPHICS_BIT ≠ 0 ∧ f.present_support = VK_TRUE)) :
    ∀ sample ∈ [
        (Sample04.graphics_queue_family_index, Sample04.present_queue_family_index,
          Sample04.queue_family_step),
        (Sample09.graphics_queue_family_index, Sample09.present_queue_family_index,
          Sample09.queue_family_step),
        (Sample13.graphics_queue_family_index, Sample13.present_queue_family_index,
          Sample13.queue_family_step)],
      sample.1 queue_families = k ∧ sample.2.1 queue_families = k ∧
        sample.2.2 queue_families = .ok (k, k) := by
  intro sample hsample
  have hs : sample = (Sample04.graphics_queue_family_index,
      Sample04.present_queue_family_index, Sample04.queue_family_step) := by
    simp only [graphics_queue_family_index_eq_09, graphics_queue_family_index_eq_13,
      present_queue_family_index_eq_09, present_queue_family_index_eq_13,
      queue_family_step_eq_09, queue_family_step_eq_13, List.mem_cons, List.mem_singleton,
      List.mem_nil_iff, or_false, or_self] at hsample
    exact hsample
  subst hs
  exact queue_family_combined_04 queue_families hlen k family hk hgraphics hpresent hleast

/-- Witness of C9: a graphics-only family, a present-only family, then a family with
both; sample 13 picks index 2 for both queues. -/
theorem queue_family_prefers_combined_witness :
    ([⟨1, 0⟩, ⟨4, 1⟩, ⟨3, 1⟩, ⟨1, 1⟩] : List QueueFamily).length ≤ UINT32_MAX ∧
    ([⟨1, 0⟩, ⟨4, 1⟩, ⟨3, 1⟩, ⟨1, 1⟩] : List QueueFamily)[2]? = some ⟨3, 1⟩ ∧
    (⟨3, 1⟩ : QueueFamily).queueFlags &&& VK_QUEUE_GRAPHICS_BIT ≠ 0 ∧
    (⟨3, 1⟩ : QueueFamily).present_support = VK_TRUE ∧
    (∀ j, j < 2 → ∀ f, ([⟨1, 0⟩, ⟨4, 1⟩, ⟨3, 1⟩, ⟨1, 1⟩] : List QueueFamily)[j]? = some f →
      ¬ (f.queueFlags &&& VK_QUEUE_GRAPHICS_BIT ≠ 0 ∧ f.present_support = VK_TRUE)) ∧
    Sample13.graphics_queue_family_index [⟨1, 0⟩, ⟨4, 1⟩, ⟨3, 1⟩, ⟨1, 1⟩] = 2 ∧
    Sample13.present_queue_family_index [⟨1, 0⟩, ⟨4, 1⟩, ⟨3, 1⟩, ⟨1, 1⟩] = 2 ∧
    Sample13.queue_family_step [⟨1, 0⟩, ⟨4, 1⟩, ⟨3, 1⟩, ⟨1, 1⟩] = .ok (2, 2) :=
  have hleast : ∀ j, j < 2 → ∀ f,
      ([⟨1, 0⟩, ⟨4, 1⟩, ⟨3, 1⟩, ⟨1, 1⟩] : List QueueFamily)[j]? = some f →
      ¬ (f.queueFlags &&& VK_QUEUE_GRAPHICS_BIT ≠ 0 ∧ f.present_support = VK_TRUE) := by
    intro j hj f hf
    have hcases : j = 0 ∨ j = 1 := by omega
    rcases hcases with h | h <;> subst h <;>
      simp only [List.getElem?_cons_zero, List.getElem?_cons_succ, Option.some.injEq] at hf <;>
      subst hf <;> decide
  ⟨by decide, rfl, by decide, by decide, hleast,
    queue_family_prefers_combined [⟨1, 0⟩, ⟨4, 1⟩, ⟨3, 1⟩, ⟨1, 1⟩] (by decide) 2 ⟨3, 1⟩ rfl
      (by decide) (by decide) hleast
      (Sample13.graphics_queue_family_index, Sample13.present_queue_family_index,
        Sample13.queue_family_step) (by simp)⟩

theorem exists_least_index (P : QueueFamily → Prop) [DecidablePred P]
    (l : List QueueFamily) (h : ∃ f ∈ l, P f) :
    ∃ (k : Nat) (f : QueueFamily), l[k]? = some f ∧ P f ∧
      ∀ j, j < k → ∀ f2, l[j]? = some f2 → ¬ P f2 := by
  induction l with
  | nil => obtain ⟨f, hf, _⟩ := h; simp at hf
  | cons a t ih =>
    by_cases ha : P a
    · exact ⟨0, a, by simp, ha, fun j hj => absurd hj (Nat.not_lt_zero j)⟩
    · obtain ⟨f, hf, hPf⟩ := h
      have hft : f ∈ t := by
        rcases List.mem_cons.mp hf with h1 | h1
        · rw [h1] at hPf; exact absurd hPf ha
        · exact h1
      obtain ⟨k, f1, hk, hP1, hleast⟩ := ih ⟨f, hft, hPf⟩
      refine ⟨k + 1, f1, by simpa using hk, hP1, ?_⟩
      intro j hj f2 hf2
      cases j with
      | zero =>
        simp only [List.getElem?_cons_zero, Option.some.injEq] at hf2
        rw [← hf2]; exact ha
      | succ j => exact hleast j (by omega) f2 (by simpa using hf2)

theorem queue_family_scan_separate_04 (queue_families : List QueueFamily)
    (hlen : queue_families.length ≤ UINT32_MAX)
    (hnone : ∀ f ∈ queue_families, ¬ (f.hasGraphics ∧ f.hasPresent)) :
    Sample04.graphics_queue_family_index queue_families =
      firstIndexFrom QueueFamily.hasGraphics queue_families 0 ∧
    Sample04.present_queue_family_index queue_families =
      firstIndexFrom QueueFamily.hasPresent queue_families 0 := by
  have h := queue_family_scan_loop_separate queue_families 0 UINT32_MAX UINT32_MAX
    (by omega) hnone
  simp only [if_true] at h
  constructor
  · rw [Sample04.graphics_queue_family_index, Sample04.queue_family_scan, h]
  · rw [Sample04.present_queue_family_index, Sample04.queue_family_scan, h]

theorem queue_family_separate_04 (queue_families : List QueueFamily)
    (hlen : queue_families.length ≤ UINT32_MAX) :
    ((∀ f ∈ queue_families, ¬ (f.hasGraphics ∧ f.hasPresent)) →
      (∀ k f, queue_families[k]? = some f → f.hasGraphics →
        (∀ j, j < k → ∀ f2, queue_families[j]? = some f2 → ¬ f2.hasGraphics) →
        Sample04.graphics_queue_family_index queue_families = k) ∧
      (∀ k f, queue_families[k]? = some f → f.hasPresent →
        (∀ j, j < k → ∀ f2, queue_families[j]? = some f2 → ¬ f2.hasPresent) →
        Sample04.present_queue_family_index queue_families = k)) ∧
    ((∃ msg, Sample04.queue_family_step queue_families = .error msg) ↔
      ((∀ f ∈ queue_families, ¬ f.hasGraphics) ∨
        (∀ f ∈ queue_families, ¬ f.hasPresent))) ∧
    ((∀ f ∈ queue_families, ¬ f.hasGraphics) →
      Sample04.queue_family_step queue_families =
        .error "Suitable graphic queue family not found.") ∧
    ((∃ f ∈ queue_families, f.hasGraphics) → (∀ f ∈ queue_families, ¬ f.hasPresent) →
      Sample04.queue_family_step queue_families =
        .error "Suitable present queue family not found.") := by
  have hsentG := firstIndexFrom_eq_sentinel QueueFamily.hasGraphics queue_families 0
    (by omega)
  have hsentP := firstIndexFrom_eq_sentinel QueueFamily.hasPresent queue_families 0
    (by omega)
  refine ⟨?_, ?_, ?_, ?_⟩
  · intro hnone
    obtain ⟨hg, hp⟩ := queue_family_scan_separate_04 queue_families hlen hnone
    constructor
    · intro k f hk hG hleast
      rw [hg, firstIndexFrom_least _ _ 0 k f hk hG hleast, Nat.zero_add]
    · intro k f hk hP hleast
      rw [hp, firstIndexFrom_least _ _ 0 k f hk hP hleast, Nat.zero_add]
  · by_cases hboth : ∃ f ∈ queue_families, f.hasGraphics ∧ f.hasPresent
    · obtain ⟨k, f, hk, hGP, hleast⟩ :=
        exists_least_index (fun f => f.hasGraphics ∧ f.hasPresent) queue_families hboth
      have hstep := (queue_family_combined_04 queue_families hlen k f hk hGP.1 hGP.2
        hleast).2.2
      have hmem : f ∈ queue_families := List.getElem?_mem hk
      rw [hstep]
      constructor
      · rintro ⟨_, h⟩; cases h
      · rintro (h | h)
        · exact absurd hGP.1 (h f hmem)
        · exact absurd hGP.2 (h f hmem)
    · have hnone : ∀ f ∈ queue_families, ¬ (f.hasGraphics ∧ f.hasPresent) :=
        fun f hf h => hboth ⟨f, hf, h⟩
      obtain ⟨hg, hp⟩ := queue_family_scan_separate_04 queue_families hlen hnone
      rw [Sample04.queue_family_step, hg, hp]
      by_cases h1 : firstIndexFrom QueueFamily.hasGraphics queue_families 0 = UINT32_MAX
      · rw [if_pos h1]
        exact ⟨fun _ => Or.inl (hsentG.mp h1), fun _ => ⟨_, rfl⟩⟩
      · rw [if_neg h1]
        by_cases h2 : firstIndexFrom QueueFamily.hasPresent queue_families 0 = UINT32_MAX
        · rw [if_pos h2]
          exact ⟨fun _ => Or.inr (hsentP.mp h2), fun _ => ⟨_, rfl⟩⟩
        · rw [if_neg h2]
          constructor
          · rintro ⟨_, h⟩; cases h
          · rintro (h | h)
            · exact absurd (hsentG.mpr h) h1
            · exact absurd (hsentP.mpr h) h2
  · intro hnoG
    have hnone : ∀ f ∈ queue_families, ¬ (f.hasGraphics ∧ f.hasPresent) :=
      fun f hf h => hnoG f hf h.1
    obtain ⟨hg, _⟩ := queue_family_scan_separate_04 queue_families hlen hnone
    rw [Sample04.queue_family_step, hg, if_pos (hsentG.mpr hnoG)]
  · intro hG hnoP
    have hnone : ∀ f ∈ queue_families, ¬ (f.hasGraphics ∧ f.hasPresent) :=
      fun f hf h => hnoP f hf h.2
    obtain ⟨hg, hp⟩ := queue_family_scan_separate_04 queue_families hlen hnone
    have h1 : ¬ firstIndexFrom QueueFamily.hasGraphics queue_families 0 = UINT32_MAX := by
      intro h
      obtain ⟨f, hf, hGf⟩ := hG
      exact hsentG.mp h f hf hGf
    rw [Sample04.queue_family_step, hg, hp, if_neg h1, if_pos (hsentP.mpr hnoP)]

/-- C10. Queue-family pick of samples 04, 09 and 13, for a list of families (a `uint32_t`
count): when no family supports both graphics and present,
`graphics_queue_family_index` is the least index with `VK_QUEUE_GRAPHICS_BIT` and
`present_queue_family_index` the least index with present support `VK_TRUE`; `main`
returns `EXIT_FAILURE` at this step exactly when no family has the graphics bit or no
family has present support; and the missing graphics family is the one reported when
graphics is missing (also when present is missing too), the missing present family only
when some family has the graphics bit. -/
theorem queue_family_separate_and_failure (queue_families : List QueueFamily)
    (hlen : queue_families.length ≤ UINT32_MAX) :
    ∀ sample ∈ [
        (Sample04.graphics_queue_family_index, Sample04.present_queue_family_index,
          Sample04.queue_family_step),
        (Sample09.graphics_queue_family_index, Sample09.present_queue_family_index,
          Sample09.queue_family_step),
        (Sample13.graphics_queue_family_index, Sample13.present_queue_family_index,
          Sample13.queue_family_step)],
      ((∀ f ∈ queue_families,
          ¬ (f.queueFlags &&& VK_QUEUE_GRAPHICS_BIT ≠ 0 ∧ f.present_support = VK_TRUE)) →
        (∀ k f, queue_families[k]? = some f → f.queueFlags &&& VK_QUEUE_GRAPHICS_BIT ≠ 0 →
          (∀ j, j < k → ∀ f2, queue_families[j]? = some f2 →
            ¬ f2.queueFlags &&& VK_QUEUE_GRAPHICS_BIT ≠ 0) →
          sample.1 queue_families = k) ∧
        (∀ k f, queue_families[k]? = some f → f.present_support = VK_TRUE →
          (∀ j, j < k → ∀ f2, queue_families[j]? = some f2 →
            ¬ f2.present_support = VK_TRUE) →
          sample.2.1 queue_families = k)) ∧
      ((∃ msg, sample.2.2 queue_families = .error msg) ↔
        ((∀ f ∈ queue_families, ¬ f.queueFlags &&& VK_QUEUE_GRAPHICS_BIT ≠ 0) ∨
          (∀ f ∈ queue_families, ¬ f.present_support = VK_TRUE))) ∧
      ((∀ f ∈ queue_families, ¬ f.queueFlags &&& VK_QUEUE_GRAPHICS_BIT ≠ 0) →
        sample.2.2 queue_families = .error "Suitable graphic queue family not found.") ∧
      ((∃ f ∈ queue_families, f.queueFlags &&& VK_QUEUE_GRAPHICS_BIT ≠ 0) →
        (∀ f ∈ queue_families, ¬ f.present_support = VK_TRUE) →
        sample.2.2 queue_families = .error "Suitable present queue family not found.") := by
  intro sample hsample
  have hs : sample = (Sample04.graphics_queue_family_index,
      Sample04.present_queue_family_index, Sample04.queue_family_step) := by
    simp only [graphics_queue_family_index_eq_09, graphics_queue_family_index_eq_13,
      present_queue_family_index_eq_09, present_queue_family_index_eq_13,
      queue_family_step_eq_09, queue_family_step_eq_13, List.mem_cons, List.mem_singleton,
      List.mem_nil_iff, or_false, or_self] at hsample
    exact hsample
  subst hs
  exact queue_family_separate_04 queue_families hlen

/-- Witness of C10: a graphics-only family, a compute-only family and a present-only
family; sample 09 picks graphics index 0 and present index 2. A list with neither
graphics nor present reports the missing graphics family. -/
theorem queue_family_separate_and_failure_witness :
    ([⟨1, 0⟩, ⟨2, 0⟩, ⟨4, 1⟩] : List QueueFamily).length ≤ UINT32_MAX ∧
    Sample09.queue_family_step [⟨1, 0⟩, ⟨2, 0⟩, ⟨4, 1⟩] = .ok (0, 2) ∧
    Sample09.graphics_queue_family_index [⟨1, 0⟩, ⟨2, 0⟩, ⟨4, 1⟩] = 0 ∧
    Sample09.queue_family_step [⟨2, 0⟩, ⟨4, 0⟩] =
      .error "Suitable graphic queue family not found." :=
  ⟨by decide, rfl,
    ((queue_family_separate_and_failure [⟨1, 0⟩, ⟨2, 0⟩, ⟨4, 1⟩] (by decide)
      (Sample09.graphics_queue_family_index, Sample09.present_queue_family_index,
        Sample09.queue_family_step) (by simp)).1 (by decide)).1 0 ⟨1, 0⟩ rfl (by decide)
      (fun j hj => absurd hj (Nat.not_lt_zero j)),
    (queue_family_separate_and_failure [⟨2, 0⟩, ⟨4, 0⟩] (by decide)
      (Sample09.graphics_queue_family_index, Sample09.present_queue_family_index,
        Sample09.queue_family_step) (by simp)).2.2.1 (by decide)⟩

/-! ### Device queues, swapchain sharing and extent -/

theorem unique_queue_family_indices_cases (g p : Nat) :
    Sample04.unique_queue_family_indices g p =
      if g = p then [g] else if g < p then [g, p] else [p, g] := by
  unfold Sample04.unique_queue_family_indices
  simp only [std_set_insert]
  by_cases h1 : g = p
  · subst h1
    simp
  · by_cases h2 : g < p
    · have h3 : ¬ p < g := by omega
      have h4 : ¬ p = g := fun h => h1 h.symm
      simp [h1, h2, h3, h4]
    · have h3 : p < g := by omega
      simp [h1, h2, h3]

theorem queue_infos_eq_09 : Sample09.queue_infos = Sample04.queue_infos := rfl

theorem queue_infos_eq_13 : Sample13.queue_infos = Sample04.queue_infos := rfl

theorem queue_infos_cases (g p : Nat) :
    Sample04.queue_infos g p =
      if g = p then [⟨g, 1⟩] else if g < p then [⟨g, 1⟩, ⟨p, 1⟩] else [⟨p, 1⟩, ⟨g, 1⟩] := by
  unfold Sample04.queue_infos
  rw [unique_queue_family_indices_cases]
  split_ifs <;> rfl

theorem queue_infos_spec (g p : Nat) :
    ((g = p → (Sample04.queue_infos g p).length = 1) ∧
      (g ≠ p → (Sample04.queue_infos g p).length = 2)) ∧
    ((Sample04.queue_infos g p).map (fun e => e.queueFamilyIndex)).Pairwise (fun a b => a < b) ∧
    (∀ x, x ∈ (Sample04.queue_infos g p).map (fun e => e.queueFamilyIndex) ↔
      x = g ∨ x = p) ∧
    (∀ e ∈ Sample04.queue_infos g p, e.queueCount = 1) ∧
    toUint32 (Sample04.queue_infos g p).length = (Sample04.queue_infos g p).length := by
  rw [queue_infos_cases]
  by_cases h1 : g = p
  · subst h1
    simp [toUint32]
  · by_cases h2 : g < p
    · simp only [if_neg h1, if_pos h2]
      refine ⟨⟨fun h => absurd h h1, fun _ => rfl⟩, by simp [h2], by simp, by simp, by
        simp [toUint32]⟩
    · have h3 : p < g := by omega
      simp only [if_neg h1, if_neg h2]
      refine ⟨⟨fun h => absurd h h1, fun _ => rfl⟩, by simp [h3], ?_, by simp, by
        simp [toUint32]⟩
      intro x
      simp only [List.map_cons, List.map_nil, List.mem_cons, List.mem_singleton,
        List.mem_nil_iff, or_false]
      exact Or.comm

/-- C11. Logical device creation of samples 04, 09 and 13, for every pair of graphics and
present family indices: the list of `VkDeviceQueueCreateInfo` has one entry when the
indices are equal and two when they differ; its `queueFamilyIndex` values are strictly
ascending (so pairwise distinct) and are exactly the graphics and the present index;
every entry has `queueCount = 1`; and `queueCreateInfoCount` is the length of the list. -/
theorem device_info_queue_infos (graphics_queue_family_index present_queue_family_index : Nat) :
    ∀ info ∈ [
        Sample04.device_info graphics_queue_family_index present_queue_family_index,
        Sample09.device_info graphics_queue_family_index present_queue_family_index,
        Sample13.device_info graphics_queue_family_index present_queue_family_index],
      (graphics_queue_family_index = present_queue_family_index →
        info.pQueueCreateInfos.length = 1) ∧
      (graphics_queue_family_index ≠ present_queue_family_index →
        info.pQueueCreateInfos.length = 2) ∧
      (info.pQueueCreateInfos.map (fun e => e.queueFamilyIndex)).Pairwise
        (fun a b => a < b) ∧
      (info.pQueueCreateInfos.map (fun e => e.queueFamilyIndex)).Nodup ∧
      (∀ x, x ∈ info.pQueueCreateInfos.map (fun e => e.queueFamilyIndex) ↔
        x = graphics_queue_family_index ∨ x = present_queue_family_index) ∧
      (∀ e ∈ info.pQueueCreateInfos, e.queueCount = 1) ∧
      info.queueCreateInfoCount = info.pQueueCreateInfos.length := by
  intro info hinfo
  have h := queue_infos_spec graphics_queue_family_index present_queue_family_index
  have hnodup : ((Sample04.queue_infos graphics_queue_family_index
      present_queue_family_index).map (fun e => e.queueFamilyIndex)).Nodup :=
    h.2.1.imp (fun hab => Nat.ne_of_lt hab)
  simp only [List.mem_cons, List.mem_singleton, List.mem_nil_iff, or_false] at hinfo
  rcases hinfo with hi | hi | hi <;> subst hi <;>
    simp only [Sample04.device_info, Sample09.device_info, Sample13.device_info,
      queue_infos_eq_09, queue_infos_eq_13] <;>
    exact ⟨h.1.1, h.1.2, h.2.1, hnodup, h.2.2.1, h.2.2.2.1, h.2.2.2.2⟩

/-- Witness of C11: sample 13 with graphics family 2 and present family 0 creates the
two queue infos for families 0 and 2, in this order. -/
theorem device_info_queue_infos_witness :
    (Sample13.device_info 2 0).pQueueCreateInfos = [⟨0, 1⟩, ⟨2, 1⟩] ∧
    (Sample13.device_info 2 0).pQueueCreateInfos.length = 2 ∧
    (Sample13.device_info 2 0).queueCreateInfoCount =
      (Sample13.device_info 2 0).pQueueCreateInfos.length :=
  ⟨by decide,
    (device_info_queue_infos 2 0 (Sample13.device_info 2 0) (by simp)).2.1 (by decide),
    (device_info_queue_infos 2 0 (Sample13.device_info 2 0) (by simp)).2.2.2.2.2.2⟩

theorem swapchain_info_eq_09 : Sample09.swapchain_info = Sample04.swapchain_info := rfl

theorem swapchain_info_eq_13 : Sample13.swapchain_info = Sample04.swapchain_info := rfl

theorem queue_family_indices_eq_09 :
    Sample09.queue_family_indices = Sample04.queue_family_indices := rfl

theorem queue_family_indices_eq_13 :
    Sample13.queue_family_indices = Sample04.queue_family_indices := rfl

theorem swapchain_info_sharing (surface_capabilities : VkSurfaceCapabilitiesKHR)
    (surface_format : VkSurfaceFormatKHR) (present_mode : Nat) (extent : VkExtent2D)
    (g p : Nat) :
    (g ≠ p →
      (Sample04.swapchain_info surface_capabilities surface_format present_mode extent
        g p).imageSharingMode = VK_SHARING_MODE_CONCURRENT ∧
      (Sample04.swapchain_info surface_capabilities surface_format present_mode extent
        g p).queueFamilyIndexCount = 2 ∧
      (Sample04.swapchain_info surface_capabilities surface_format present_mode extent
        g p).pQueueFamilyIndices = .queue_family_indices ∧
      Sample04.queue_family_indices g p .insideBlock = some [g, p]) ∧
    (g = p →
      (Sample04.swapchain_info surface_capabilities surface_format present_mode extent
        g p).imageSharingMode = VK_SHARING_MODE_EXCLUSIVE ∧
      (Sample04.swapchain_info surface_capabilities surface_format present_mode extent
        g p).queueFamilyIndexCount = 0 ∧
      (Sample04.swapchain_info surface_capabilities surface_format present_mode extent
        g p).pQueueFamilyIndices = .null) := by
  constructor
  · intro h
    simp [Sample04.swapchain_info, Sample04.queue_family_indices, h]
  · intro h
    simp [Sample04.swapchain_info, h]

theorem swapchain_info_sharing_04 (surface_capabilities : VkSurfaceCapabilitiesKHR)
    (surface_format : VkSurfaceFormatKHR) (present_mode : Nat) (extent : VkExtent2D)
    (g p : Nat) :
    (((Sample04.swapchain_info surface_capabilities surface_format present_mode extent
          g p).imageSharingMode = VK_SHARING_MODE_CONCURRENT ∧
        (Sample04.swapchain_info surface_capabilities surface_format present_mode extent
          g p).queueFamilyIndexCount = 2 ∧
        (Sample04.swapchain_info surface_capabilities surface_format present_mode extent
          g p).pQueueFamilyIndices = .queue_family_indices ∧
        Sample04.queue_family_indices g p .insideBlock = some [g, p]) ↔ g ≠ p) ∧
    (((Sample04.swapchain_info surface_capabilities surface_format present_mode extent
          g p).imageSharingMode = VK_SHARING_MODE_EXCLUSIVE ∧
        (Sample04.swapchain_info surface_capabilities surface_format present_mode extent
          g p).queueFamilyIndexCount = 0) ↔ g = p) ∧
    ((Sample04.swapchain_info surface_capabilities surface_format present_mode extent
          g p).imageSharingMode = VK_SHARING_MODE_CONCURRENT ↔
      toUint32 (Sample04.queue_infos g p).length = 2) ∧
    ((Sample04.swapchain_info surface_capabilities surface_format present_mode extent
          g p).imageSharingMode = VK_SHARING_MODE_CONCURRENT ↔
      (Sample04.queue_infos g p).length = 2) := by
  have hs := swapchain_info_sharing surface_capabilities surface_format present_mode extent
    g p
  have hq := queue_infos_spec g p
  have hmodes : VK_SHARING_MODE_CONCURRENT ≠ VK_SHARING_MODE_EXCLUSIVE := by decide
  rw [hq.2.2.2.2]
  by_cases h : g = p
  · obtain ⟨h1, h2, _⟩ := hs.2 h
    have hlen := hq.1.1 h
    rw [h1, h2, hlen]
    refine ⟨⟨fun hc => absurd hc.1.symm hmodes, fun hne => absurd h hne⟩,
      ⟨fun _ => h, fun _ => ⟨rfl, rfl⟩⟩,
      ⟨fun hc => absurd hc.symm hmodes, fun hc => absurd hc (by decide)⟩,
      ⟨fun hc => absurd hc.symm hmodes, fun hc => absurd hc (by decide)⟩⟩
  · obtain ⟨h1, h2, h3, h4⟩ := hs.1 h
    have hlen := hq.1.2 h
    rw [h1, h2, h3, h4, hlen]
    refine ⟨⟨fun _ => h, fun _ => ⟨rfl, rfl, rfl, rfl⟩⟩,
      ⟨fun hc => absurd hc.1 hmodes, fun he => absurd he h⟩,
      ⟨fun _ => rfl, fun _ => rfl⟩, ⟨fun _ => rfl, fun _ => rfl⟩⟩

/-- C12, evaluated on the code. In samples 04, 09 and 13 `imageSharingMode` is
`VK_SHARING_MODE_CONCURRENT` with `queueFamilyIndexCount = 2` exactly when the graphics
and present family indices differ, otherwise `VK_SHARING_MODE_EXCLUSIVE` with
`queueFamilyIndexCount = 0`, and the swapchain is CONCURRENT exactly when the device has
two queue create infos. The indices are another matter: `pQueueFamilyIndices` is set to
the address of the array `queue_family_indices`, which holds `[graphics, present]` inside
the block of the `if` but is not alive at the call of `vkCreateSwapchainKHR`, so what the
call can read through the pointer is never `[graphics, present]`. -/
theorem swapchain_info_sharing_mode (surface_capabilities : VkSurfaceCapabilitiesKHR)
    (surface_format : VkSurfaceFormatKHR) (present_mode : Nat) (extent : VkExtent2D)
    (graphics_queue_family_index present_queue_family_index : Nat) :
    ∀ config ∈ [
        (Sample04.swapchain_info surface_capabilities surface_format present_mode extent
          graphics_queue_family_index present_queue_family_index,
         Sample04.queue_family_indices graphics_queue_family_index present_queue_family_index,
         Sample04.device_info graphics_queue_family_index present_queue_family_index),
        (Sample09.swapchain_info surface_capabilities surface_format present_mode extent
          graphics_queue_family_index present_queue_family_index,
         Sample09.queue_family_indices graphics_queue_family_index present_queue_family_index,
         Sample09.device_info graphics_queue_family_index present_queue_family_index),
        (Sample13.swapchain_info surface_capabilities surface_format present_mode extent
          graphics_queue_family_index present_queue_family_index,
         Sample13.queue_family_indices graphics_queue_family_index present_queue_family_index,
         Sample13.device_info graphics_queue_family_index present_queue_family_index)],
      ((config.1.imageSharingMode = VK_SHARING_MODE_CONCURRENT ∧
          config.1.queueFamilyIndexCount = 2 ∧
          config.1.pQueueFamilyIndices = .queue_family_indices ∧
          config.2.1 .insideBlock =
            some [graphics_queue_family_index, present_queue_family_index]) ↔
        graphics_queue_family_index ≠ present_queue_family_index) ∧
      ((config.1.imageSharingMode = VK_SHARING_MODE_EXCLUSIVE ∧
          config.1.queueFamilyIndexCount = 0) ↔
        graphics_queue_family_index = present_queue_family_index) ∧
      (config.1.imageSharingMode = VK_SHARING_MODE_CONCURRENT ↔
        config.2.2.queueCreateInfoCount = 2) ∧
      (config.1.imageSharingMode = VK_SHARING_MODE_CONCURRENT ↔
        config.2.2.pQueueCreateInfos.length = 2) ∧
      config.2.1 .atCreateSwapchain = none ∧
      readThrough config.1.pQueueFamilyIndices (config.2.1 .atCreateSwapchain) = none ∧
      readThrough config.1.pQueueFamilyIndices (config.2.1 .atCreateSwapchain) ≠
        some [graphics_queue_family_index, present_queue_family_index] ∧
      (graphics_queue_family_index ≠ present_queue_family_index →
        readThrough config.1.pQueueFamilyIndices (config.2.1 .insideBlock) =
          some [graphics_queue_family_index, present_queue_family_index]) := by
  intro config hconfig
  have hmain := swapchain_info_sharing_04 surface_capabilities surface_format present_mode
    extent graphics_queue_family_index present_queue_family_index
  have hs := swapchain_info_sharing surface_capabilities surface_format present_mode extent
    graphics_queue_family_index present_queue_family_index
  have hdead : Sample04.queue_family_indices graphics_queue_family_index
      present_queue_family_index .atCreateSwapchain = none := rfl
  have hread : ∀ pointer : QueueFamilyIndicesPointer, readThrough pointer none = none := by
    intro pointer
    cases pointer <;> rfl
  have h6 : readThrough (Sample04.swapchain_info surface_capabilities surface_format
      present_mode extent graphics_queue_family_index
      present_queue_family_index).pQueueFamilyIndices
      (Sample04.queue_family_indices graphics_queue_family_index
        present_queue_family_index .atCreateSwapchain) = none := hread _
  have h7 : readThrough (Sample04.swapchain_info surface_capabilities surface_format
      present_mode extent graphics_queue_family_index
      present_queue_family_index).pQueueFamilyIndices
      (Sample04.queue_family_indices graphics_queue_family_index
        present_queue_family_index .atCreateSwapchain) ≠
      some [graphics_queue_family_index, present_queue_family_index] := by
    rw [h6]
    exact fun h => by cases h
  have h8 : graphics_queue_family_index ≠ present_queue_family_index →
      readThrough (Sample04.swapchain_info surface_capabilities surface_format
        present_mode extent graphics_queue_family_index
        present_queue_family_index).pQueueFamilyIndices
        (Sample04.queue_family_indices graphics_queue_family_index
          present_queue_family_index .insideBlock) =
        some [graphics_queue_family_index, present_queue_family_index] := by
    intro hne
    obtain ⟨_, _, h3, h4⟩ := hs.1 hne
    rw [h3, h4]
    rfl
  simp only [List.mem_cons, List.mem_singleton, List.mem_nil_iff, or_false] at hconfig
  rcases hconfig with hc | hc | hc <;> subst hc <;>
    simp only [swapchain_info_eq_09, swapchain_info_eq_13, queue_family_indices_eq_09,
      queue_family_indices_eq_13, Sample04.device_info, Sample09.device_info,
      Sample13.device_info, queue_infos_eq_09, queue_infos_eq_13] <;>
    exact ⟨hmain.1, hmain.2.1, hmain.2.2.1, hmain.2.2.2, hdead, h6, h7, h8⟩

/-- Witness of C12: sample 09 with graphics family 0 and present family 2 is CONCURRENT
with the count 2 and a pointer to the array `[0, 2]` of the block, which the call of
`vkCreateSwapchainKHR` cannot read any more; with equal families it is EXCLUSIVE. -/
theorem swapchain_info_sharing_mode_witness :
    (Sample09.swapchain_info ⟨2, ⟨640, 480⟩, ⟨1, 1⟩, ⟨4096, 4096⟩, 1⟩ ⟨44, 0⟩ 2 ⟨640, 480⟩
      0 2).queueFamilyIndexCount = 2 ∧
    (0 : Nat) ≠ 2 ∧
    readThrough (Sample09.swapchain_info ⟨2, ⟨640, 480⟩, ⟨1, 1⟩, ⟨4096, 4096⟩, 1⟩ ⟨44, 0⟩ 2
      ⟨640, 480⟩ 0 2).pQueueFamilyIndices
      (Sample09.queue_family_indices 0 2 .insideBlock) = some [0, 2] ∧
    readThrough (Sample09.swapchain_info ⟨2, ⟨640, 480⟩, ⟨1, 1⟩, ⟨4096, 4096⟩, 1⟩ ⟨44, 0⟩ 2
      ⟨640, 480⟩ 0 2).pQueueFamilyIndices
      (Sample09.queue_family_indices 0 2 .atCreateSwapchain) = none ∧
    (Sample09.swapchain_info ⟨2, ⟨640, 480⟩, ⟨1, 1⟩, ⟨4096, 4096⟩, 1⟩ ⟨44, 0⟩ 2 ⟨640, 480⟩
      1 1).imageSharingMode = VK_SHARING_MODE_EXCLUSIVE :=
  ⟨by decide, by decide,
    (swapchain_info_sharing_mode ⟨2, ⟨640, 480⟩, ⟨1, 1⟩, ⟨4096, 4096⟩, 1⟩ ⟨44, 0⟩ 2
      ⟨640, 480⟩ 0 2 (Sample09.swapchain_info ⟨2, ⟨640, 480⟩, ⟨1, 1⟩, ⟨4096, 4096⟩, 1⟩
        ⟨44, 0⟩ 2 ⟨640, 480⟩ 0 2, Sample09.queue_family_indices 0 2,
        Sample09.device_info 0 2) (by simp)).2.2.2.2.2.2.2 (by decide),
    by decide,
    ((swapchain_info_sharing_mode ⟨2, ⟨640, 480⟩, ⟨1, 1⟩, ⟨4096, 4096⟩, 1⟩ ⟨44, 0⟩ 2
      ⟨640, 480⟩ 1 1 (Sample09.swapchain_info ⟨2, ⟨640, 480⟩, ⟨1, 1⟩, ⟨4096, 4096⟩, 1⟩
        ⟨44, 0⟩ 2 ⟨640, 480⟩ 1 1, Sample09.queue_family_indices 1 1,
        Sample09.device_info 1 1) (by simp)).2.1.mpr rfl).1⟩

/-- C16. Static cube data of sample 13: `c_cube_vertices` has 36 rows of 6 components;
the rows `6 k .. 6 k + 5` of face `k` all carry one colour, and the colours of the faces
0 to 5 are red `(1,0,0)`, green `(0,1,0)`, blue `(0,0,1)`, yellow `(1,1,0)`, magenta
`(1,0,1)` and cyan `(0,1,1)`, as the comments of the table say; the six colours are
pairwise distinct. -/
theorem c_cube_vertices_face_colors :
    Sample13.c_cube_vertices.length = 36 ∧
    (∀ row ∈ Sample13.c_cube_vertices, row.length = 6) ∧
    (∀ row ∈ Sample13.c_cube_vertices,
      (rowPosition row).length = 3 ∧ (rowColor row).length = 3) ∧
    (∀ k ∈ List.range 6, (Sample13.face k).length = 6) ∧
    (List.range 6).map (fun k => (Sample13.face k).map rowColor) =
      [List.replicate 6 [1, 0, 0], List.replicate 6 [0, 1, 0], List.replicate 6 [0, 0, 1],
       List.replicate 6 [1, 1, 0], List.replicate 6 [1, 0, 1], List.replicate 6 [0, 1, 1]] ∧
    ((List.range 6).map (fun k => (Sample13.face k).map rowColor)).flatten.dedup.length = 6 ∧
    ([[1, 0, 0], [0, 1, 0], [0, 0, 1], [1, 1, 0], [1, 0, 1], [0, 1, 1]] :
      List (List Int)).Nodup ∧
    ((List.range 6).map Sample13.face).flatten = Sample13.c_cube_vertices := by
  decide

/-- C17. Static cube geometry of sample 13: every position component of every row is
`-1` or `1`; in each face exactly one coordinate is the same in all six rows, and these
face planes are, for the faces 0 to 5, `z = 1`, `z = -1`, `x = -1`, `x = 1`, `y = 1`
and `y = -1`: the six faces of the cube `[-1, 1]^3`, each once. -/
theorem c_cube_vertices_face_planes :
    (∀ row ∈ Sample13.c_cube_vertices, ∀ x ∈ rowPosition row, x = -1 ∨ x = 1) ∧
    (List.range 6).map (fun k => constantAxes ((Sample13.face k).map rowPosition)) =
      [[(2, 1)], [(2, -1)], [(0, -1)], [(0, 1)], [(1, 1)], [(1, -1)]] ∧
    ([(2, 1), (2, -1), (0, -1), (0, 1), (1, 1), (1, -1)] : List (Nat × Int)).Nodup ∧
    ([(2, 1), (2, -1), (0, -1), (0, 1), (1, 1), (1, -1)] : List (Nat × Int)).Perm
      ((List.range 3).flatMap fun axis => [(axis, (-1 : Int)), (axis, 1)]) := by
  decide

/-- C18. Static cube triangulation of sample 13: the topology is the triangle list, which
assembles the 36 vertices into 12 triangles, triangle `i` from the rows `3 i .. 3 i + 2`,
so face `k` consists of the triangles of rows `6 k .. 6 k + 2` and `6 k + 3 .. 6 k + 5`.
Each triangle has three distinct corners; the two triangles of a face share exactly two
corners, which differ in two coordinates (a diagonal of the face); and together they have
exactly the four corners of the cube face in the plane of face `k`. -/
theorem c_cube_vertices_triangulation :
    Sample13.ia_state_info.topology = VK_PRIMITIVE_TOPOLOGY_TRIANGLE_LIST ∧
    triangleList (Sample13.c_cube_vertices.map rowPosition) =
      (List.range 12).map Sample13.triangleRows ∧
    (∀ k ∈ List.range 6,
      Sample13.triangleRows (2 * k) ++ Sample13.triangleRows (2 * k + 1) =
        (Sample13.face k).map rowPosition) ∧
    (∀ i ∈ List.range 12,
      (Sample13.triangleRows i).length = 3 ∧ (Sample13.triangleRows i).Nodup) ∧
    (∀ k ∈ List.range 6,
      (sharedCorners (Sample13.triangleRows (2 * k))
        (Sample13.triangleRows (2 * k + 1))).length = 2 ∧
      (sharedCorners (Sample13.triangleRows (2 * k + 1))
        (Sample13.triangleRows (2 * k))).length = 2 ∧
      (∀ a ∈ sharedCorners (Sample13.triangleRows (2 * k))
          (Sample13.triangleRows (2 * k + 1)),
        ∀ b ∈ sharedCorners (Sample13.triangleRows (2 * k))
          (Sample13.triangleRows (2 * k + 1)),
        a ≠ b → differingCoordinates a b = 2)) ∧
    (∀ k ∈ List.range 6,
      ∀ plane ∈ constantAxes ((Sample13.face k).map rowPosition),
        (Sample13.triangleRows (2 * k) ++ Sample13.triangleRows (2 * k + 1)).dedup.Perm
          (faceCorners plane.1 plane.2)) := by
  decide

/-- C19, evaluated on the code. The binding stride is the 24 bytes of one row and the
attribute at location 0 starts at byte 0, inside the stride. The attribute at location 1
starts at byte 16, while the colour components of a row start at component 3, byte 12;
its 16 bytes `[16, 32)` end after the 24-byte stride. For vertex 0 of the red face it
reads `(0, 0, -1, 1)`: the green and blue components and the position of the next row. -/
theorem vi_attribs_color_offset_mismatch :
    Sample13.vi_binding.stride = 24 ∧
    Sample13.vi_binding.stride = 6 * sizeof_float ∧
    (∀ row ∈ Sample13.c_cube_vertices,
      row.length * sizeof_float = Sample13.vi_binding.stride) ∧
    Sample13.vi_attribs.map (fun a => (a.location, a.format, a.offset)) =
      [(0, VK_FORMAT_R32G32B32A32_SFLOAT, 0), (1, VK_FORMAT_R32G32B32A32_SFLOAT, 16)] ∧
    componentByteOffset 0 = 0 ∧
    componentByteOffset (rowPosition [-1, -1, 1, 1, 0, 0]).length = 12 ∧
    (∀ a ∈ Sample13.vi_attribs, a.location = 1 → a.offset = 16 ∧ a.offset ≠ 12) ∧
    (∀ a ∈ Sample13.vi_attribs, formatSize a.format = 16) ∧
    (∀ a ∈ Sample13.vi_attribs,
      a.offset + formatSize a.format ≤ Sample13.vi_binding.stride ↔ a.location = 0) ∧
    (∀ a ∈ Sample13.vi_attribs, a.location = 1 →
      fetchFloats Sample13.c_cube_vertices.flatten
        (0 * Sample13.vi_binding.stride + a.offset) = [0, 0, -1, 1]) ∧
    (Sample13.c_cube_vertices.head?).map rowColor = some [1, 0, 0] := by
  decide

/-- C20, evaluated on the code. The vertex data has 864 bytes. Of the 72 fetches of the 36
vertices and the two attributes, all stay inside `[0, 864)` except the one of vertex 35
and the attribute at location 1, whose range is `[856, 872)`. -/
theorem vertex_fetch_last_vertex_overrun :
    Sample13.sizeof_c_cube_vertices = 864 ∧
    Sample13.c_cube_vertices.length = 36 ∧
    (∀ v ∈ List.range 36, ∀ a ∈ Sample13.vi_attribs,
      v * Sample13.vi_binding.stride + a.offset + formatSize a.format ≤
          Sample13.sizeof_c_cube_vertices ↔
        ¬ (v = 35 ∧ a.location = 1)) ∧
    (∀ a ∈ Sample13.vi_attribs, a.location = 1 →
      35 * Sample13.vi_binding.stride + a.offset = 856 ∧
      35 * Sample13.vi_binding.stride + a.offset + formatSize a.format = 872 ∧
      ¬ 35 * Sample13.vi_binding.stride + a.offset + formatSize a.format ≤
        Sample13.sizeof_c_cube_vertices) ∧
    ¬ (∀ v ∈ List.range 36, ∀ a ∈ Sample13.vi_attribs,
      v * Sample13.vi_binding.stride + a.offset + formatSize a.format ≤
        Sample13.sizeof_c_cube_vertices) := by
  decide

/-! ### Runs of `main` -/

theorem exit_failure_ne_success : (some EXIT_FAILURE : Option Nat) ≠ some EXIT_SUCCESS := by
  decide

theorem callEvents_length (returns : Nat → Int) (names : List String) : ∀ position : Nat,
    (callEvents returns position names).length = names.length := by
  induction names with
  | nil => intro position; rfl
  | cons f rest ih => intro position; simp [callEvents, ih]

theorem callEvents_function (returns : Nat → Int) (names : List String) : ∀ position : Nat,
    (callEvents returns position names).map Event.function = names := by
  induction names with
  | nil => intro position; rfl
  | cons f rest ih => intro position; simp [callEvents, ih, Event.function]

theorem eventLoop_function_mem (returns : Nat → Int) : ∀ fuel position : Nat,
    ∀ e ∈ (eventLoop returns fuel position).1,
      e.function = "glfwWindowShouldClose" ∨ e.function = "glfwPollEvents" := by
  intro fuel
  induction fuel with
  | zero => intro position e he; simp [eventLoop] at he
  | succ fuel ih =>
    intro position e he
    rw [eventLoop] at he
    split at he
    · simp only [List.mem_singleton] at he
      rw [he]; exact Or.inl rfl
    · simp only [List.mem_cons] at he
      rcases he with h | h | h
      · rw [h]; exact Or.inl rfl
      · rw [h]; exact Or.inr rfl
      · exact ih _ e h

theorem run_call (returns : Nat → Int) (fuel : Nat) (f : String) (rest : List Step)
    (position : Nat) :
    run returns fuel (.call f :: rest) position =
      (run returns fuel rest (position + 1)).after [.call f (returns position)] := rfl

theorem run_guarded_failure (returns : Nat → Int) (fuel : Nat) (f action : String)
    (rest : List Step) (position : Nat) (h : returns position ≠ VK_SUCCESS) :
    run returns fuel (.guarded f action :: rest) position =
      ⟨[.guarded f action (returns position)], some EXIT_FAILURE, none⟩ := by
  simp only [run, if_pos h]

theorem run_guarded_success (returns : Nat → Int) (fuel : Nat) (f action : String)
    (rest : List Step) (position : Nat) (h : ¬ returns position ≠ VK_SUCCESS) :
    run returns fuel (.guarded f action :: rest) position =
      (run returns fuel rest (position + 1)).after [.guarded f action (returns position)] := by
  simp only [run, if_neg h]

theorem run_checked_failure (returns : Nat → Int) (fuel : Nat) (f : String) (expected : Int)
    (message : String) (cleanup : List String) (rest : List Step) (position : Nat)
    (h : returns position ≠ expected) :
    run returns fuel (.checked f expected message cleanup :: rest) position =
      ⟨.checked f (returns position) :: callEvents returns (position + 1) cleanup,
        some EXIT_FAILURE, some message⟩ := by
  simp only [run, if_pos h]

theorem run_checked_success (returns : Nat → Int) (fuel : Nat) (f : String) (expected : Int)
    (message : String) (cleanup : List String) (rest : List Step) (position : Nat)
    (h : ¬ returns position ≠ expected) :
    run returns fuel (.checked f expected message cleanup :: rest) position =
      (run returns fuel rest (position + 1)).after [.checked f (returns position)] := by
  simp only [run, if_neg h]

theorem run_exitIf_some (returns : Nat → Int) (fuel : Nat) (message : String)
    (rest : List Step) (position : Nat) :
    run returns fuel (.exitIf (some message) :: rest) position =
      ⟨[], some EXIT_FAILURE, some message⟩ := rfl

theorem run_exitIf_none (returns : Nat → Int) (fuel : Nat) (rest : List Step)
    (position : Nat) :
    run returns fuel (.exitIf none :: rest) position = run returns fuel rest position := rfl

theorem run_eventLoop_left (returns : Nat → Int) (fuel : Nat) (rest : List Step)
    (position : Nat) (h : (eventLoop returns fuel position).2 = true) :
    run returns fuel (.eventLoop :: rest) position =
      (run returns fuel rest (position + (eventLoop returns fuel position).1.length)).after
        (eventLoop returns fuel position).1 := by
  simp only [run, if_pos h]

theorem run_eventLoop_running (returns : Nat → Int) (fuel : Nat) (rest : List Step)
    (position : Nat) (h : ¬ (eventLoop returns fuel position).2 = true) :
    run returns fuel (.eventLoop :: rest) position =
      ⟨(eventLoop returns fuel position).1, none, none⟩ := by
  simp only [run, if_neg h]

theorem after_exit (outcome : Outcome) (events : List Event) :
    (outcome.after events).exit = outcome.exit := rfl

theorem after_trace (outcome : Outcome) (events : List Event) :
    (outcome.after events).trace = events ++ outcome.trace := rfl

theorem after_message (outcome : Outcome) (events : List Event) :
    (outcome.after events).message = outcome.message := rfl

theorem after_after (outcome : Outcome) (first second : List Event) :
    (outcome.after second).after first = outcome.after (first ++ second) := by
  simp [Outcome.after]

/-- Running two pieces of `main` in sequence: when the first piece runs to its end the
second continues at the next call number, otherwise the run ends inside the first. -/
theorem run_append (returns : Nat → Int) (fuel : Nat) (first second : List Step) :
    ∀ position : Nat,
    run returns fuel (first ++ second) position =
      if (run returns fuel first position).exit = some EXIT_SUCCESS then
        (run returns fuel second
          (position + (run returns fuel first position).trace.length)).after
          (run returns fuel first position).trace
      else run returns fuel first position := by
  induction first with
  | nil =>
    intro position
    simp [run, Outcome.after]
  | cons step rest ih =>
    intro position
    rw [List.cons_append]
    cases step with
    | call f =>
      rw [run_call, run_call, ih, after_exit]
      split_ifs
      · rw [after_after, after_trace, List.length_append, List.length_singleton,
          Nat.add_assoc, Nat.add_comm 1]
      · rfl
    | guarded f action =>
      by_cases h : returns position ≠ VK_SUCCESS
      · rw [run_guarded_failure _ _ _ _ _ _ h, run_guarded_failure _ _ _ _ _ _ h,
          if_neg exit_failure_ne_success]
      · rw [run_guarded_success _ _ _ _ _ _ h, run_guarded_success _ _ _ _ _ _ h, ih,
          after_exit]
        split_ifs
        · rw [after_after, after_trace, List.length_append, List.length_singleton,
            Nat.add_assoc, Nat.add_comm 1]
        · rfl
    | checked f expected message cleanup =>
      by_cases h : returns position ≠ expected
      · rw [run_checked_failure _ _ _ _ _ _ _ _ h, run_checked_failure _ _ _ _ _ _ _ _ h,
          if_neg exit_failure_ne_success]
      · rw [run_checked_success _ _ _ _ _ _ _ _ h, run_checked_success _ _ _ _ _ _ _ _ h, ih,
          after_exit]
        split_ifs
        · rw [after_after, after_trace, List.length_append, List.length_singleton,
            Nat.add_assoc, Nat.add_comm 1]
        · rfl
    | exitIf failure =>
      cases failure with
      | none => rw [run_exitIf_none, run_exitIf_none, ih]
      | some message =>
        rw [run_exitIf_some, run_exitIf_some, if_neg exit_failure_ne_success]
    | eventLoop =>
      by_cases h : (eventLoop returns fuel position).2 = true
      · rw [run_eventLoop_left _ _ _ _ h, run_eventLoop_left _ _ _ _ h, ih, after_exit]
        split_ifs
        · rw [after_after, after_trace, List.length_append, Nat.add_assoc]
        · rfl
      · rw [run_eventLoop_running _ _ _ _ h, run_eventLoop_running _ _ _ _ h]
        simp

theorem not_guarded_of_guardedSite_none (e : Event) (h : e.guardedSite = none)
    (f action : String) (r : Int) : e ≠ .guarded f action r := by
  intro he
  rw [he] at h
  simp [Event.guardedSite] at h

theorem getElem?_append_not_guarded (events rest : List Event)
    (hev : ∀ e ∈ events, e.guardedSite = none) (i : Nat) (f action : String) (r : Int)
    (h : (events ++ rest)[i]? = some (.guarded f action r)) :
    events.length ≤ i ∧ rest[i - events.length]? = some (.guarded f action r) := by
  by_cases hi : i < events.length
  · rw [List.getElem?_append_left hi] at h
    exact absurd rfl (not_guarded_of_guardedSite_none _ (hev _ (List.getElem?_mem h)) f action r)
  · rw [List.getElem?_append_right (by omega)] at h
    exact ⟨by omega, h⟩

/-- Every call of a run is a call that some statement of `main` can make. -/
theorem run_function_mem (returns : Nat → Int) (fuel : Nat) (steps : List Step) :
    ∀ position : Nat, ∀ e ∈ (run returns fuel steps position).trace,
      e.function ∈ steps.flatMap Step.functions := by
  induction steps with
  | nil =>
    intro position e he
    simp [run] at he
  | cons step rest ih =>
    intro position e he
    rw [List.flatMap_cons, List.mem_append]
    have hshift : ∀ (events : List Event) (next : Nat),
        (∀ x ∈ events, x.function ∈ step.functions) →
        e ∈ ((run returns fuel rest next).after events).trace →
        e.function ∈ step.functions ∨ e.function ∈ rest.flatMap Step.functions := by
      intro events next hev hmem
      rw [after_trace, List.mem_append] at hmem
      rcases hmem with hm | hm
      · exact Or.inl (hev e hm)
      · exact Or.inr (ih next e hm)
    cases step with
    | call g =>
      rw [run_call] at he
      refine hshift _ _ ?_ he
      intro x hx
      simp only [List.mem_singleton] at hx
      rw [hx]
      simp [Event.function, Step.functions]
    | guarded g gaction =>
      by_cases hres : returns position ≠ VK_SUCCESS
      · rw [run_guarded_failure _ _ _ _ _ _ hres] at he
        simp only [List.mem_singleton] at he
        rw [he]
        left
        simp [Event.function, Step.functions]
      · rw [run_guarded_success _ _ _ _ _ _ hres] at he
        refine hshift _ _ ?_ he
        intro x hx
        simp only [List.mem_singleton] at hx
        rw [hx]
        simp [Event.function, Step.functions]
    | checked g expected message cleanup =>
      by_cases hres : returns position ≠ expected
      · rw [run_checked_failure _ _ _ _ _ _ _ _ hres] at he
        left
        simp only [List.mem_cons] at he
        rcases he with hc | hc
        · rw [hc]
          simp [Event.function, Step.functions]
        · have hmap : e.function ∈ (callEvents returns (position + 1) cleanup).map
              Event.function := List.mem_map_of_mem _ hc
          rw [callEvents_function] at hmap
          simp [Step.functions, hmap]
      · rw [run_checked_success _ _ _ _ _ _ _ _ hres] at he
        refine hshift _ _ ?_ he
        intro x hx
        simp only [List.mem_singleton] at hx
        rw [hx]
        simp [Event.function, Step.functions]
    | exitIf failure =>
      cases failure with
      | none =>
        rw [run_exitIf_none] at he
        exact Or.inr (ih position e he)
      | some message =>
        rw [run_exitIf_some] at he
        simp at he
    | eventLoop =>
      have hloop : ∀ x ∈ (eventLoop returns fuel position).1,
          x.function ∈ Step.eventLoop.functions := by
        intro x hx
        rcases eventLoop_function_mem _ _ _ x hx with h1 | h1 <;>
          simp [Step.functions, h1]
      by_cases hleft : (eventLoop returns fuel position).2 = true
      · rw [run_eventLoop_left _ _ _ _ hleft] at he
        exact hshift _ _ hloop he
      · rw [run_eventLoop_running _ _ _ _ hleft] at he
        exact Or.inl (hloop e he)

theorem run_setupOnly (returns : Nat → Int) (fuel : Nat) (steps : List Step)
    (hsteps : ∀ step ∈ steps, step.setupOnly = true) (position : Nat) :
    ∀ e ∈ (run returns fuel steps position).trace,
      e.function ∉ drawSubmitAcquirePresent := by
  intro e he hbad
  have hmem := run_function_mem returns fuel steps position e he
  rw [List.mem_flatMap] at hmem
  obtain ⟨step, hstep, hf⟩ := hmem
  have hall := hsteps step hstep
  rw [Step.setupOnly, List.all_eq_true] at hall
  have := hall _ hf
  simp only [Bool.not_eq_true', List.contains_eq_any_beq, List.any_eq_false, beq_iff_eq] at this
  exact this _ hbad rfl

theorem run_calls (returns : Nat → Int) (fuel : Nat) (names : List String) :
    ∀ position : Nat, run returns fuel (names.map Step.call) position =
      ⟨callEvents returns position names, some EXIT_SUCCESS, none⟩ := by
  induction names with
  | nil => intro position; rfl
  | cons f rest ih =>
    intro position
    rw [List.map_cons, run_call, ih]
    rfl

/-- When the event loop is left, it has made `n` iterations for some `n` below the bound:
the first `n` queries returned false, query `n` returned true, and the calls are those of
`n` iterations and the last query. -/
theorem eventLoop_left (returns : Nat → Int) : ∀ fuel position : Nat,
    (eventLoop returns fuel position).2 = true →
    ∃ n, n < fuel ∧ (∀ k, k < n → returns (position + 2 * k) = 0) ∧
      returns (position + 2 * n) ≠ 0 ∧
      (eventLoop returns fuel position).1.map Event.function = eventLoopCalls n := by
  intro fuel
  induction fuel with
  | zero => intro position h; simp [eventLoop] at h
  | succ fuel ih =>
    intro position h
    rw [eventLoop] at h ⊢
    by_cases hq : returns position ≠ 0
    · rw [if_pos hq]
      exact ⟨0, by omega, fun k hk => absurd hk (Nat.not_lt_zero k), by simpa using hq, rfl⟩
    · rw [if_neg hq] at h ⊢
      obtain ⟨n, hn, hfalse, htrue, hcalls⟩ := ih (position + 2) h
      refine ⟨n + 1, by omega, ?_, ?_, ?_⟩
      · intro k hk
        cases k with
        | zero => simpa using hq
        | succ k =>
          have := hfalse k (by omega)
          rw [← this]
          congr 1
          omega
      · have hpos : position + 2 * (n + 1) = position + 2 + 2 * n := by omega
        rw [hpos]
        exact htrue
      · simp only [List.map_cons, Event.function, hcalls]
        simp [eventLoopCalls, List.replicate_succ]

/-- The event loop is left as soon as a query returns true, if the bound allows for the
iterations before it. -/
theorem eventLoop_terminates (returns : Nat → Int) : ∀ n fuel position : Nat,
    (∀ k, k < n → returns (position + 2 * k) = 0) → returns (position + 2 * n) ≠ 0 →
    n < fuel → (eventLoop returns fuel position).2 = true := by
  intro n
  induction n with
  | zero =>
    intro fuel position _ htrue hfuel
    cases fuel with
    | zero => omega
    | succ fuel =>
      rw [eventLoop, if_pos (by simpa using htrue)]
  | succ n ih =>
    intro fuel position hfalse htrue hfuel
    cases fuel with
    | zero => omega
    | succ fuel =>
      have h0 : ¬ returns position ≠ 0 := by
        have := hfalse 0 (by omega)
        simpa using this
      rw [eventLoop, if_neg h0]
      apply ih fuel (position + 2)
      · intro k hk
        have := hfalse (k + 1) (by omega)
        rw [← this]
        congr 1
        omega
      · have hpos : position + 2 + 2 * n = position + 2 * (n + 1) := by omega
        rw [hpos]
        exact htrue
      · omega

theorem run_eventLoop_then_calls (returns : Nat → Int) (fuel : Nat) (cleanup : List String)
    (position : Nat) :
    run returns fuel (.eventLoop :: cleanup.map Step.call) position =
      if (eventLoop returns fuel position).2 = true then
        ⟨(eventLoop returns fuel position).1 ++
          callEvents returns (position + (eventLoop returns fuel position).1.length) cleanup,
          some EXIT_SUCCESS, none⟩
      else ⟨(eventLoop returns fuel position).1, none, none⟩ := by
  by_cases h : (eventLoop returns fuel position).2 = true
  · rw [run_eventLoop_left _ _ _ _ h, if_pos h, run_calls]
    rfl
  · rw [run_eventLoop_running _ _ _ _ h, if_neg h]

/-- A `main` made of setup statements, the event loop and cleanup calls. It returns
`EXIT_SUCCESS` only after a successful setup and an event loop of `n` iterations ended by
a query that returns true, followed by the cleanup calls; after a successful setup it
returns `EXIT_SUCCESS` as soon as a query returns true and never returns `EXIT_FAILURE`;
and a setup that fails is the whole run. -/
theorem run_setup_eventLoop_cleanup (returns : Nat → Int) (fuel : Nat) (setup : List Step)
    (cleanup : List String) :
    ((run returns fuel (setup ++ [.eventLoop] ++ cleanup.map Step.call) 0).exit =
        some EXIT_SUCCESS →
      (run returns fuel setup 0).exit = some EXIT_SUCCESS ∧
      ∃ n, n < fuel ∧
        (∀ k, k < n → returns ((run returns fuel setup 0).trace.length + 2 * k) = 0) ∧
        returns ((run returns fuel setup 0).trace.length + 2 * n) ≠ 0 ∧
        (run returns fuel (setup ++ [.eventLoop] ++ cleanup.map Step.call) 0).trace.map
            Event.function =
          (run returns fuel setup 0).trace.map Event.function ++ eventLoopCalls n ++
            cleanup) ∧
    ((run returns fuel setup 0).exit = some EXIT_SUCCESS →
      (∀ n, (∀ k, k < n → returns ((run returns fuel setup 0).trace.length + 2 * k) = 0) →
        returns ((run returns fuel setup 0).trace.length + 2 * n) ≠ 0 → n < fuel →
        (run returns fuel (setup ++ [.eventLoop] ++ cleanup.map Step.call) 0).exit =
          some EXIT_SUCCESS) ∧
      (run returns fuel (setup ++ [.eventLoop] ++ cleanup.map Step.call) 0).exit ≠
        some EXIT_FAILURE) ∧
    ((run returns fuel setup 0).exit ≠ some EXIT_SUCCESS →
      run returns fuel (setup ++ [.eventLoop] ++ cleanup.map Step.call) 0 =
        run returns fuel setup 0) := by
  have hshape : setup ++ [Step.eventLoop] ++ cleanup.map Step.call =
      setup ++ (Step.eventLoop :: cleanup.map Step.call) := by simp
  rw [hshape, run_append, run_eventLoop_then_calls, Nat.zero_add]
  by_cases hs : (run returns fuel setup 0).exit = some EXIT_SUCCESS
  · rw [if_pos hs]
    by_cases hl : (eventLoop returns fuel (run returns fuel setup 0).trace.length).2 = true
    · rw [if_pos hl]
      refine ⟨fun _ => ⟨hs, ?_⟩, fun _ => ⟨fun _ _ _ _ => rfl, ?_⟩,
        fun hne => absurd hs hne⟩
      · obtain ⟨n, hn, hfalse, htrue, hcalls⟩ := eventLoop_left returns fuel _ hl
        refine ⟨n, hn, hfalse, htrue, ?_⟩
        rw [after_trace]
        simp only [List.map_append, hcalls, callEvents_function, List.append_assoc]
      · rw [after_exit]
        exact fun h => exit_failure_ne_success h.symm
    · rw [if_neg hl]
      refine ⟨fun h => ?_, fun _ => ⟨fun n hfalse htrue hn => ?_, ?_⟩,
        fun hne => absurd hs hne⟩
      · rw [after_exit] at h
        cases h
      · exact absurd (eventLoop_terminates returns n fuel _ hfalse htrue hn) hl
      · rw [after_exit]
        intro h
        cases h
  · rw [if_neg hs]
    exact ⟨fun h => absurd h hs, fun h => absurd h hs, fun _ => rfl⟩

theorem queueFamilyLoopCalls_setupOnly (l : List QueueFamily) :
    (queueFamilyLoopCalls l).all Step.setupOnly = true := by
  induction l with
  | nil => rfl
  | cons a t ih =>
    rw [queueFamilyLoopCalls]
    split_ifs
    · rfl
    · rw [List.all_cons, ih]
      rfl

theorem physicalDeviceLoopCalls_setupOnly (wanted : Nat) (l : List Nat) :
    (physicalDeviceLoopCalls wanted l).all Step.setupOnly = true := by
  induction l with
  | nil => rfl
  | cons a t ih =>
    rw [physicalDeviceLoopCalls]
    split_ifs
    · rfl
    · rw [List.all_cons, List.all_cons, ih]
      rfl

theorem replicate_setupOnly (n : Nat) (step : Step) (h : step.setupOnly = true) :
    (List.replicate n step).all Step.setupOnly = true := by
  rw [List.all_eq_true]
  intro x hx
  rw [(List.mem_replicate.mp hx).2]
  exact h

theorem main_setupOnly_00_instance : Sample00Instance.main.all Step.setupOnly = true := by
  decide

theorem main_setupOnly_00_physical_device :
    Sample00PhysicalDevice.main.all Step.setupOnly = true := by
  decide

theorem main_setupOnly_03 (inputs : Inputs) :
    (Sample03.main inputs).all Step.setupOnly = true := by
  rw [Sample03.main, Sample03.setup]
  simp only [List.all_append, Bool.and_eq_true]
  refine ⟨⟨⟨?_, ?_⟩, ?_⟩, ?_⟩
  · rfl
  · exact physicalDeviceLoopCalls_setupOnly _ _
  · rfl
  · rfl

theorem main_setupOnly_04 (inputs : Inputs) :
    (Sample04.main inputs).all Step.setupOnly = true := by
  rw [Sample04.main, Sample04.setup]
  simp only [List.all_append, Bool.and_eq_true]
  refine ⟨⟨⟨⟨⟨⟨?_, ?_⟩, ?_⟩, ?_⟩, ?_⟩, ?_⟩, ?_⟩
  · rfl
  · exact physicalDeviceLoopCalls_setupOnly _ _
  · rfl
  · exact queueFamilyLoopCalls_setupOnly _
  · rfl
  · exact replicate_setupOnly _ _ rfl
  · rfl

theorem main_setupOnly_09 (inputs : Inputs) :
    (Sample09.main inputs).all Step.setupOnly = true := by
  rw [Sample09.main, Sample09.setup]
  simp only [List.all_append, Bool.and_eq_true]
  refine ⟨⟨⟨⟨⟨⟨⟨?_, ?_⟩, ?_⟩, ?_⟩, ?_⟩, ?_⟩, ?_⟩, ?_⟩
  · rfl
  · exact physicalDeviceLoopCalls_setupOnly _ _
  · rfl
  · exact queueFamilyLoopCalls_setupOnly _
  · rfl
  · exact replicate_setupOnly _ _ rfl
  · rfl
  · rfl

theorem main_setupOnly_13 (inputs : Inputs) :
    (Sample13.main inputs).all Step.setupOnly = true := by
  rw [Sample13.main, Sample13.setup]
  simp only [List.all_append, Bool.and_eq_true]
  refine ⟨⟨⟨⟨⟨⟨⟨⟨⟨?_, ?_⟩, ?_⟩, ?_⟩, ?_⟩, ?_⟩, ?_⟩, ?_⟩, ?_⟩, ?_⟩
  · rfl
  · exact physicalDeviceLoopCalls_setupOnly _ _
  · rfl
  · exact queueFamilyLoopCalls_setupOnly _
  · rfl
  · exact replicate_setupOnly _ _ rfl
  · rfl
  · exact replicate_setupOnly _ _ rfl
  · rfl
  · rfl

/-- C15, as stated, fails in sample 00-instance-and-physical-device-selection: when its
setup has succeeded (9 calls) and the first query of `glfwWindowShouldClose` returns true,
`main` calls `vkDestroyInstance`, `glfwDestroyWindow` and `glfwTerminate` before it
returns `EXIT_SUCCESS`. -/
theorem main_00_physical_device_calls_cleanup :
    (run exampleReturnsClose 1 Sample00PhysicalDevice.setup 0).exit = some EXIT_SUCCESS ∧
    (run exampleReturnsClose 1 Sample00PhysicalDevice.setup 0).trace.length = 9 ∧
    (run exampleReturnsClose 1 Sample00PhysicalDevice.main 0).exit = some EXIT_SUCCESS ∧
    ((run exampleReturnsClose 1 Sample00PhysicalDevice.main 0).trace.map Event.function).drop
        9 =
      ["glfwWindowShouldClose", "vkDestroyInstance", "glfwDestroyWindow", "glfwTerminate"] ∧
    ¬ (∀ f ∈ ((run exampleReturnsClose 1 Sample00PhysicalDevice.main 0).trace.map
        Event.function).drop 9, f = "glfwWindowShouldClose" ∨ f = "glfwPollEvents") := by
  decide

theorem main_event_loop_shape (returns : Nat → Int) (fuel : Nat)
    (main setup : List Step) (cleanup : List String)
    (hshape : main = setup ++ [.eventLoop] ++ cleanup.map Step.call)
    (hall : main.all Step.setupOnly = true) :
    (∀ e ∈ (run returns fuel main 0).trace, e.function ∉ drawSubmitAcquirePresent) ∧
    ((run returns fuel main 0).exit = some EXIT_SUCCESS →
      (run returns fuel setup 0).exit = some EXIT_SUCCESS ∧
      ∃ n, n < fuel ∧
        (∀ k, k < n → returns ((run returns fuel setup 0).trace.length + 2 * k) = 0) ∧
        returns ((run returns fuel setup 0).trace.length + 2 * n) ≠ 0 ∧
        (run returns fuel main 0).trace.map Event.function =
          (run returns fuel setup 0).trace.map Event.function ++ eventLoopCalls n ++
            cleanup) ∧
    ((run returns fuel setup 0).exit = some EXIT_SUCCESS →
      (∀ n, (∀ k, k < n → returns ((run returns fuel setup 0).trace.length + 2 * k) = 0) →
        returns ((run returns fuel setup 0).trace.length + 2 * n) ≠ 0 → n < fuel →
        (run returns fuel main 0).exit = some EXIT_SUCCESS) ∧
      (run returns fuel main 0).exit ≠ some EXIT_FAILURE) := by
  have h := run_setup_eventLoop_cleanup returns fuel setup cleanup
  rw [← hshape] at h
  exact ⟨run_setupOnly returns fuel main (List.all_eq_true.mp hall) 0, h.1, h.2.1⟩

/-- C15, amended. In each of the six samples, for all values returned by the API calls,
no call of a draw, queue-submit, image-acquire or present function is made. When `main`
returns `EXIT_SUCCESS`, its setup has succeeded and the calls after the setup are `n`
rounds of `glfwWindowShouldClose` (returning false) and `glfwPollEvents`, one more
`glfwWindowShouldClose` (returning true) and then the cleanup calls of the sample: none,
except `vkDestroyInstance`, `glfwDestroyWindow` and `glfwTerminate` in sample
00-instance-and-physical-device-selection. After a successful setup `main` returns
`EXIT_SUCCESS` once a query returns true, and it never returns `EXIT_FAILURE`. -/
theorem main_event_loop_only (inputs : Inputs) (returns : Nat → Int) (fuel : Nat) :
    ∀ sample ∈ [
        (Sample00Instance.main, Sample00Instance.setup, ([] : List String)),
        (Sample00PhysicalDevice.main, Sample00PhysicalDevice.setup,
          ["vkDestroyInstance", "glfwDestroyWindow", "glfwTerminate"]),
        (Sample03.main inputs, Sample03.setup inputs, []),
        (Sample04.main inputs, Sample04.setup inputs, []),
        (Sample09.main inputs, Sample09.setup inputs, []),
        (Sample13.main inputs, Sample13.setup inputs, [])],
      (∀ e ∈ (run returns fuel sample.1 0).trace, e.function ∉ drawSubmitAcquirePresent) ∧
      ((run returns fuel sample.1 0).exit = some EXIT_SUCCESS →
        (run returns fuel sample.2.1 0).exit = some EXIT_SUCCESS ∧
        ∃ n, n < fuel ∧
          (∀ k, k < n →
            returns ((run returns fuel sample.2.1 0).trace.length + 2 * k) = 0) ∧
          returns ((run returns fuel sample.2.1 0).trace.length + 2 * n) ≠ 0 ∧
          (run returns fuel sample.1 0).trace.map Event.function =
            (run returns fuel sample.2.1 0).trace.map Event.function ++ eventLoopCalls n ++
              sample.2.2) ∧
      ((run returns fuel sample.2.1 0).exit = some EXIT_SUCCESS →
        (∀ n, (∀ k, k < n →
            returns ((run returns fuel sample.2.1 0).trace.length + 2 * k) = 0) →
          returns ((run returns fuel sample.2.1 0).trace.length + 2 * n) ≠ 0 → n < fuel →
          (run returns fuel sample.1 0).exit = some EXIT_SUCCESS) ∧
        (run returns fuel sample.1 0).exit ≠ some EXIT_FAILURE) := by
  intro sample hsample
  simp only [List.mem_cons, List.mem_singleton, List.mem_nil_iff, or_false] at hsample
  rcases hsample with h | h | h | h | h | h <;> subst h
  · exact main_event_loop_shape returns fuel _ _ _ (by simp [Sample00Instance.main])
      main_setupOnly_00_instance
  · exact main_event_loop_shape returns fuel _ _ _ rfl main_setupOnly_00_physical_device
  · exact main_event_loop_shape returns fuel _ _ _ (by simp [Sample03.main])
      (main_setupOnly_03 inputs)
  · exact main_event_loop_shape returns fuel _ _ _ (by simp [Sample04.main])
      (main_setupOnly_04 inputs)
  · exact main_event_loop_shape returns fuel _ _ _ (by simp [Sample09.main])
      (main_setupOnly_09 inputs)
  · exact main_event_loop_shape returns fuel _ _ _ (by simp [Sample13.main])
      (main_setupOnly_13 inputs)

/-- Witness of C15 amended: sample 00-init-instance whose second query of
`glfwWindowShouldClose` (call 9) returns true makes one round of the event loop and
returns `EXIT_SUCCESS`. -/
theorem main_event_loop_only_witness :
    (run exampleReturnsClose 2 Sample00Instance.main 0).exit = some EXIT_SUCCESS ∧
    ((run exampleReturnsClose 2 Sample00Instance.main 0).trace.map Event.function).drop 7 =
      ["glfwWindowShouldClose", "glfwPollEvents", "glfwWindowShouldClose"] ∧
    (∀ e ∈ (run exampleReturnsClose 2 Sample00Instance.main 0).trace,
      e.function ∉ drawSubmitAcquirePresent) ∧
    (run exampleReturnsClose 2 Sample00Instance.setup 0).exit = some EXIT_SUCCESS :=
  ⟨by decide, by decide,
    (main_event_loop_only exampleInputs exampleReturnsClose 2
      (Sample00Instance.main, Sample00Instance.setup, []) (by simp)).1,
    ((main_event_loop_only exampleInputs exampleReturnsClose 2
      (Sample00Instance.main, Sample00Instance.setup, []) (by simp)).2.1 (by decide)).1⟩

/-! ### Depth tiling, extent bounds and present-mode support -/

theorem and_two_pow_ne_zero_iff (x i : Nat) : x &&& 2 ^ i ≠ 0 ↔ x.testBit i = true := by
  constructor
  · intro h
    by_contra hbit
    apply h
    apply Nat.eq_of_testBit_eq
    intro j
    rw [Nat.testBit_and, Nat.zero_testBit, Nat.testBit_two_pow]
    by_cases hj : i = j
    · subst hj
      simp [hbit]
    · simp [hj]
  · intro hbit h
    have := Nat.testBit_and x (2 ^ i) i
    rw [h, Nat.zero_testBit, hbit, Nat.testBit_two_pow_self] at this
    simp at this

theorem depth_image_tiling_eq_13 : Sample13.depth_image_tiling = Sample09.depth_image_tiling :=
  rfl

theorem depth_image_tiling_step_eq_13 :
    Sample13.depth_image_tiling_step = Sample09.depth_image_tiling_step := rfl

theorem depth_image_tiling_spec (properties : VkFormatProperties) :
    (properties.linearTilingFeatures &&& VK_FORMAT_FEATURE_DEPTH_STENCIL_ATTACHMENT_BIT ≠ 0 →
      Sample09.depth_image_tiling properties = VK_IMAGE_TILING_LINEAR ∧
      Sample09.depth_image_tiling_step properties = .ok VK_IMAGE_TILING_LINEAR) ∧
    (¬ properties.linearTilingFeatures &&&
        VK_FORMAT_FEATURE_DEPTH_STENCIL_ATTACHMENT_BIT ≠ 0 →
      properties.optimalTilingFeatures &&&
        VK_FORMAT_FEATURE_DEPTH_STENCIL_ATTACHMENT_BIT ≠ 0 →
      Sample09.depth_image_tiling properties = VK_IMAGE_TILING_OPTIMAL ∧
      Sample09.depth_image_tiling_step properties = .ok VK_IMAGE_TILING_OPTIMAL) ∧
    ((∃ message, Sample09.depth_image_tiling_step properties = .error message) ↔
      (¬ properties.linearTilingFeatures &&&
          VK_FORMAT_FEATURE_DEPTH_STENCIL_ATTACHMENT_BIT ≠ 0 ∧
        ¬ properties.optimalTilingFeatures &&&
          VK_FORMAT_FEATURE_DEPTH_STENCIL_ATTACHMENT_BIT ≠ 0)) := by
  have hlin : VK_IMAGE_TILING_LINEAR ≠ VK_IMAGE_TILING_MAX_ENUM := by decide
  have hopt : VK_IMAGE_TILING_OPTIMAL ≠ VK_IMAGE_TILING_MAX_ENUM := by decide
  by_cases h1 : properties.linearTilingFeatures &&&
      VK_FORMAT_FEATURE_DEPTH_STENCIL_ATTACHMENT_BIT ≠ 0
  · have ht : Sample09.depth_image_tiling properties = VK_IMAGE_TILING_LINEAR := by
      rw [Sample09.depth_image_tiling, if_pos h1]
    have hs : Sample09.depth_image_tiling_step properties = .ok VK_IMAGE_TILING_LINEAR := by
      rw [Sample09.depth_image_tiling_step, ht, if_neg hlin]
    refine ⟨fun _ => ⟨ht, hs⟩, fun h => absurd h1 h, ?_⟩
    rw [hs]
    exact ⟨fun ⟨_, h⟩ => (by cases h), fun h => absurd h1 h.1⟩
  · by_cases h2 : properties.optimalTilingFeatures &&&
        VK_FORMAT_FEATURE_DEPTH_STENCIL_ATTACHMENT_BIT ≠ 0
    · have ht : Sample09.depth_image_tiling properties = VK_IMAGE_TILING_OPTIMAL := by
        rw [Sample09.depth_image_tiling, if_neg h1, if_pos h2]
      have hs : Sample09.depth_image_tiling_step properties =
          .ok VK_IMAGE_TILING_OPTIMAL := by
        rw [Sample09.depth_image_tiling_step, ht, if_neg hopt]
      refine ⟨fun h => absurd h h1, fun _ _ => ⟨ht, hs⟩, ?_⟩
      rw [hs]
      exact ⟨fun ⟨_, h⟩ => (by cases h), fun h => absurd h2 h.2⟩
    · have ht : Sample09.depth_image_tiling properties = VK_IMAGE_TILING_MAX_ENUM := by
        rw [Sample09.depth_image_tiling, if_neg h1, if_neg h2]
      have hs : Sample09.depth_image_tiling_step properties =
          .error "Depth image format 124 not supported." := by
        rw [Sample09.depth_image_tiling_step, ht, if_pos rfl]
      refine ⟨fun h => absurd h h1, fun _ h => absurd h h2, ?_⟩
      rw [hs]
      exact ⟨fun _ => ⟨h1, h2⟩, fun _ => ⟨_, rfl⟩⟩

/-- C26. Depth image tiling pick of samples 09 and 13, for every pair of feature masks:
the tiling is `VK_IMAGE_TILING_LINEAR` when `linearTilingFeatures` has
`VK_FORMAT_FEATURE_DEPTH_STENCIL_ATTACHMENT_BIT` (bit 9), whatever the optimal features
are; otherwise `VK_IMAGE_TILING_OPTIMAL` when `optimalTilingFeatures` has the bit; and
`main` returns `EXIT_FAILURE` at this step exactly when neither mask has the bit. -/
theorem depth_image_tiling_pick (properties : VkFormatProperties) :
    ∀ sample ∈ [(Sample09.depth_image_tiling, Sample09.depth_image_tiling_step),
        (Sample13.depth_image_tiling, Sample13.depth_image_tiling_step)],
      (properties.linearTilingFeatures.testBit 9 = true →
        sample.1 properties = VK_IMAGE_TILING_LINEAR ∧
        sample.2 properties = .ok VK_IMAGE_TILING_LINEAR) ∧
      (properties.linearTilingFeatures.testBit 9 = false →
        properties.optimalTilingFeatures.testBit 9 = true →
        sample.1 properties = VK_IMAGE_TILING_OPTIMAL ∧
        sample.2 properties = .ok VK_IMAGE_TILING_OPTIMAL) ∧
      ((∃ message, sample.2 properties = .error message) ↔
        (properties.linearTilingFeatures.testBit 9 = false ∧
          properties.optimalTilingFeatures.testBit 9 = false)) ∧
      VK_FORMAT_FEATURE_DEPTH_STENCIL_ATTACHMENT_BIT = 2 ^ 9 := by
  intro sample hsample
  have hs : sample = (Sample09.depth_image_tiling, Sample09.depth_image_tiling_step) := by
    simp only [depth_image_tiling_eq_13, depth_image_tiling_step_eq_13, List.mem_cons,
      List.mem_singleton, List.mem_nil_iff, or_false, or_self] at hsample
    exact hsample
  subst hs
  have hbit : VK_FORMAT_FEATURE_DEPTH_STENCIL_ATTACHMENT_BIT = 2 ^ 9 := by decide
  have h := depth_image_tiling_spec properties
  rw [hbit] at h
  simp only [and_two_pow_ne_zero_iff, Bool.not_eq_true] at h
  exact ⟨h.1, h.2.1, h.2.2, hbit⟩

/-- Witness of C26: both masks have the bit and sample 13 picks linear tiling; none has
it and the step fails. -/
theorem depth_image_tiling_pick_witness :
    (⟨0x200, 0x200, 0⟩ : VkFormatProperties).linearTilingFeatures.testBit 9 = true ∧
    Sample13.depth_image_tiling ⟨0x200, 0x200, 0⟩ = VK_IMAGE_TILING_LINEAR ∧
    ∃ message, Sample13.depth_image_tiling_step ⟨0x1FF, 0x400, 0⟩ = .error message :=
  ⟨by decide,
    ((depth_image_tiling_pick ⟨0x200, 0x200, 0⟩
      (Sample13.depth_image_tiling, Sample13.depth_image_tiling_step) (by simp)).1
      (by decide)).1,
    (depth_image_tiling_pick ⟨0x1FF, 0x400, 0⟩
      (Sample13.depth_image_tiling, Sample13.depth_image_tiling_step) (by simp)).2.2.1.mpr
      ⟨by decide, by decide⟩⟩

/-- C27. Swapchain extent bounds of samples 04, 09 and 13: when
`currentExtent.width = 0xFFFFFFFF` and the minimum image extent is at most the maximum
in both components, the selected extent lies between them in both components, and it is
`(640, 480)` exactly when 640 and 480 lie within the respective bounds. -/
theorem extent_within_bounds (surface_capabilities : VkSurfaceCapabilitiesKHR)
    (hcurrent : surface_capabilities.currentExtent.width = 0xFFFFFFFF)
    (hwidth : surface_capabilities.minImageExtent.width ≤
      surface_capabilities.maxImageExtent.width)
    (hheight : surface_capabilities.minImageExtent.height ≤
      surface_capabilities.maxImageExtent.height) :
    ∀ pick ∈ [Sample04.extent, Sample09.extent, Sample13.extent],
      surface_capabilities.minImageExtent.width ≤ (pick surface_capabilities).width ∧
      (pick surface_capabilities).width ≤ surface_capabilities.maxImageExtent.width ∧
      surface_capabilities.minImageExtent.height ≤ (pick surface_capabilities).height ∧
      (pick surface_capabilities).height ≤ surface_capabilities.maxImageExtent.height ∧
      (pick surface_capabilities = ⟨640, 480⟩ ↔
        (surface_capabilities.minImageExtent.width ≤ 640 ∧
          640 ≤ surface_capabilities.maxImageExtent.width ∧
          surface_capabilities.minImageExtent.height ≤ 480 ∧
          480 ≤ surface_capabilities.maxImageExtent.height)) := by
  intro pick hpick
  have hp : pick = Sample04.extent := by
    simp only [extent_eq_09, extent_eq_13, List.mem_cons, List.mem_singleton,
      List.mem_nil_iff, or_false, or_self] at hpick
    exact hpick
  subst hp
  have h2 : ¬ surface_capabilities.currentExtent.width ≠ UINT32_MAX := fun hne => hne hcurrent
  simp only [Sample04.extent, if_neg h2, Sample04.c_width, Sample04.c_height, std_clamp,
    VkExtent2D.mk.injEq]
  refine ⟨?_, ?_, ?_, ?_, ?_⟩
  · omega
  · omega
  · omega
  · omega
  · constructor
    · rintro ⟨hw, hh⟩
      omega
    · rintro ⟨h1, h2, h3, h4⟩
      constructor
      · omega
      · omega

/-- Witness of C27: bounds `[700, 800] x [100, 900]` give the extent `700 x 480`, inside
the bounds and different from `640 x 480`. -/
theorem extent_within_bounds_witness :
    (⟨2, ⟨0xFFFFFFFF, 0xFFFFFFFF⟩, ⟨700, 100⟩, ⟨800, 900⟩, 1⟩ :
      VkSurfaceCapabilitiesKHR).currentExtent.width = 0xFFFFFFFF ∧
    Sample04.extent ⟨2, ⟨0xFFFFFFFF, 0xFFFFFFFF⟩, ⟨700, 100⟩, ⟨800, 900⟩, 1⟩ = ⟨700, 480⟩ ∧
    700 ≤ (Sample04.extent
      ⟨2, ⟨0xFFFFFFFF, 0xFFFFFFFF⟩, ⟨700, 100⟩, ⟨800, 900⟩, 1⟩).width :=
  ⟨rfl, by decide,
    (extent_within_bounds ⟨2, ⟨0xFFFFFFFF, 0xFFFFFFFF⟩, ⟨700, 100⟩, ⟨800, 900⟩, 1⟩ rfl
      (by decide) (by decide) Sample04.extent (by simp)).1⟩

/-- C28. Support of the selected present mode in samples 04, 09 and 13: for a list of
present modes that contains `VK_PRESENT_MODE_FIFO_KHR` the selected mode is a member of the
list; for a list with none of MAILBOX, IMMEDIATE and FIFO, the empty list among them, the
selected mode is `VK_PRESENT_MODE_FIFO_KHR`, which is not a member of the list. -/
theorem present_mode_supported (present_modes : List Nat) :
    ∀ pick ∈ [Sample04.present_mode, Sample09.present_mode, Sample13.present_mode],
      (VK_PRESENT_MODE_FIFO_KHR ∈ present_modes → pick present_modes ∈ present_modes) ∧
      (VK_PRESENT_MODE_MAILBOX_KHR ∉ present_modes →
        VK_PRESENT_MODE_IMMEDIATE_KHR ∉ present_modes →
        VK_PRESENT_MODE_FIFO_KHR ∉ present_modes →
        pick present_modes = VK_PRESENT_MODE_FIFO_KHR ∧
          pick present_modes ∉ present_modes) ∧
      pick [] = VK_PRESENT_MODE_FIFO_KHR := by
  intro pick hpick
  have hp : pick = Sample04.present_mode := by
    simp only [present_mode_eq_09, present_mode_eq_13, List.mem_cons, List.mem_singleton,
      List.mem_nil_iff, or_false, or_self] at hpick
    exact hpick
  subst hp
  refine ⟨?_, ?_, rfl⟩
  · intro hfifo
    rw [present_mode_spec_04]
    split_ifs with h1 h2
    · exact h1
    · exact h2
    · exact hfifo
  · intro h1 h2 h3
    rw [present_mode_spec_04, if_neg h1, if_neg h2]
    exact ⟨rfl, h3⟩

/-- Witness of C28: sample 09 on a list with FIFO and IMMEDIATE selects a member, and on
a list with only FIFO_RELAXED selects FIFO, which the list does not have. -/
theorem present_mode_supported_witness :
    Sample09.present_mode [2, 0] ∈ [2, 0] ∧
    Sample09.present_mode [3] = VK_PRESENT_MODE_FIFO_KHR ∧
    Sample09.present_mode [3] ∉ [3] :=
  ⟨(present_mode_supported [2, 0] Sample09.present_mode (by simp)).1 (by decide),
    (present_mode_supported [3] Sample09.present_mode (by simp)).2.1 (by decide) (by decide)
      (by decide)⟩

/-! ### Clip matrix, winding and render-target sizes -/

/-- C30. Clip-space correction matrix of samples 09 and 13, read as a column-major 4x4
matrix over the rationals: for every vector `(x, y, z, w)` the product `c_clip * v` is
`(x, -y, (z + w) / 2, w)`. It flips `y`, leaves `x` and `w` unchanged and maps the depth
`-w` to `0`, the depth `w` to `w` and every depth between `-w` and `w` to a depth between
`0` and `w`. -/
theorem c_clip_mulVec (x y z w : ℚ) :
    Sample09.c_clip.mulVec ⟨x, y, z, w⟩ = ⟨x, -y, (z + w) / 2, w⟩ ∧
    Sample13.c_clip.mulVec ⟨x, y, z, w⟩ = ⟨x, -y, (z + w) / 2, w⟩ ∧
    (Sample13.c_clip.mulVec ⟨x, y, -w, w⟩).z = 0 ∧
    (Sample13.c_clip.mulVec ⟨x, y, w, w⟩).z = w ∧
    (∀ m ∈ [Sample09.c_clip, Sample13.c_clip], -w ≤ z → z ≤ w →
      0 ≤ (m.mulVec ⟨x, y, z, w⟩).z ∧ (m.mulVec ⟨x, y, z, w⟩).z ≤ w) := by
  have h09 : Sample09.c_clip.mulVec ⟨x, y, z, w⟩ = ⟨x, -y, (z + w) / 2, w⟩ := by
    simp only [mat4.mulVec, vec4.add, vec4.scale, Sample09.c_clip, vec4.mk.injEq]
    refine ⟨by ring, by ring, by ring, by ring⟩
  have h13 : Sample13.c_clip.mulVec ⟨x, y, z, w⟩ = ⟨x, -y, (z + w) / 2, w⟩ := by
    simp only [mat4.mulVec, vec4.add, vec4.scale, Sample13.c_clip, vec4.mk.injEq]
    refine ⟨by ring, by ring, by ring, by ring⟩
  refine ⟨h09, h13, ?_, ?_, ?_⟩
  · simp only [mat4.mulVec, vec4.add, vec4.scale, Sample13.c_clip]
    ring
  · simp only [mat4.mulVec, vec4.add, vec4.scale, Sample13.c_clip]
    ring
  · intro m hm hlow hhigh
    have hz : (m.mulVec ⟨x, y, z, w⟩).z = (z + w) / 2 := by
      simp only [List.mem_cons, List.mem_singleton, List.mem_nil_iff, or_false] at hm
      rcases hm with hm | hm
      · rw [hm, h09]
      · rw [hm, h13]
    rw [hz]
    constructor
    · linarith
    · linarith

/-- Witness of C30: the vector `(1, 2, 0, 1)` has its depth `0` between `-1` and `1`; its
image is `(1, -2, 1 / 2, 1)`, with a depth between `0` and `1`. -/
theorem c_clip_mulVec_witness :
    Sample09.c_clip.mulVec ⟨1, 2, 0, 1⟩ = ⟨1, -2, (0 + 1) / 2, 1⟩ ∧
    (-1 : ℚ) ≤ 0 ∧ (0 : ℚ) ≤ 1 ∧
    0 ≤ (Sample13.c_clip.mulVec ⟨1, 2, 0, 1⟩).z ∧
    (Sample13.c_clip.mulVec ⟨1, 2, 0, 1⟩).z ≤ 1 :=
  ⟨(c_clip_mulVec 1 2 0 1).1, by norm_num, by norm_num,
    (c_clip_mulVec 1 2 0 1).2.2.2.2 Sample13.c_clip (by simp) (by norm_num) (by norm_num)⟩

/-- C24. Consistent winding of the cube of sample 13: each of the 12 triangles
`(A, B, C)`, taken in row order, lies in exactly one face plane of the cube, and the
scalar triple product `((B - A) x (C - A)) . n` with the outward unit normal `n` of that
face is `-4` for every triangle, so all triangles have the same orientation seen from
outside; the rasterization state has one front face and one cull mode for all of them. -/
theorem c_cube_vertices_winding :
    (∀ i ∈ List.range 12,
      constantAxes (Sample13.triangleRows i) =
        constantAxes ((Sample13.face (i / 2)).map rowPosition) ∧
      (constantAxes (Sample13.triangleRows i)).length = 1) ∧
    (∀ i ∈ List.range 12, ∀ plane ∈ constantAxes (Sample13.triangleRows i),
      windingProduct (Sample13.triangleRows i) (outwardNormal plane.1 plane.2) = -4) ∧
    (List.range 12).map (fun i =>
      (constantAxes (Sample13.triangleRows i)).map fun plane =>
        windingProduct (Sample13.triangleRows i) (outwardNormal plane.1 plane.2)) =
      List.replicate 12 [-4] ∧
    Sample13.rs_state_info.frontFace = VK_FRONT_FACE_CLOCKWISE ∧
    Sample13.rs_state_info.cullMode = VK_CULL_MODE_BACK_BIT := by
  decide

/-- C25, evaluated on the code. The depth image and the framebuffers of sample 13 are
always `640 x 480`, the constants `c_width` and `c_height`, while the swapchain images
have the extent selected from the surface capabilities. For a surface whose current
extent is `800 x 600` the swapchain images are `800 x 600` and the depth image and the
framebuffers `640 x 480`; for a current extent of `320 x 240` the framebuffers are larger
than the swapchain images attached to them; the sizes agree exactly when the selected
extent is `640 x 480`. -/
theorem render_target_size_differs_from_swapchain :
    (Sample13.swapchain_info ⟨2, ⟨800, 600⟩, ⟨800, 600⟩, ⟨800, 600⟩, 1⟩ ⟨44, 0⟩ 2
      (Sample13.extent ⟨2, ⟨800, 600⟩, ⟨800, 600⟩, ⟨800, 600⟩, 1⟩) 0 0).imageExtent =
      ⟨800, 600⟩ ∧
    (Sample13.depth_image_info VK_IMAGE_TILING_OPTIMAL).extent = ⟨640, 480, 1⟩ ∧
    (Sample13.fb_info.width, Sample13.fb_info.height) = (640, 480) ∧
    (Sample13.fb_info.width, Sample13.fb_info.height) ≠
      ((Sample13.extent ⟨2, ⟨800, 600⟩, ⟨800, 600⟩, ⟨800, 600⟩, 1⟩).width,
       (Sample13.extent ⟨2, ⟨800, 600⟩, ⟨800, 600⟩, ⟨800, 600⟩, 1⟩).height) ∧
    (Sample13.extent ⟨2, ⟨320, 240⟩, ⟨320, 240⟩, ⟨320, 240⟩, 1⟩ = ⟨320, 240⟩ ∧
      (Sample13.extent ⟨2, ⟨320, 240⟩, ⟨320, 240⟩, ⟨320, 240⟩, 1⟩).width <
        Sample13.fb_info.width ∧
      (Sample13.extent ⟨2, ⟨320, 240⟩, ⟨320, 240⟩, ⟨320, 240⟩, 1⟩).height <
        Sample13.fb_info.height) ∧
    (∀ (surface_capabilities : VkSurfaceCapabilitiesKHR) (tiling : Nat),
      ((Sample13.fb_info.width = (Sample13.extent surface_capabilities).width ∧
        Sample13.fb_info.height = (Sample13.extent surface_capabilities).height ∧
        (Sample13.depth_image_info tiling).extent.width =
          (Sample13.extent surface_capabilities).width ∧
        (Sample13.depth_image_info tiling).extent.height =
          (Sample13.extent surface_capabilities).height) ↔
        Sample13.extent surface_capabilities = ⟨640, 480⟩)) := by
  refine ⟨by decide, by decide, by decide, by decide, by decide, ?_⟩
  intro surface_capabilities tiling
  simp only [Sample13.fb_info, Sample13.depth_image_info, Sample13.c_width,
    Sample13.c_height]
  constructor
  · rintro ⟨h1, h2, _, _⟩
    cases hE : Sample13.extent surface_capabilities with
    | mk width height =>
      rw [hE] at h1 h2
      simp only at h1 h2
      rw [← h1, ← h2]
  · intro h
    rw [h]
    exact ⟨rfl, rfl, rfl, rfl⟩

/-! ### Embedded shaders -/

theorem instructionWalk_add_fuel (words : List Nat) (extra : Nat) :
    ∀ (fuel position : Nat) (positions : List Nat),
      instructionWalk words fuel position = some positions →
      instructionWalk words (fuel + extra) position = some positions := by
  intro fuel
  induction fuel with
  | zero => intro position positions h; simp [instructionWalk] at h
  | succ fuel ih =>
    intro position positions h
    rw [Nat.add_right_comm]
    simp only [instructionWalk] at h ⊢
    by_cases h1 : position = words.length
    · rw [if_pos h1] at h ⊢; exact h
    · rw [if_neg h1] at h ⊢
      by_cases h2 : words.length < position
      · rw [if_pos h2] at h; cases h
      · rw [if_neg h2] at h ⊢
        by_cases h3 : wordCount (words.getD position 0) = 0
        · rw [if_pos h3] at h; cases h
        · rw [if_neg h3] at h ⊢
          cases hrest : instructionWalk words fuel
              (position + wordCount (words.getD position 0)) with
          | none => rw [hrest] at h; cases h
          | some rest => rw [hrest] at h; rw [ih _ _ hrest]; exact h

set_option maxRecDepth 20000 in
/-- C22. Shader module sizes of sample 13: the `codeSize` of each of the two shader
module infos is the byte length of its array, 1156 for `c_vert_shader` and 452 for
`c_frag_shader`; both are non-zero multiples of 4 and at least 20, the size of the 5-word
header, and the first little-endian word of each array is the magic number
`0x07230203`. -/
theorem shader_module_sizes_valid :
    Sample13.vert_shader_module_info.codeSize = Sample13.c_vert_shader.length ∧
    Sample13.frag_shader_module_info.codeSize = Sample13.c_frag_shader.length ∧
    Sample13.vert_shader_module_info.pCode = Sample13.c_vert_shader ∧
    Sample13.frag_shader_module_info.pCode = Sample13.c_frag_shader ∧
    [Sample13.vert_shader_module_info.codeSize,
      Sample13.frag_shader_module_info.codeSize] = [1156, 452] ∧
    (∀ info ∈ [Sample13.vert_shader_module_info, Sample13.frag_shader_module_info],
      info.codeSize ≠ 0 ∧ info.codeSize % 4 = 0 ∧ 20 ≤ info.codeSize ∧
      (littleEndianWords info.pCode).length * 4 = info.codeSize ∧
      (littleEndianWords info.pCode)[0]? = some 0x07230203) := by
  refine ⟨rfl, rfl, rfl, rfl, by decide, by decide⟩

set_option maxRecDepth 20000 in
/-- C29. Framing of the instruction streams of sample 13: in the little-endian words of
`c_vert_shader` and of `c_frag_shader`, the walk that starts at word 5 and advances by the
word count in the high 16 bits of each first word succeeds, with any fuel above the number
of words: no instruction has the word count zero, every instruction ends inside the
array, the last instruction ends exactly at the end of the array, and that instruction is
`OpFunctionEnd` (opcode 56). The vertex shader has 66 instructions in 289 words, the
fragment shader 27 instructions in 113 words. -/
theorem shader_instruction_streams_well_framed :
    (∀ code ∈ [Sample13.c_vert_shader, Sample13.c_frag_shader],
      (instructionPositions (littleEndianWords code)).isSome = true ∧
      (∀ position ∈ (instructionPositions (littleEndianWords code)).getD [],
        wordCount ((littleEndianWords code).getD position 0) ≠ 0 ∧
        position + wordCount ((littleEndianWords code).getD position 0) ≤
          (littleEndianWords code).length) ∧
      (((instructionPositions (littleEndianWords code)).getD []).map fun position =>
        wordCount ((littleEndianWords code).getD position 0)).sum + 5 =
        (littleEndianWords code).length ∧
      (((instructionPositions (littleEndianWords code)).getD []).getLast?.map
        fun position =>
          (opcode ((littleEndianWords code).getD position 0),
            position + wordCount ((littleEndianWords code).getD position 0))) =
        some (56, (littleEndianWords code).length)) ∧
    SpvOpFunctionEnd = 56 ∧
    (∀ code ∈ [Sample13.c_vert_shader, Sample13.c_frag_shader], ∀ extra : Nat,
      instructionWalk (littleEndianWords code) ((littleEndianWords code).length + 1 + extra)
        5 = instructionPositions (littleEndianWords code)) ∧
    [((instructionPositions (littleEndianWords Sample13.c_vert_shader)).getD []).length,
      (littleEndianWords Sample13.c_vert_shader).length,
      ((instructionPositions (littleEndianWords Sample13.c_frag_shader)).getD []).length,
      (littleEndianWords Sample13.c_frag_shader).length] = [66, 289, 27, 113] := by
  have hsome : ∀ code ∈ [Sample13.c_vert_shader, Sample13.c_frag_shader],
      (instructionPositions (littleEndianWords code)).isSome = true := by decide
  refine ⟨by decide, by decide, ?_, by decide⟩
  intro code hcode extra
  obtain ⟨positions, hpositions⟩ := Option.isSome_iff_exists.mp (hsome code hcode)
  rw [hpositions]
  exact instructionWalk_add_fuel _ extra _ 5 positions hpositions

set_option maxRecDepth 20000 in
/-- C21. Shader stages and embedded shaders of sample 13: `shader_stages[0]` has the stage
`VK_SHADER_STAGE_VERTEX_BIT`, the module made from `c_vert_shader` and the entry point
name "main"; `shader_stages[1]` has the stage `VK_SHADER_STAGE_FRAGMENT_BIT`, the module
made from `c_frag_shader` and the name "main". Each of the two arrays, decoded as
little-endian words, has exactly one `OpEntryPoint` instruction (opcode 15); its name
literal is "main", the `pName` of its stage, and its execution model is `Vertex` (0) in
`c_vert_shader` and `Fragment` (4) in `c_frag_shader`. -/
theorem shader_stages_match_entry_points :
    Sample13.shader_stages.map (fun stage => (stage.stage, stage.module.pCode, stage.pName)) =
      [(VK_SHADER_STAGE_VERTEX_BIT, Sample13.c_vert_shader, "main"),
       (VK_SHADER_STAGE_FRAGMENT_BIT, Sample13.c_frag_shader, "main")] ∧
    SpvOpEntryPoint = 15 ∧
    (instructionPositions (littleEndianWords Sample13.c_vert_shader)).isSome = true ∧
    (instructionPositions (littleEndianWords Sample13.c_frag_shader)).isSome = true ∧
    entryPoints (littleEndianWords Sample13.c_vert_shader) = [(0, "main")] ∧
    entryPoints (littleEndianWords Sample13.c_frag_shader) = [(4, "main")] ∧
    (∀ stage ∈ Sample13.shader_stages,
      (entryPoints (littleEndianWords stage.module.pCode)).map
          (fun entry => (some entry.1, entry.2)) =
        [(executionModel stage.stage, stage.pName)]) := by
  refine ⟨rfl, rfl, by decide, by decide, by decide, by decide, by decide⟩

/-! ### Memory allocation failures -/

set_option maxRecDepth 20000 in
/-- C23, evaluated on the code. The result of the `vkAllocateMemory` call for the depth
image is not examined in samples 09 and 13. In sample 09, when that call (number 37)
returns `VK_ERROR_OUT_OF_DEVICE_MEMORY` and every other call succeeds, `main` goes on to
call `vkBindImageMemory` (number 38) and, when the window is closed at the first query,
returns `EXIT_SUCCESS`; the same holds in sample 13 for call number 35. The allocations
for the uniform buffer (call 42 in sample 09, call 40 in sample 13) and for the vertex
buffer (call 53 in sample 13) are examined: when one of them returns
`VK_ERROR_OUT_OF_DEVICE_MEMORY`, it is the last call and `main` returns
`EXIT_FAILURE`. -/
theorem depth_image_allocation_result_ignored :
    ((run (allocationFails 37 49) 1 (Sample09.main exampleInputs) 0).trace[37]? =
        some (.call "vkAllocateMemory" VK_ERROR_OUT_OF_DEVICE_MEMORY) ∧
      (run (allocationFails 37 49) 1 (Sample09.main exampleInputs) 0).trace[38]? =
        some (.guarded "vkBindImageMemory" "BindImageMemory" VK_SUCCESS) ∧
      (run (allocationFails 37 49) 1 (Sample09.main exampleInputs) 0).trace.length = 50 ∧
      (run (allocationFails 37 49) 1 (Sample09.main exampleInputs) 0).exit =
        some EXIT_SUCCESS) ∧
    ((run (allocationFails 35 58) 1 (Sample13.main exampleInputs) 0).trace[35]? =
        some (.call "vkAllocateMemory" VK_ERROR_OUT_OF_DEVICE_MEMORY) ∧
      (run (allocationFails 35 58) 1 (Sample13.main exampleInputs) 0).trace[36]? =
        some (.guarded "vkBindImageMemory" "BindImageMemory" VK_SUCCESS) ∧
      (run (allocationFails 35 58) 1 (Sample13.main exampleInputs) 0).trace.length = 59 ∧
      (run (allocationFails 35 58) 1 (Sample13.main exampleInputs) 0).exit =
        some EXIT_SUCCESS) ∧
    ((run (allocationFails 42 49) 1 (Sample09.main exampleInputs) 0).trace[42]? =
        some (.guarded "vkAllocateMemory" "AllocateMemory" VK_ERROR_OUT_OF_DEVICE_MEMORY) ∧
      (run (allocationFails 42 49) 1 (Sample09.main exampleInputs) 0).trace.length = 43 ∧
      (run (allocationFails 42 49) 1 (Sample09.main exampleInputs) 0).exit =
        some EXIT_FAILURE) ∧
    ((run (allocationFails 40 58) 1 (Sample13.main exampleInputs) 0).trace[40]? =
        some (.guarded "vkAllocateMemory" "AllocateMemory" VK_ERROR_OUT_OF_DEVICE_MEMORY) ∧
      (run (allocationFails 40 58) 1 (Sample13.main exampleInputs) 0).trace.length = 41 ∧
      (run (allocationFails 40 58) 1 (Sample13.main exampleInputs) 0).exit =
        some EXIT_FAILURE) ∧
    ((run (allocationFails 53 58) 1 (Sample13.main exampleInputs) 0).trace[53]? =
        some (.guarded "vkAllocateMemory" "AllocateMemory" VK_ERROR_OUT_OF_DEVICE_MEMORY) ∧
      (run (allocationFails 53 58) 1 (Sample13.main exampleInputs) 0).trace.length = 54 ∧
      (run (allocationFails 53 58) 1 (Sample13.main exampleInputs) 0).exit =
        some EXIT_FAILURE) ∧
    ((Sample09.main exampleInputs).filter fun step => "vkAllocateMemory" ∈ step.functions) =
      [.call "vkAllocateMemory", .guarded "vkAllocateMemory" "AllocateMemory"] ∧
    ((Sample13.main exampleInputs).filter fun step => "vkAllocateMemory" ∈ step.functions) =
      [.call "vkAllocateMemory", .guarded "vkAllocateMemory" "AllocateMemory",
       .guarded "vkAllocateMemory" "AllocateMemory"] := by
  decide

end VulkanLearning
